import Mathlib

/-!
EMM procedure registry and EMM state handlers of the MME NAS layer.

A shallow embedding of `SRC/NAS/nas_procedures.c`, `SRC/NAS/EMM/SAP/EmmRegistered.c`,
`SRC/NAS/EMM/SAP/EmmCommonProcedureInitiated.c` and of the reject entry points and
handlers of `SRC/NAS/EMM/ServiceRequestHdl.c` and `SRC/NAS/EMM/TrackingAreaUpdate.c`.

Memory model.  Procedure objects live in a heap indexed by addresses; a pointer
is `none` (NULL) or `some a`.  Reading through NULL, reading or freeing an
object that is not allocated, a fatal assertion and a failed `assert` stop the
run with a `Fault`; every function therefore returns `Except Fault _`, and a
result `.ok` means that the C function ran to its end.  `calloc` hands out the
address `brk` with a zeroed object and increments `brk` (allocation itself never
fails in the model).  The per-device registry `emm_procedures` is owned by the
context and is modelled inline as an `Option`.  The two intrusive lists of the
registry are lists of wrapper nodes, first element first; a wrapper is allocated
when it is linked and freed when it is unlinked, so a wrapper that is no longer
in its list is a freed one.  Log output is not modelled.
-/

namespace Emm

/-! ## Data model -/

abbrev Addr := Nat

abbrev Ptr := Option Addr

/-- Modelled from the spec: the two-valued result convention, success. -/
def RETURNok : Int := 0

/-- Modelled from the spec: the two-valued result convention, failure. -/
def RETURNerror : Int := -1

/-- Modelled from the spec: the timer identifier of a timer that is not running
(the timer header is not among the sources). -/
def NAS_TIMER_INACTIVE_ID : Int := -1

/-- Modelled from the spec: the FSM states named by the handlers; `EMM_INVALID`
is the zero value of the enumeration (what `calloc` leaves in a fresh
procedure) and the state reported for a context that does not exist. -/
inductive emm_fsm_state_t where
  | EMM_INVALID
  | EMM_DEREGISTERED
  | EMM_REGISTERED
  | EMM_DEREGISTERED_INITIATED
  | EMM_COMMON_PROCEDURE_INITIATED
  deriving DecidableEq, Repr

/-- Modelled from the spec: ownership class of a procedure (`nas_base_proc_t.type`). -/
inductive nas_base_proc_type_t where
  | NAS_PROC_TYPE_NONE
  | NAS_PROC_TYPE_EMM
  | NAS_PROC_TYPE_ESM
  | NAS_PROC_TYPE_CN
  deriving DecidableEq, Repr

/-- Modelled from the spec: category of an EMM procedure (`nas_emm_proc_t.type`). -/
inductive nas_emm_proc_type_t where
  | NAS_EMM_PROC_TYPE_NONE
  | NAS_EMM_PROC_TYPE_SPECIFIC
  | NAS_EMM_PROC_TYPE_COMMON
  | NAS_EMM_PROC_TYPE_CONN_MNGT
  deriving DecidableEq, Repr

/-- Modelled from the spec: kind of a specific procedure. -/
inductive emm_specific_proc_type_t where
  | EMM_SPEC_PROC_TYPE_NONE
  | EMM_SPEC_PROC_TYPE_ATTACH
  | EMM_SPEC_PROC_TYPE_DETACH
  | EMM_SPEC_PROC_TYPE_TAU
  deriving DecidableEq, Repr

/-- Modelled from the spec: kind of a common procedure. -/
inductive emm_common_proc_type_t where
  | EMM_COMM_PROC_NONE
  | EMM_COMM_PROC_GUTI
  | EMM_COMM_PROC_AUTH
  | EMM_COMM_PROC_SMC
  | EMM_COMM_PROC_IDENT
  | EMM_COMM_PROC_INFO
  deriving DecidableEq, Repr

/-- Modelled from the spec: kind of a connection-management procedure. -/
inductive emm_con_mngt_proc_type_t where
  | EMM_CON_MNGT_PROC_NONE
  | EMM_CON_MNGT_PROC_SERVICE_REQUEST
  deriving DecidableEq, Repr

/-- Modelled from the spec: kind of a core-network procedure. -/
inductive cn_proc_type_t where
  | CN_PROC_NONE
  | CN_PROC_AUTH_INFO
  deriving DecidableEq, Repr

/-- A function pointer stored in a callback slot.  The handlers of the sources
that are installed as callbacks are named; `other_fn n` is any other function. -/
inductive callback_t where
  | _emm_service_reject
  | _emm_attach_reject
  | _emm_tracking_area_update_reject
  | _emm_tracking_area_update_abort
  | _emm_tracking_area_update_t3450_handler
  | other_fn (n : Nat)
  deriving DecidableEq, Repr

/-- A NAS timer (`struct nas_timer_s`): identifier and duration in seconds. -/
structure nas_timer_t where
  id : Int := 0
  sec : Nat := 0
  deriving DecidableEq, Repr

/-- Modelled from the spec: one record for every procedure object.  The C
structures nest (`nas_base_proc_t` inside `nas_emm_proc_t` inside the
specific / common / connection-management structure, or inside `nas_cn_proc_t`)
and the code casts freely between the levels; the record holds the fields of
all levels that the sources read or write.  The default value of each field is
the all-zero object returned by `calloc`.  The kind tag of the outermost
level is kept per category (`spec_type`, `comm_type`, `con_mngt_type`,
`cn_type`); owned buffers are represented by whether the pointer is set. -/
structure nas_proc_t where
  success_notif : Option callback_t := none
  failure_notif : Option callback_t := none
  abort : Option callback_t := none
  fail_in : Option callback_t := none
  fail_out : Option callback_t := none
  time_out : Option callback_t := none
  base_type : nas_base_proc_type_t := .NAS_PROC_TYPE_NONE
  parent : Ptr := none
  child : Ptr := none
  emm_type : nas_emm_proc_type_t := .NAS_EMM_PROC_TYPE_NONE
  previous_emm_fsm_state : emm_fsm_state_t := .EMM_INVALID
  delivered : Option callback_t := none
  not_delivered : Option callback_t := none
  not_delivered_ho : Option callback_t := none
  spec_type : emm_specific_proc_type_t := .EMM_SPEC_PROC_TYPE_NONE
  comm_type : emm_common_proc_type_t := .EMM_COMM_PROC_NONE
  con_mngt_type : emm_con_mngt_proc_type_t := .EMM_CON_MNGT_PROC_NONE
  cn_type : cn_proc_type_t := .CN_PROC_NONE
  T3450 : nas_timer_t := {}
  T3460 : nas_timer_t := {}
  T3470 : nas_timer_t := {}
  ies : Bool := false
  esm_msg_out : Bool := false
  unchecked_imsi : Bool := false
  emm_cause : Int := 0
  ue_id : Nat := 0
  deriving DecidableEq, Repr

/-- A node of the common-procedure list (`nas_emm_common_procedure_t`): its own
address and the procedure it wraps. -/
structure nas_emm_common_procedure_t where
  addr : Addr
  proc : Ptr
  deriving DecidableEq, Repr

/-- A node of the core-network procedure list (`nas_cn_procedure_t`). -/
structure nas_cn_procedure_t where
  addr : Addr
  proc : Ptr
  deriving DecidableEq, Repr

/-- The per-device procedure registry (`emm_procedures_t`). -/
structure emm_procedures_t where
  emm_specific_proc : Ptr := none
  emm_common_procs : List nas_emm_common_procedure_t := []
  cn_procs : List nas_cn_procedure_t := []
  emm_con_mngt_proc : Ptr := none
  deriving DecidableEq, Repr

/-- The EMM context of a device (`struct emm_context_s`), reduced to the fields
the sources use: FSM state, security context and the registry pointer. -/
structure emm_context_t where
  _emm_fsm_state : emm_fsm_state_t := .EMM_INVALID
  _security : Nat := 0
  emm_procedures : Option emm_procedures_t := none
  deriving DecidableEq, Repr

/-- The timer durations read from `mme_config.nas_config`. -/
structure nas_config_t where
  t3450_sec : Nat := 0
  t3460_sec : Nat := 0
  t3470_sec : Nat := 0
  deriving DecidableEq, Repr

/-- Modelled from the spec: the primitives of the EMMREG service access point
named by the two handlers; `other_primitive n` is any other value of the
enumeration. -/
inductive emm_reg_primitive_t where
  | _EMMREG_COMMON_PROC_REQ
  | _EMMREG_COMMON_PROC_CNF
  | _EMMREG_COMMON_PROC_REJ
  | _EMMREG_COMMON_PROC_ABORT
  | _EMMREG_ATTACH_CNF
  | _EMMREG_ATTACH_REJ
  | _EMMREG_ATTACH_ABORT
  | _EMMREG_DETACH_INIT
  | _EMMREG_DETACH_REQ
  | _EMMREG_DETACH_FAILED
  | _EMMREG_DETACH_CNF
  | _EMMREG_TAU_REQ
  | _EMMREG_TAU_CNF
  | _EMMREG_TAU_REJ
  | _EMMREG_SERVICE_REQ
  | _EMMREG_SERVICE_CNF
  | _EMMREG_SERVICE_REJ
  | _EMMREG_LOWERLAYER_SUCCESS
  | _EMMREG_LOWERLAYER_FAILURE
  | _EMMREG_LOWERLAYER_RELEASE
  | _EMMREG_LOWERLAYER_NON_DELIVERY
  | other_primitive (n : Nat)
  deriving DecidableEq, Repr

/-- Modelled from the spec: the event handed to a state handler (`emm_reg_t`):
primitive, device identifier, context pointer (`true`: the context of the
state, `false`: NULL), the notify and free flags and the procedure reference of
the primitive-specific payload (one field per member of the union `u`). -/
structure emm_reg_t where
  primitive : emm_reg_primitive_t
  ue_id : Nat := 0
  ctx : Bool := true
  notify : Bool := false
  free_proc : Bool := false
  common_proc : Ptr := none
  attach_proc : Ptr := none
  tau_proc : Ptr := none
  sr_proc : Ptr := none
  ll_failure_emm_proc : Ptr := none
  non_delivery_ho_emm_proc : Ptr := none
  deriving DecidableEq, Repr

/-- Modelled from the spec: the EMM cause of a rejection (`emm_cause_t`), an
integer code; the header with the codes is not among the sources. -/
abbrev emm_cause_t := Int

/-- Modelled from the spec: the cause code that stands for success.  Of the codes
only the two that the sources name are used, and only the fact that they
differ. -/
def EMM_CAUSE_SUCCESS : emm_cause_t := -1

/-- Modelled from the spec: the cause code "implicitly detached". -/
def EMM_CAUSE_IMPLICITLY_DETACHED : emm_cause_t := 10

/-- Modelled from the spec: the device identifier that stands for "no identifier
assigned yet". -/
def INVALID_MME_UE_S1AP_ID : Nat := 0

/-- Modelled from the spec: the NAS-info discriminator of a primitive to the
access stratum, which names the procedure whose message is carried. -/
inductive emm_as_nas_info_t where
  | EMM_AS_NAS_INFO_NONE
  | EMM_AS_NAS_INFO_ATTACH
  | EMM_AS_NAS_INFO_DETACH
  | EMM_AS_NAS_INFO_TAU
  | EMM_AS_NAS_INFO_SR
  | EMM_AS_NAS_INFO_EXTSR
  deriving DecidableEq, Repr

/-- Modelled from the spec: the security data of a primitive to the access
stratum as `emm_as_set_security_data` fills it: a snapshot of the security
context of the device and the two flags passed to the function. -/
structure emm_as_security_data_t where
  security : Nat := 0
  is_new : Bool := false
  is_ciphered : Bool := false
  deriving DecidableEq, Repr

/-- Modelled from the spec: the payload of the establishment primitives to the
access stratum (`emm_as_establish_t`), reduced to the fields the sources
write; `guti` and `nas_msg` are pointers, `false` is NULL. -/
structure emm_as_establish_t where
  ue_id : Nat := 0
  guti : Bool := false
  emm_cause : emm_cause_t := 0
  nas_info : emm_as_nas_info_t := .EMM_AS_NAS_INFO_NONE
  nas_msg : Bool := false
  sctx : emm_as_security_data_t := {}
  deriving DecidableEq, Repr

/-- Modelled from the spec: a message to the EMM service access point
(`emm_sap_t`): an event for the FSM of the device (the primitives
`EMMREG_...`, which the access point hands on under the names `_EMMREG_...`)
or the establishment-rejected primitive for the access stratum. -/
inductive emm_sap_t where
  | EMMREG (evt : emm_reg_t)
  | EMMAS_ESTABLISH_REJ (msg : emm_as_establish_t)
  deriving DecidableEq, Repr

/-- The callback slot through which a function pointer is called. -/
inductive cb_slot where
  | success_notif
  | failure_notif
  | abort
  | fail_in
  | fail_out
  | time_out
  deriving DecidableEq, Repr

/-- Calls into collaborators, recorded in the order in which they happen. -/
inductive Action where
  | callback (slot : cb_slot) (f : callback_t) (proc : Ptr)
  | emm_fsm_set_state (ue_id : Nat) (st : emm_fsm_state_t)
  | nas_stop_T3450 (ue_id : Nat) (timer : nas_timer_t)
  | emm_sap_send (msg : emm_sap_t)
  | mme_api_notified_new_ue_s1ap_id_association (mme_ue_s1ap_id : Nat)
  deriving DecidableEq, Repr

/-- Ways in which a run stops without returning. -/
inductive Fault where
  | null_dereference
  | invalid_pointer
  | assert_fatal
  | assert_failed
  deriving DecidableEq, Repr

/-- The memory the code works on: the heap of procedure objects, the next
address `calloc` returns, the EMM context of the device with the UE
identifier of the enclosing `ue_mm_context_s`, the configuration, the return
codes of the callbacks (chosen by the environment) and the trace of calls to
collaborators. -/
structure State where
  procs : Addr → Option nas_proc_t
  brk : Addr
  emm_context : emm_context_t
  mme_ue_s1ap_id : Nat
  mme_config : nas_config_t
  callback_rc : callback_t → Int
  trace : List Action

/-! ## Heap primitives -/

/-- Read the object a pointer refers to. -/
def deref (s : State) (p : Ptr) : Except Fault nas_proc_t :=
  match p with
  | none => .error .null_dereference
  | some a =>
    match s.procs a with
    | none => .error .invalid_pointer
    | some o => .ok o

/-- Overwrite the object at an address. -/
def store (s : State) (a : Addr) (o : nas_proc_t) : State :=
  { s with procs := fun x => if x = a then some o else s.procs x }

/-- The effect of `free_wrapper (&p)` on the heap for a procedure pointer `p`:
NULL is left alone, an allocated object is released, anything else is an
invalid free.  The caller clears the pointer variable. -/
def free_wrapper (s : State) (p : Ptr) : Except Fault State :=
  match p with
  | none => .ok s
  | some a =>
    match s.procs a with
    | none => .error .invalid_pointer
    | some _ => .ok { s with procs := fun x => if x = a then none else s.procs x }

/-- A zeroed object from `calloc`. -/
def calloc (s : State) : Addr × State :=
  (s.brk, { s with procs := fun x => if x = s.brk then some {} else s.procs x, brk := s.brk + 1 })

/-- A list wrapper from `calloc`: a fresh address; the node itself is kept in the
list it is inserted in. -/
def calloc_node (s : State) : Addr × State :=
  (s.brk, { s with brk := s.brk + 1 })

/-- Replace the registry pointer of the context. -/
def set_emm_procedures (s : State) (r : Option emm_procedures_t) : State :=
  { s with emm_context := { s.emm_context with emm_procedures := r } }

/-! ## nas_procedures.c -/

/-- `nas_unlink_procedures`: both pointers are tested for NULL, then the two
links are compared (the second comparison only if the first holds) and, if
both match, cleared, child side first. -/
def nas_unlink_procedures (s : State) (parent_proc child_proc : Ptr) : Except Fault (Int × State) :=
  match parent_proc, child_proc with
  | some p, some c => do
    let pp ← deref s (some p)
    if pp.child = some c then
      let cc ← deref s (some c)
      if cc.parent = some p then
        let s1 := store s c { cc with parent := none }
        let pp1 ← deref s1 (some p)
        let s2 := store s1 p { pp1 with child := none }
        return (RETURNok, s2)
      else
        return (RETURNerror, s)
    else
      return (RETURNerror, s)
  | _, _ => return (RETURNerror, s)

/-- The loop of `get_nas_common_procedure` over the list nodes: the first node
whose procedure has the requested kind. -/
def get_nas_common_procedure_loop (s : State) (proc_type : emm_common_proc_type_t) :
    List nas_emm_common_procedure_t → Except Fault Ptr
  | [] => .ok none
  | p1 :: p2 => do
    let o ← deref s p1.proc
    if o.comm_type = proc_type then
      return p1.proc
    else
      get_nas_common_procedure_loop s proc_type p2

/-- `get_nas_common_procedure`.  Here and below a parameter `ctxt : Bool` or
`emm_context : Bool` is a pointer to the EMM context that the callee tests or
that callers may pass as NULL: `true` is the address of the context of the
state, `false` is NULL. -/
def get_nas_common_procedure (s : State) (ctxt : Bool) (proc_type : emm_common_proc_type_t) :
    Except Fault Ptr :=
  if ctxt then
    match s.emm_context.emm_procedures with
    | some r => get_nas_common_procedure_loop s proc_type r.emm_common_procs
    | none => .ok none
  else .ok none

/-- The loop of `get_nas_cn_procedure`. -/
def get_nas_cn_procedure_loop (s : State) (proc_type : cn_proc_type_t) :
    List nas_cn_procedure_t → Except Fault Ptr
  | [] => .ok none
  | p1 :: p2 => do
    let o ← deref s p1.proc
    if o.cn_type = proc_type then
      return p1.proc
    else
      get_nas_cn_procedure_loop s proc_type p2

/-- `get_nas_cn_procedure`. -/
def get_nas_cn_procedure (s : State) (ctxt : Bool) (proc_type : cn_proc_type_t) :
    Except Fault Ptr :=
  if ctxt then
    match s.emm_context.emm_procedures with
    | some r => get_nas_cn_procedure_loop s proc_type r.cn_procs
    | none => .ok none
  else .ok none

/-- `get_nas_common_procedure_guti_realloc`. -/
def get_nas_common_procedure_guti_realloc (s : State) (ctxt : Bool) : Except Fault Ptr :=
  get_nas_common_procedure s ctxt .EMM_COMM_PROC_GUTI

/-- `get_nas_common_procedure_authentication`. -/
def get_nas_common_procedure_authentication (s : State) (ctxt : Bool) : Except Fault Ptr :=
  get_nas_common_procedure s ctxt .EMM_COMM_PROC_AUTH

/-- `get_nas_cn_procedure_auth_info`. -/
def get_nas_cn_procedure_auth_info (s : State) (ctxt : Bool) : Except Fault Ptr :=
  get_nas_cn_procedure s ctxt .CN_PROC_AUTH_INFO

/-- `get_nas_common_procedure_smc`. -/
def get_nas_common_procedure_smc (s : State) (ctxt : Bool) : Except Fault Ptr :=
  get_nas_common_procedure s ctxt .EMM_COMM_PROC_SMC

/-- `get_nas_common_procedure_identification`. -/
def get_nas_common_procedure_identification (s : State) (ctxt : Bool) : Except Fault Ptr :=
  get_nas_common_procedure s ctxt .EMM_COMM_PROC_IDENT

/-- The shared body of `get_nas_specific_procedure_attach`, `_detach` and
`_tau`: context, registry and specific pointer are tested in this order, then
the kind of the specific procedure is read. -/
def get_nas_specific_procedure (s : State) (ctxt : Bool) (k : emm_specific_proc_type_t) :
    Except Fault Ptr :=
  if ctxt then
    match s.emm_context.emm_procedures with
    | some r =>
      match r.emm_specific_proc with
      | some a => do
        let o ← deref s (some a)
        if k = o.spec_type then return some a else return none
      | none => .ok none
    | none => .ok none
  else .ok none

/-- `get_nas_specific_procedure_attach`. -/
def get_nas_specific_procedure_attach (s : State) (ctxt : Bool) : Except Fault Ptr :=
  get_nas_specific_procedure s ctxt .EMM_SPEC_PROC_TYPE_ATTACH

/-- `get_nas_specific_procedure_detach`. -/
def get_nas_specific_procedure_detach (s : State) (ctxt : Bool) : Except Fault Ptr :=
  get_nas_specific_procedure s ctxt .EMM_SPEC_PROC_TYPE_DETACH

/-- `get_nas_specific_procedure_tau`. -/
def get_nas_specific_procedure_tau (s : State) (ctxt : Bool) : Except Fault Ptr :=
  get_nas_specific_procedure s ctxt .EMM_SPEC_PROC_TYPE_TAU

/-- `get_nas_con_mngt_procedure_service_request`. -/
def get_nas_con_mngt_procedure_service_request (s : State) (ctxt : Bool) : Except Fault Ptr :=
  if ctxt then
    match s.emm_context.emm_procedures with
    | some r =>
      match r.emm_con_mngt_proc with
      | some a => do
        let o ← deref s (some a)
        if emm_con_mngt_proc_type_t.EMM_CON_MNGT_PROC_SERVICE_REQUEST = o.con_mngt_type then
          return some a
        else
          return none
      | none => .ok none
    | none => .ok none
  else .ok none

/-- `nas_emm_procedure_gc`: reads the four collections through the registry
pointer (without testing it) and frees the registry when all are empty. -/
def nas_emm_procedure_gc (s : State) : Except Fault State :=
  match s.emm_context.emm_procedures with
  | none => .error .null_dereference
  | some r =>
    if r.emm_common_procs = [] ∧ r.cn_procs = [] ∧ r.emm_con_mngt_proc = none
        ∧ r.emm_specific_proc = none then
      .ok (set_emm_procedures s none)
    else
      .ok s

/-- `nas_delete_con_mngt_procedure`: deleting an existing connection-management
procedure is the fatal assertion `AssertFatal(0, "TODO")`. -/
def nas_delete_con_mngt_procedure (s : State) (proc : Ptr) : Except Fault (State × Ptr) :=
  match proc with
  | some _ => .error .assert_fatal
  | none => .ok (s, none)

/-- `nas_delete_common_procedure (emm_context, &proc)`; the second component of
the result is the value left in `proc`.  The kind-specific content is
released, then the list is searched for the first node that wraps `proc`: if
there is one, node and procedure are unlinked and freed and the function
returns at once; otherwise the garbage collection runs and the procedure is
freed anyway. -/
def nas_delete_common_procedure (s : State) (emm_context : Bool) (proc : Ptr) :
    Except Fault (State × Ptr) :=
  match proc with
  | none => .ok (s, none)
  | some a => do
    let o ← deref s (some a)
    let s1 :=
      if o.comm_type = .EMM_COMM_PROC_AUTH ∧ o.unchecked_imsi = true then
        store s a { o with unchecked_imsi := false }
      else s
    if emm_context = false then throw Fault.null_dereference
    match s1.emm_context.emm_procedures with
    | some r =>
      match r.emm_common_procs.find? (fun p1 => p1.proc = some a) with
      | some p1 =>
        let s2 := set_emm_procedures s1 (some { r with emm_common_procs := r.emm_common_procs.erase p1 })
        let s3 ← free_wrapper s2 p1.proc
        return (s3, none)
      | none =>
        let s2 ← nas_emm_procedure_gc s1
        let s3 ← free_wrapper s2 (some a)
        return (s3, none)
    | none =>
      let s3 ← free_wrapper s1 (some a)
      return (s3, none)

/-- `LIST_REMOVE (p1, entries)` followed by `free_wrapper (&p1)` for a node of the
common list.  A node that is not linked in the list any more has been freed
already: touching it again is an invalid access. -/
def list_remove_common (s : State) (p1 : nas_emm_common_procedure_t) : Except Fault State :=
  match s.emm_context.emm_procedures with
  | none => .error .invalid_pointer
  | some r =>
    if p1 ∈ r.emm_common_procs then
      .ok (set_emm_procedures s (some { r with emm_common_procs := r.emm_common_procs.erase p1 }))
    else
      .error .invalid_pointer

/-- `LIST_REMOVE (p1, entries)` followed by `free_wrapper (&p1)` for a node of the
core-network list. -/
def list_remove_cn (s : State) (p1 : nas_cn_procedure_t) : Except Fault State :=
  match s.emm_context.emm_procedures with
  | none => .error .invalid_pointer
  | some r =>
    if p1 ∈ r.cn_procs then
      .ok (set_emm_procedures s (some { r with cn_procs := r.cn_procs.erase p1 }))
    else
      .error .invalid_pointer

/-- The loop of `nas_delete_child_procedures` over the common list.  `p2` is read
before the body runs, so the walk follows the list as it was on entry.  For a
node whose procedure has `parent_proc` as parent the body calls
`nas_delete_common_procedure` and then unlinks and frees the node itself. -/
def nas_delete_child_procedures_loop (parent_proc : Ptr) :
    List nas_emm_common_procedure_t → State → Except Fault State
  | [], s => .ok s
  | p1 :: p2, s => do
    let o ← deref s p1.proc
    if o.parent = parent_proc then
      let (s1, _) ← nas_delete_common_procedure s true p1.proc
      let s2 ← list_remove_common s1 p1
      nas_delete_child_procedures_loop parent_proc p2 s2
    else
      nas_delete_child_procedures_loop parent_proc p2 s

/-- `nas_delete_child_procedures`: the loop over the common list, then the
connection-management procedure if its parent is `parent_proc`. -/
def nas_delete_child_procedures (s : State) (parent_proc : Ptr) : Except Fault State :=
  match s.emm_context.emm_procedures with
  | none => .ok s
  | some r => do
    let s1 ← nas_delete_child_procedures_loop parent_proc r.emm_common_procs s
    match s1.emm_context.emm_procedures with
    | none => throw Fault.null_dereference
    | some r1 =>
      match r1.emm_con_mngt_proc with
      | none => return s1
      | some c =>
        let o ← deref s1 (some c)
        if o.parent = parent_proc then
          let (s2, c2) ← nas_delete_con_mngt_procedure s1 (some c)
          return set_emm_procedures s2 (some { r1 with emm_con_mngt_proc := c2 })
        else
          return s1

/-- The last two statements of the three specific deletions:
`free_wrapper (&emm_context->emm_procedures->emm_specific_proc)` and the garbage
collection. -/
def free_specific_proc (s : State) : Except Fault State :=
  match s.emm_context.emm_procedures with
  | none => .error .null_dereference
  | some r => do
    let s1 ← free_wrapper s r.emm_specific_proc
    nas_emm_procedure_gc (set_emm_procedures s1 (some { r with emm_specific_proc := none }))

/-- The common part of `nas_delete_attach_procedure` and `nas_delete_tau_procedure`
once the procedure has been found: T3450 is stopped (a call into the timer
collaborator, recorded in the trace), the owned buffers are released, the
children are deleted, the specific procedure is freed and the garbage
collection runs. -/
def nas_delete_t3450_procedure (s : State) (a : Addr) : Except Fault State := do
  let o ← deref s (some a)
  let s1 := { s with trace := s.trace ++ [Action.nas_stop_T3450 s.mme_ue_s1ap_id o.T3450] }
  let s2 := store s1 a { o with ies := false, esm_msg_out := false }
  let s3 ← nas_delete_child_procedures s2 (some a)
  free_specific_proc s3

/-- `nas_delete_attach_procedure`. -/
def nas_delete_attach_procedure (s : State) (emm_context : Bool) : Except Fault State := do
  let proc ← get_nas_specific_procedure_attach s emm_context
  match proc with
  | some a => nas_delete_t3450_procedure s a
  | none => return s

/-- `nas_delete_tau_procedure`. -/
def nas_delete_tau_procedure (s : State) (emm_context : Bool) : Except Fault State := do
  let proc ← get_nas_specific_procedure_tau s emm_context
  match proc with
  | some a => nas_delete_t3450_procedure s a
  | none => return s

/-- `nas_delete_detach_procedure`: as the two above, without a timer. -/
def nas_delete_detach_procedure (s : State) (emm_context : Bool) : Except Fault State := do
  let proc ← get_nas_specific_procedure_detach s emm_context
  match proc with
  | some a =>
    let o ← deref s (some a)
    let s2 := store s a { o with ies := false }
    let s3 ← nas_delete_child_procedures s2 (some a)
    free_specific_proc s3
  | none => return s

/-- `nas_delete_auth_info_procedure (emm_context, &auth_info_proc)`: the child
link of the parent, if there is a parent, is cleared, then the procedure is
freed. -/
def nas_delete_auth_info_procedure (s : State) (auth_info_proc : Ptr) :
    Except Fault (State × Ptr) :=
  match auth_info_proc with
  | none => .ok (s, none)
  | some a => do
    let o ← deref s (some a)
    let s1 ←
      match o.parent with
      | some q => do
        let po ← deref s (some q)
        pure (store s q { po with child := none })
      | none => pure s
    let s2 ← free_wrapper s1 (some a)
    return (s2, none)

/-- `nas_delete_cn_procedure`: the first node that wraps `cn_proc` is looked up;
if there is one the procedure is deleted according to its kind and the node is
unlinked and freed, and the function returns; otherwise the garbage collection
runs. -/
def nas_delete_cn_procedure (s : State) (emm_context : Bool) (cn_proc : Ptr) : Except Fault State :=
  if emm_context = false then .error .null_dereference
  else
    match s.emm_context.emm_procedures with
    | none => .ok s
    | some r =>
      match r.cn_procs.find? (fun p1 => p1.proc = cn_proc) with
      | some p1 => do
        let o ← deref s cn_proc
        let s1 ←
          match o.cn_type with
          | .CN_PROC_AUTH_INFO => do
            let (s', _) ← nas_delete_auth_info_procedure s cn_proc
            pure s'
          | .CN_PROC_NONE => free_wrapper s cn_proc
        list_remove_cn s1 p1
      | none => nas_emm_procedure_gc s

/-- The loop of `nas_delete_common_procedures`: every node is unlinked, the
content of its procedure released, procedure and node freed. -/
def nas_delete_common_procedures_loop :
    List nas_emm_common_procedure_t → State → Except Fault State
  | [], s => .ok s
  | p1 :: p2, s => do
    let s1 ← list_remove_common s p1
    let o ← deref s1 p1.proc
    let s2 :=
      match p1.proc with
      | some a =>
        if o.comm_type = .EMM_COMM_PROC_AUTH ∧ o.unchecked_imsi = true then
          store s1 a { o with unchecked_imsi := false }
        else s1
      | none => s1
    let s3 ← free_wrapper s2 p1.proc
    nas_delete_common_procedures_loop p2 s3

/-- `nas_delete_common_procedures`. -/
def nas_delete_common_procedures (s : State) : Except Fault State :=
  match s.emm_context.emm_procedures with
  | none => .ok s
  | some r => do
    let s1 ← nas_delete_common_procedures_loop r.emm_common_procs s
    nas_emm_procedure_gc s1

/-- The loop of `nas_delete_cn_procedures`. -/
def nas_delete_cn_procedures_loop :
    List nas_cn_procedure_t → State → Except Fault State
  | [], s => .ok s
  | p1 :: p2, s => do
    let o ← deref s p1.proc
    let s1 ←
      match o.cn_type with
      | .CN_PROC_AUTH_INFO => do
        let (s', _) ← nas_delete_auth_info_procedure s p1.proc
        pure s'
      | .CN_PROC_NONE => free_wrapper s p1.proc
    let s2 ← list_remove_cn s1 p1
    nas_delete_cn_procedures_loop p2 s2

/-- `nas_delete_cn_procedures`. -/
def nas_delete_cn_procedures (s : State) : Except Fault State :=
  match s.emm_context.emm_procedures with
  | none => .ok s
  | some r => do
    let s1 ← nas_delete_cn_procedures_loop r.cn_procs s
    nas_emm_procedure_gc s1

/-- `nas_delete_all_emm_procedures`: the two lists, then the three specific
deletions (the connection-management deletion is a TODO comment in the source),
and at the end the registry itself is freed. -/
def nas_delete_all_emm_procedures (s : State) : Except Fault State :=
  match s.emm_context.emm_procedures with
  | none => .ok s
  | some _ => do
    let s1 ← nas_delete_cn_procedures s
    let s2 ← nas_delete_common_procedures s1
    let s3 ← nas_delete_attach_procedure s2 true
    let s4 ← nas_delete_detach_procedure s3 true
    let s5 ← nas_delete_tau_procedure s4 true
    return set_emm_procedures s5 none

/-- `_nas_new_emm_procedures`: a zeroed registry is allocated and returned, but
`LIST_INIT` is applied to the list head reached through
`emm_context->emm_procedures`, not to the new registry. -/
def _nas_new_emm_procedures (s : State) : Except Fault (emm_procedures_t × State) :=
  match s.emm_context.emm_procedures with
  | none => .error .null_dereference
  | some r => .ok ({}, set_emm_procedures s (some { r with emm_common_procs := [] }))

/-- The statements of `nas_new_attach_procedure` and `nas_new_tau_procedure` after
the registry test: the specific procedure is allocated, tagged and given the
configured T3450 duration. -/
def install_specific_proc (s : State) (k : emm_specific_proc_type_t) : Except Fault (Ptr × State) :=
  match s.emm_context.emm_procedures with
  | none => .error .null_dereference
  | some r =>
    let (a, s1) := calloc s
    let s2 := set_emm_procedures s1 (some { r with emm_specific_proc := some a })
    let o : nas_proc_t :=
      { base_type := .NAS_PROC_TYPE_EMM, emm_type := .NAS_EMM_PROC_TYPE_SPECIFIC, spec_type := k,
        T3450 := { sec := s.mme_config.t3450_sec, id := NAS_TIMER_INACTIVE_ID } }
    .ok (some a, store s2 a o)

/-- The shared body of `nas_new_attach_procedure` and `nas_new_tau_procedure`. -/
def nas_new_specific_procedure (s : State) (k : emm_specific_proc_type_t) : Except Fault (Ptr × State) :=
  match s.emm_context.emm_procedures with
  | none => do
    let (r, s1) ← _nas_new_emm_procedures s
    install_specific_proc (set_emm_procedures s1 (some r)) k
  | some r =>
    if r.emm_specific_proc ≠ none then .ok (none, s)
    else install_specific_proc s k

/-- `nas_new_attach_procedure`. -/
def nas_new_attach_procedure (s : State) : Except Fault (Ptr × State) :=
  nas_new_specific_procedure s .EMM_SPEC_PROC_TYPE_ATTACH

/-- `nas_new_tau_procedure`. -/
def nas_new_tau_procedure (s : State) : Except Fault (Ptr × State) :=
  nas_new_specific_procedure s .EMM_SPEC_PROC_TYPE_TAU

/-- The statements of `nas_new_service_request_procedure` after the registry test. -/
def install_con_mngt_proc (s : State) : Except Fault (Ptr × State) :=
  match s.emm_context.emm_procedures with
  | none => .error .null_dereference
  | some r =>
    let (a, s1) := calloc s
    let s2 := set_emm_procedures s1 (some { r with emm_con_mngt_proc := some a })
    let o : nas_proc_t :=
      { base_type := .NAS_PROC_TYPE_EMM, emm_type := .NAS_EMM_PROC_TYPE_CONN_MNGT,
        con_mngt_type := .EMM_CON_MNGT_PROC_SERVICE_REQUEST }
    .ok (some a, store s2 a o)

/-- `nas_new_service_request_procedure`. -/
def nas_new_service_request_procedure (s : State) : Except Fault (Ptr × State) :=
  match s.emm_context.emm_procedures with
  | none => do
    let (r, s1) ← _nas_new_emm_procedures s
    install_con_mngt_proc (set_emm_procedures s1 (some r))
  | some r =>
    if r.emm_con_mngt_proc ≠ none then .ok (none, s)
    else install_con_mngt_proc s

/-- The first statement of the constructors of list procedures: the registry is
created if the context has none. -/
def ensure_emm_procedures (s : State) : Except Fault State :=
  match s.emm_context.emm_procedures with
  | none => do
    let (r, s1) ← _nas_new_emm_procedures s
    return set_emm_procedures s1 (some r)
  | some _ => .ok s

/-- The statements shared by the three constructors of common procedures after
the registry test: the procedure `o` is allocated, a wrapper is allocated and
inserted at the head of the common list. -/
def install_common_proc (s : State) (o : nas_proc_t) : Except Fault (Ptr × State) :=
  let (a, s1) := calloc s
  let s2 := store s1 a o
  let (w, s4) := calloc_node s2
  match s4.emm_context.emm_procedures with
  | none => .error .null_dereference
  | some r =>
    .ok (some a, set_emm_procedures s4
      (some { r with emm_common_procs := { addr := w, proc := some a } :: r.emm_common_procs }))

/-- `nas_new_identification_procedure`. -/
def nas_new_identification_procedure (s : State) : Except Fault (Ptr × State) := do
  let s1 ← ensure_emm_procedures s
  install_common_proc s1
    { base_type := .NAS_PROC_TYPE_EMM, emm_type := .NAS_EMM_PROC_TYPE_COMMON,
      comm_type := .EMM_COMM_PROC_IDENT,
      T3470 := { sec := s.mme_config.t3470_sec, id := NAS_TIMER_INACTIVE_ID } }

/-- `nas_new_authentication_procedure`. -/
def nas_new_authentication_procedure (s : State) : Except Fault (Ptr × State) := do
  let s1 ← ensure_emm_procedures s
  install_common_proc s1
    { base_type := .NAS_PROC_TYPE_EMM, emm_type := .NAS_EMM_PROC_TYPE_COMMON,
      comm_type := .EMM_COMM_PROC_AUTH,
      T3460 := { sec := s.mme_config.t3460_sec, id := NAS_TIMER_INACTIVE_ID } }

/-- `nas_new_smc_procedure`. -/
def nas_new_smc_procedure (s : State) : Except Fault (Ptr × State) := do
  let s1 ← ensure_emm_procedures s
  install_common_proc s1
    { base_type := .NAS_PROC_TYPE_EMM, emm_type := .NAS_EMM_PROC_TYPE_COMMON,
      comm_type := .EMM_COMM_PROC_SMC,
      T3460 := { sec := s.mme_config.t3460_sec, id := NAS_TIMER_INACTIVE_ID } }

/-- `nas_new_cn_auth_info_procedure`. -/
def nas_new_cn_auth_info_procedure (s : State) : Except Fault (Ptr × State) := do
  let s0 ← ensure_emm_procedures s
  let (a, s1) := calloc s0
  let s2 := store s1 a { base_type := .NAS_PROC_TYPE_CN, cn_type := .CN_PROC_AUTH_INFO }
  let (w, s4) := calloc_node s2
  match s4.emm_context.emm_procedures with
  | none => throw Fault.null_dereference
  | some r =>
    return (some a, set_emm_procedures s4
      (some { r with cn_procs := { addr := w, proc := some a } :: r.cn_procs }))

/-! ## EMM state handlers -/

/-- Modelled from the spec: `emm_fsm_get_state` (the FSM module is not among the
sources) reads the stored FSM state of the context; a context that does not
exist has no state, which is reported as `EMM_INVALID`. -/
def emm_fsm_get_state (s : State) (emm_context : Bool) : emm_fsm_state_t :=
  if emm_context then s.emm_context._emm_fsm_state else .EMM_INVALID

/-- Modelled from the spec: `emm_fsm_set_state` (the FSM module is not among the
sources) stores the new FSM state in the context and reports success; it
reports failure, and does nothing, if the context is gone.  A successful call
is recorded in the trace. -/
def emm_fsm_set_state (s : State) (ue_id : Nat) (emm_context : Bool) (st : emm_fsm_state_t) :
    Int × State :=
  if emm_context then
    (RETURNok,
      { s with emm_context := { s.emm_context with _emm_fsm_state := st },
               trace := s.trace ++ [Action.emm_fsm_set_state ue_id st] })
  else (RETURNerror, s)

/-- A call through a callback slot.  The callbacks are code of the procedures,
outside the handlers: the model records the call in the trace, takes the
return code from the environment and leaves the memory as it is.  A call
through a NULL function pointer does not return. -/
def call_callback (s : State) (slot : cb_slot) (f : Option callback_t) (proc : Ptr) :
    Except Fault (Int × State) :=
  match f with
  | none => .error .null_dereference
  | some g => .ok (s.callback_rc g, { s with trace := s.trace ++ [Action.callback slot g proc] })

/-- Modelled from the spec: `nas_free_procedure (emm_ctx, &proc)` is called by
`EmmCommonProcedureInitiated` and defined nowhere in the sources.  The
transition table says that the handler deletes the procedure; the model
applies the delete operation of the registry (as the sources define it) that
belongs to the class and category tags of the procedure, and does nothing for
a procedure without such tags.  The second component is the value left in
`proc`. -/
def nas_free_procedure (s : State) (emm_ctx : Bool) (proc : Ptr) : Except Fault (State × Ptr) :=
  match proc with
  | none => .ok (s, none)
  | some a => do
    let o ← deref s (some a)
    match o.base_type, o.emm_type with
    | .NAS_PROC_TYPE_CN, _ => do
      let s1 ← nas_delete_cn_procedure s emm_ctx (some a)
      return (s1, none)
    | .NAS_PROC_TYPE_EMM, .NAS_EMM_PROC_TYPE_COMMON => nas_delete_common_procedure s emm_ctx (some a)
    | .NAS_PROC_TYPE_EMM, .NAS_EMM_PROC_TYPE_CONN_MNGT => nas_delete_con_mngt_procedure s (some a)
    | .NAS_PROC_TYPE_EMM, .NAS_EMM_PROC_TYPE_SPECIFIC =>
      match o.spec_type with
      | .EMM_SPEC_PROC_TYPE_ATTACH => do
        let s1 ← nas_delete_attach_procedure s emm_ctx
        return (s1, none)
      | .EMM_SPEC_PROC_TYPE_TAU => do
        let s1 ← nas_delete_tau_procedure s emm_ctx
        return (s1, none)
      | .EMM_SPEC_PROC_TYPE_DETACH => do
        let s1 ← nas_delete_detach_procedure s emm_ctx
        return (s1, none)
      | .EMM_SPEC_PROC_TYPE_NONE => return (s, some a)
    | _, _ => return (s, some a)

/-- The call `nas_unlink_procedures (&P->parent, &(cast) P)` of lines 110 and 138
of EmmCommonProcedureInitiated.c, for the procedure `P` at address `a`.  The
callee (nas_procedures.c:254-264) takes two procedures; the call passes the
address of the parent slot inside `P` and the address of the unnamed object that
holds the value of the cast.  Both are non-NULL, so the callee evaluates
`parent_proc->child == child_proc`: it reads a word of `P`, which must be
allocated, and compares it with the address of the unnamed object.  No word of
a procedure holds that address: the test fails, `child_proc->parent` is not
read, nothing is written and the result is RETURNerror. -/
def nas_unlink_procedures_by_address (s : State) (a : Addr) : Except Fault (Int × State) := do
  let _ ← deref s (some a)
  pure (RETURNerror, s)

/-- The first statement of the `_EMMREG_COMMON_PROC_ABORT` and
`_EMMREG_COMMON_PROC_CNF` branches of `EmmCommonProcedureInitiated` for the
procedure `o` at address `a`: if the procedure has a parent,
`nas_unlink_procedures` is called, with the arguments as the source spells
them (`nas_unlink_procedures_by_address`). -/
def unlink_from_parent (s : State) (a : Addr) (o : nas_proc_t) : Except Fault (Int × State) :=
  if o.parent ≠ none then nas_unlink_procedures_by_address s a
  else pure (RETURNerror, s)

/-- The `_EMMREG_COMMON_PROC_ABORT` branch of `EmmCommonProcedureInitiated`. -/
def common_proc_abort (s : State) (evt : emm_reg_t) : Except Fault (Int × State) :=
  match evt.common_proc with
  | none => .ok (RETURNerror, s)
  | some a => do
    let o ← deref s (some a)
    let (_, s1) ← unlink_from_parent s a o
    let o1 ← deref s1 (some a)
    let s2 ←
      match o1.abort with
      | some f => do
        let (_, s') ← call_callback s1 .abort (some f) none
        pure s'
      | none => pure s1
    let o2 ← deref s2 (some a)
    let (rc, s3) := emm_fsm_set_state s2 evt.ue_id evt.ctx o2.previous_emm_fsm_state
    let o3 ← deref s3 (some a)
    let s4 ←
      if rc ≠ RETURNerror ∧ evt.ctx = true ∧ evt.notify = true ∧ o3.failure_notif ≠ none then do
        let (_, s') ← call_callback s3 .failure_notif o3.failure_notif none
        pure s'
      else pure s3
    let (s5, _) ← nas_free_procedure s4 evt.ctx (some a)
    return (rc, s5)

/-- The `_EMMREG_COMMON_PROC_CNF` branch of `EmmCommonProcedureInitiated`; the
success callback is called without a test of the slot. -/
def common_proc_cnf (s : State) (evt : emm_reg_t) : Except Fault (Int × State) :=
  match evt.common_proc with
  | none => .ok (RETURNerror, s)
  | some a => do
    let o ← deref s (some a)
    let (_, s1) ← unlink_from_parent s a o
    let o1 ← deref s1 (some a)
    let (rc, s2) := emm_fsm_set_state s1 evt.ue_id evt.ctx o1.previous_emm_fsm_state
    let s3 ←
      if rc ≠ RETURNerror ∧ evt.ctx = true ∧ evt.notify = true then do
        let o2 ← deref s2 (some a)
        let (_, s') ← call_callback s2 .success_notif o2.success_notif none
        pure s'
      else pure s2
    let (s4, _) ← nas_free_procedure s3 evt.ctx (some a)
    return (rc, s4)

/-- The `_EMMREG_COMMON_PROC_REJ` branch of `EmmCommonProcedureInitiated`; the
procedure reference is read without a NULL test. -/
def common_proc_rej (s : State) (evt : emm_reg_t) : Except Fault (Int × State) := do
  let (rc0, s1) := emm_fsm_set_state s evt.ue_id evt.ctx .EMM_DEREGISTERED
  let (rc, s2) ←
    if rc0 ≠ RETURNerror ∧ evt.ctx = true ∧ evt.notify = true then do
      let o ← deref s1 evt.common_proc
      if o.failure_notif ≠ none then call_callback s1 .failure_notif o.failure_notif none
      else pure (rc0, s1)
    else pure (rc0, s1)
  if evt.free_proc = true then
    let (s3, _) ← nas_free_procedure s2 evt.ctx evt.common_proc
    return (rc, s3)
  else
    return (rc, s2)

/-- `EmmCommonProcedureInitiated`.  `rc` starts as `RETURNerror`; the handler
first asserts that the stored FSM state is `EMM_COMMON_PROCEDURE_INITIATED`.
The source spells the label of the attach-abort case `EMMREG_ATTACH_ABORT`, the
name that the header of the EMM service access point gives to the value
`_EMMREG_ATTACH_ABORT`; the header is not among the sources and the two names
are taken to be the same value, as the spec does. -/
def EmmCommonProcedureInitiated (s : State) (evt : emm_reg_t) : Except Fault (Int × State) :=
  if emm_fsm_get_state s evt.ctx ≠ .EMM_COMMON_PROCEDURE_INITIATED then .error .assert_failed
  else
    match evt.primitive with
    | ._EMMREG_COMMON_PROC_ABORT => common_proc_abort s evt
    | ._EMMREG_ATTACH_ABORT => .error .assert_fatal
    | ._EMMREG_COMMON_PROC_CNF => common_proc_cnf s evt
    | ._EMMREG_COMMON_PROC_REJ => common_proc_rej s evt
    | ._EMMREG_ATTACH_CNF => .ok (emm_fsm_set_state s evt.ue_id evt.ctx .EMM_REGISTERED)
    | ._EMMREG_ATTACH_REJ => do
      let (rc, s1) := emm_fsm_set_state s evt.ue_id evt.ctx .EMM_DEREGISTERED
      let (s2, _) ← nas_free_procedure s1 evt.ctx evt.attach_proc
      return (rc, s2)
    | ._EMMREG_LOWERLAYER_SUCCESS => .ok (RETURNok, s)
    | ._EMMREG_LOWERLAYER_RELEASE | ._EMMREG_LOWERLAYER_FAILURE => do
      let rc := RETURNerror
      let s1 ←
        if rc ≠ RETURNerror ∧ evt.ctx = true ∧ evt.notify = true then do
          let o ← deref s evt.ll_failure_emm_proc
          if o.failure_notif ≠ none then do
            let (_, s') ← call_callback s .failure_notif o.failure_notif none
            pure s'
          else pure s
        else pure s
      return emm_fsm_set_state s1 evt.ue_id evt.ctx .EMM_DEREGISTERED
    | ._EMMREG_LOWERLAYER_NON_DELIVERY => do
      let rc0 := RETURNerror
      let (rc, s1) ←
        if rc0 ≠ RETURNerror ∧ evt.ctx = true ∧ evt.notify = true then do
          let o ← deref s evt.non_delivery_ho_emm_proc
          if o.failure_notif ≠ none then call_callback s .failure_notif o.failure_notif none
          else pure (RETURNok, s)
        else pure (RETURNok, s)
      if rc ≠ RETURNerror then
        return emm_fsm_set_state s1 evt.ue_id evt.ctx .EMM_DEREGISTERED
      else
        return (rc, s1)
    | _ => .ok (RETURNerror, s)

/-- The statements shared by the `_EMMREG_TAU_CNF` and `_EMMREG_TAU_REJ` branches
of `EmmRegistered` after the optional state change: `fail_out`, then the
failure notification, then the deletion of the TAU procedure if the free flag
is set.  `rc` is the result so far. -/
def tau_cnf_rej (s : State) (evt : emm_reg_t) (a : Addr) (rc : Int) : Except Fault (Int × State) := do
  let o ← deref s (some a)
  let (rc1, s1) ←
    if evt.ctx = true ∧ o.fail_out ≠ none then call_callback s .fail_out o.fail_out (some a)
    else pure (rc, s)
  let o1 ← deref s1 (some a)
  let (rc2, s2) ←
    if rc1 ≠ RETURNerror ∧ evt.ctx = true ∧ evt.notify = true ∧ o1.failure_notif ≠ none then
      call_callback s1 .failure_notif o1.failure_notif none
    else pure (rc1, s1)
  if evt.free_proc = true then
    let s3 ← nas_delete_tau_procedure s2 evt.ctx
    return (rc2, s3)
  else
    return (rc2, s2)

/-- The lower-layer failure, release and non-delivery branches of `EmmRegistered`
share one test: context, notify flag, procedure reference and its failure
notification, in this order.  `rc_else` is the result when the callback is not
called. -/
def registered_ll_notify (s : State) (evt : emm_reg_t) (emm_proc : Ptr) (rc_else : Int) :
    Except Fault (Int × State) :=
  if evt.ctx = true ∧ evt.notify = true ∧ emm_proc ≠ none then do
    let o ← deref s emm_proc
    if o.failure_notif ≠ none then call_callback s .failure_notif o.failure_notif none
    else pure (rc_else, s)
  else pure (rc_else, s)

/-- `EmmRegistered`.  `rc` starts as `RETURNerror`; the handler first asserts that
the stored FSM state is `EMM_REGISTERED`. -/
def EmmRegistered (s : State) (evt : emm_reg_t) : Except Fault (Int × State) :=
  if emm_fsm_get_state s evt.ctx ≠ .EMM_REGISTERED then .error .assert_failed
  else
    match evt.primitive with
    | ._EMMREG_COMMON_PROC_REQ =>
      .ok (emm_fsm_set_state s evt.ue_id evt.ctx .EMM_COMMON_PROCEDURE_INITIATED)
    | ._EMMREG_ATTACH_CNF => .ok (emm_fsm_set_state s evt.ue_id evt.ctx .EMM_REGISTERED)
    | ._EMMREG_ATTACH_REJ => do
      let (rc, s1) := emm_fsm_set_state s evt.ue_id evt.ctx .EMM_DEREGISTERED
      let s2 ← nas_delete_attach_procedure s1 evt.ctx
      return (rc, s2)
    | ._EMMREG_TAU_CNF =>
      match evt.tau_proc with
      | some a => tau_cnf_rej s evt a RETURNerror
      | none => .ok (RETURNerror, s)
    | ._EMMREG_TAU_REJ =>
      match evt.tau_proc with
      | some a =>
        let (rc, s1) := emm_fsm_set_state s evt.ue_id evt.ctx .EMM_DEREGISTERED
        tau_cnf_rej s1 evt a rc
      | none => .ok (RETURNerror, s)
    | ._EMMREG_LOWERLAYER_SUCCESS => .ok (RETURNok, s)
    | ._EMMREG_LOWERLAYER_FAILURE => registered_ll_notify s evt evt.ll_failure_emm_proc RETURNerror
    | ._EMMREG_LOWERLAYER_RELEASE => registered_ll_notify s evt evt.ll_failure_emm_proc RETURNerror
    | ._EMMREG_LOWERLAYER_NON_DELIVERY =>
      registered_ll_notify s evt evt.non_delivery_ho_emm_proc RETURNok
    | _ => .ok (RETURNerror, s)

/-! ## Well-formed memory -/

/-- The pointer is NULL or refers to an allocated procedure. -/
def valid_ptr (s : State) (p : Ptr) : Bool :=
  match p with
  | none => true
  | some a => (s.procs a).isSome

/-- The test state used in the evaluations below: an empty heap, a context in
FSM state `st` with registry `r`, every callback reporting success. -/
def mk_state (st : emm_fsm_state_t) (r : Option emm_procedures_t) : State :=
  { procs := fun _ => none, brk := 100,
    emm_context := { _emm_fsm_state := st, emm_procedures := r },
    mme_ue_s1ap_id := 1, mme_config := { t3450_sec := 6, t3460_sec := 6, t3470_sec := 6 },
    callback_rc := fun _ => RETURNok, trace := [] }

/-- A test state with a heap: an attach procedure at address 1 that is the
specific procedure of the registry, in FSM state `st`. -/
def attach_state (st : emm_fsm_state_t) : State :=
  { mk_state st (some { emm_specific_proc := some 1 }) with
    procs := fun x =>
      if x = 1 then
        some { base_type := .NAS_PROC_TYPE_EMM, emm_type := .NAS_EMM_PROC_TYPE_SPECIFIC,
               spec_type := .EMM_SPEC_PROC_TYPE_ATTACH }
      else none }

/-- A test state: a parent procedure at address 1 and its child at address 2,
linked on both sides. -/
def linked_pair_state : State :=
  { mk_state .EMM_REGISTERED none with
    procs := fun x =>
      if x = 1 then some { child := some 2 }
      else if x = 2 then some { parent := some 1 }
      else none }

/-- A test state: the procedure at address 1 names the one at address 2 as its
child, but the procedure at address 2 has no parent (a link recorded on one
side only). -/
def half_linked_state : State :=
  { mk_state .EMM_REGISTERED none with
    procs := fun x =>
      if x = 1 then some { child := some 2 }
      else if x = 2 then some {}
      else none }

/-- The round trip of the testable properties as a sequence of calls: create an
attach procedure, create an authentication procedure, link it as the child of
the attach procedure (both sides of the link are set), delete the attach
procedure. -/
def attach_auth_round_trip (s : State) : Except Fault State := do
  let (attach_proc, s1) ← nas_new_attach_procedure s
  let (auth_proc, s2) ← nas_new_authentication_procedure s1
  let au ← deref s2 auth_proc
  let s3 :=
    match auth_proc with
    | some a => store s2 a { au with parent := attach_proc }
    | none => s2
  let att ← deref s3 attach_proc
  let s4 :=
    match attach_proc with
    | some a => store s3 a { att with child := auth_proc }
    | none => s3
  nas_delete_attach_procedure s4 true

/-- Every procedure wrapped in the common list and the connection-management
procedure, if there is one, is allocated and does not name `a` as its
parent. -/
def no_child_in_registry (s : State) (r : emm_procedures_t) (a : Addr) : Bool :=
  r.emm_common_procs.all (fun w =>
    match deref s w.proc with
    | .ok o => decide (o.parent ≠ some a)
    | .error _ => false) &&
  (match r.emm_con_mngt_proc with
   | none => true
   | some c =>
     match s.procs c with
     | some o => decide (o.parent ≠ some a)
     | none => false)

/-- The outcome of a specific deletion that C6 describes, for the specific
procedure at address `a` of the registry `r`: the call returns; the procedure
is freed; the registry is released if its other three collections are empty
and otherwise kept with an empty specific field and the other collections as
they were; no remaining common or connection-management procedure names `a` as
parent. -/
def specific_deleted (r : emm_procedures_t) (a : Addr) (res : Except Fault State) : Prop :=
  ∃ s', res = .ok s' ∧ s'.procs a = none ∧
    s'.emm_context.emm_procedures =
      (if r.emm_common_procs = [] ∧ r.cn_procs = [] ∧ r.emm_con_mngt_proc = none then none
       else some { r with emm_specific_proc := none }) ∧
    ∀ r', s'.emm_context.emm_procedures = some r' →
      r'.emm_specific_proc = none ∧
      (∀ w ∈ r'.emm_common_procs, ∀ o, deref s' w.proc = .ok o → o.parent ≠ some a) ∧
      (∀ c o, r'.emm_con_mngt_proc = some c → s'.procs c = some o → o.parent ≠ some a)

/-- A test state: an attach procedure at address 1 as specific procedure and a
service-request procedure at address 2, child of the attach procedure, as
connection-management procedure, in FSM state `st`. -/
def attach_with_con_mngt_child (st : emm_fsm_state_t) : State :=
  { mk_state st (some { emm_specific_proc := some 1, emm_con_mngt_proc := some 2 }) with
    procs := fun x =>
      if x = 1 then
        some { base_type := .NAS_PROC_TYPE_EMM, emm_type := .NAS_EMM_PROC_TYPE_SPECIFIC,
               spec_type := .EMM_SPEC_PROC_TYPE_ATTACH, child := some 2 }
      else if x = 2 then
        some { base_type := .NAS_PROC_TYPE_EMM, emm_type := .NAS_EMM_PROC_TYPE_CONN_MNGT,
               con_mngt_type := .EMM_CON_MNGT_PROC_SERVICE_REQUEST, parent := some 1 }
      else none }

/-- A test state: a specific procedure of kind `k` at address 1 and an
identification procedure at address 2 without parent, wrapped by the node at
address 3 of the common list, in FSM state `st`. -/
def specific_with_unrelated_common (st : emm_fsm_state_t) (k : emm_specific_proc_type_t) : State :=
  { mk_state st (some { emm_specific_proc := some 1,
                        emm_common_procs := [{ addr := 3, proc := some 2 }] }) with
    procs := fun x =>
      if x = 1 then
        some { base_type := .NAS_PROC_TYPE_EMM, emm_type := .NAS_EMM_PROC_TYPE_SPECIFIC,
               spec_type := k }
      else if x = 2 then
        some { base_type := .NAS_PROC_TYPE_EMM, emm_type := .NAS_EMM_PROC_TYPE_COMMON,
               comm_type := .EMM_COMM_PROC_IDENT }
      else none }

/-- The registry left by `nas_delete_common_procedure` for the procedure at
address `a` when it runs on the registry `r`: the first node that wraps `a` is
unlinked and the registry is kept, even if it is empty then; only if no node
wraps `a` the garbage collection decides. -/
def registry_after_delete_common (r : emm_procedures_t) (a : Addr) : Option emm_procedures_t :=
  match r.emm_common_procs.find? (fun p1 => p1.proc = some a) with
  | some p1 => some { r with emm_common_procs := r.emm_common_procs.erase p1 }
  | none =>
    if r.emm_common_procs = [] ∧ r.cn_procs = [] ∧ r.emm_con_mngt_proc = none
        ∧ r.emm_specific_proc = none then none
    else some r

/-- An authentication procedure as `nas_new_authentication_procedure` tags it,
with previous FSM state `EMM_REGISTERED` and the two notification callbacks
set. -/
def auth_proc_obj : nas_proc_t :=
  { base_type := .NAS_PROC_TYPE_EMM, emm_type := .NAS_EMM_PROC_TYPE_COMMON,
    comm_type := .EMM_COMM_PROC_AUTH, previous_emm_fsm_state := .EMM_REGISTERED,
    success_notif := some (.other_fn 1), failure_notif := some (.other_fn 2),
    T3460 := { sec := 6, id := NAS_TIMER_INACTIVE_ID } }

/-- A test state: the device is in `EMM_COMMON_PROCEDURE_INITIATED` and its only
procedure is the common procedure `o` at address 1, wrapped by the node at
address 2 of the common list. -/
def common_proc_state (o : nas_proc_t) : State :=
  { mk_state .EMM_COMMON_PROCEDURE_INITIATED
      (some { emm_common_procs := [{ addr := 2, proc := some 1 }] }) with
    procs := fun x => if x = 1 then some o else none }

/-! ## TrackingAreaUpdate.c -/

/-- `_emm_tracking_area_update_t3450_handler (args)`: the body between the
function-entry and function-exit log macros is commented out in the source, so
the handler returns without reading `args` and without any effect. -/
def _emm_tracking_area_update_t3450_handler (s : State) (_args : Ptr) : Except Fault State :=
  .ok s

/-- The event `evt` is handled `n + 1` times in a row by the state handler `h`;
the result is the one of the last run. -/
def handle_times (h : State → emm_reg_t → Except Fault (Int × State)) (evt : emm_reg_t) :
    Nat → State → Except Fault (Int × State)
  | 0, s => h s evt
  | n + 1, s => do
    let (_, s1) ← h s evt
    handle_times h evt n s1

/-- The primitives that `EmmRegistered` only logs as not valid: the three
common-procedure results, attach abort, the detach primitives, the TAU request,
the service-request primitives and every value without a case of its own. -/
def invalid_in_registered (p : emm_reg_primitive_t) : Bool :=
  match p with
  | ._EMMREG_COMMON_PROC_CNF | ._EMMREG_COMMON_PROC_REJ | ._EMMREG_COMMON_PROC_ABORT
  | ._EMMREG_ATTACH_ABORT
  | ._EMMREG_DETACH_INIT | ._EMMREG_DETACH_REQ | ._EMMREG_DETACH_FAILED | ._EMMREG_DETACH_CNF
  | ._EMMREG_TAU_REQ
  | ._EMMREG_SERVICE_REQ | ._EMMREG_SERVICE_CNF | ._EMMREG_SERVICE_REJ
  | .other_primitive _ => true
  | _ => false

/-- The primitives without a case in the switch of `EmmCommonProcedureInitiated`
(its `default` branch): the common-procedure request, the detach, TAU and
service-request primitives and every other value.  Attach abort has a case of
its own and is not among them. -/
def invalid_in_common_procedure_initiated (p : emm_reg_primitive_t) : Bool :=
  match p with
  | ._EMMREG_COMMON_PROC_REQ
  | ._EMMREG_DETACH_INIT | ._EMMREG_DETACH_REQ | ._EMMREG_DETACH_FAILED | ._EMMREG_DETACH_CNF
  | ._EMMREG_TAU_REQ | ._EMMREG_TAU_CNF | ._EMMREG_TAU_REJ
  | ._EMMREG_SERVICE_REQ | ._EMMREG_SERVICE_CNF | ._EMMREG_SERVICE_REJ
  | .other_primitive _ => true
  | _ => false

/-- The four collections of a registry are empty. -/
def registry_empty (r : emm_procedures_t) : Bool :=
  decide (r.emm_common_procs = [] ∧ r.cn_procs = [] ∧ r.emm_con_mngt_proc = none
    ∧ r.emm_specific_proc = none)

/-- A test state: the only procedure of the device is an authentication-info
procedure at address 1, wrapped by the node at address 2 of the core-network
list. -/
def cn_proc_state : State :=
  { mk_state .EMM_REGISTERED (some { cn_procs := [{ addr := 2, proc := some 1 }] }) with
    procs := fun x =>
      if x = 1 then some { base_type := .NAS_PROC_TYPE_CN, cn_type := .CN_PROC_AUTH_INFO }
      else none }

/-- Bidirectional link consistency of the heap: for all allocated procedures `p`
and `c`, `c.parent = p` if and only if `p.child = c`. -/
def link_consistent (s : State) : Prop :=
  ∀ p c pp cc, s.procs p = some pp → s.procs c = some cc →
    (cc.parent = some p ↔ pp.child = some c)

/-- No allocated procedure names a procedure that is not allocated as its parent
or child. -/
def no_dangling_link (s : State) : Prop :=
  ∀ p pp, s.procs p = some pp → valid_ptr s pp.parent = true ∧ valid_ptr s pp.child = true

/-- A test state: an attach procedure at address 1 as specific procedure and an
authentication procedure at address 2, wrapped by the node at address 3 of the
common list; the two are linked as parent and child on both sides. -/
def attach_with_auth_child : State :=
  { mk_state .EMM_COMMON_PROCEDURE_INITIATED
      (some { emm_specific_proc := some 1,
              emm_common_procs := [{ addr := 3, proc := some 2 }] }) with
    procs := fun x =>
      if x = 1 then
        some { base_type := .NAS_PROC_TYPE_EMM, emm_type := .NAS_EMM_PROC_TYPE_SPECIFIC,
               spec_type := .EMM_SPEC_PROC_TYPE_ATTACH, child := some 2 }
      else if x = 2 then
        some { base_type := .NAS_PROC_TYPE_EMM, emm_type := .NAS_EMM_PROC_TYPE_COMMON,
               comm_type := .EMM_COMM_PROC_AUTH, parent := some 1 }
      else none }

/-- The procedures wrapped by the nodes of the two lists of a registry, the
core-network list first. -/
def listed_procs (r : emm_procedures_t) : List Ptr :=
  r.cn_procs.map (fun w => w.proc) ++ r.emm_common_procs.map (fun w => w.proc)

/-- Every node of the core-network list wraps an allocated procedure whose parent
pointer is NULL or refers to an allocated procedure that is not itself wrapped
in the list. -/
def cn_wf (s : State) (l : List nas_cn_procedure_t) : Bool :=
  l.all (fun w =>
    match w.proc with
    | none => false
    | some a =>
      match s.procs a with
      | none => false
      | some o => valid_ptr s o.parent && !((l.map (fun w => w.proc)).contains o.parent))

/-- Every node of the common list wraps an allocated procedure. -/
def common_wf (s : State) (l : List nas_emm_common_procedure_t) : Bool :=
  l.all (fun w =>
    match w.proc with
    | none => false
    | some a => (s.procs a).isSome)

/-- A well-formed registry: no procedure is wrapped by two nodes, the wrapped
procedures are allocated (`cn_wf`, `common_wf`), and the specific and the
connection-management pointer are NULL or refer to allocated procedures that
are in neither list. -/
def registry_wf (s : State) (r : emm_procedures_t) : Bool :=
  decide (listed_procs r).Nodup && cn_wf s r.cn_procs && common_wf s r.emm_common_procs &&
  valid_ptr s r.emm_specific_proc && !((listed_procs r).contains r.emm_specific_proc) &&
  valid_ptr s r.emm_con_mngt_proc && !((listed_procs r).contains r.emm_con_mngt_proc)

/-- The connection-management procedure of the registry names the specific
procedure of the registry as its parent. -/
def con_mngt_child_of_specific (s : State) (r : emm_procedures_t) : Bool :=
  match r.emm_specific_proc, r.emm_con_mngt_proc with
  | some a, some c =>
    match s.procs c with
    | some o => decide (o.parent = some a)
    | none => false
  | _, _ => false

/-- The switch on the kind in the bodies of `nas_delete_cn_procedure` and
`nas_delete_cn_procedures`, for the procedure `o` behind the pointer `p`. -/
def delete_cn_by_kind (s : State) (p : Ptr) (o : nas_proc_t) : Except Fault State :=
  match o.cn_type with
  | .CN_PROC_AUTH_INFO => do
    let (s', _) ← nas_delete_auth_info_procedure s p
    pure s'
  | .CN_PROC_NONE => free_wrapper s p

/-- The statements of the body of the loop of `nas_delete_common_procedures` after
`LIST_REMOVE`: the kind-specific content is released and the procedure is
freed. -/
def delete_common_content (s : State) (p : Ptr) : Except Fault State := do
  let o ← deref s p
  let s2 :=
    match p with
    | some a =>
      if o.comm_type = .EMM_COMM_PROC_AUTH ∧ o.unchecked_imsi = true then
        store s a { o with unchecked_imsi := false }
      else s
    | none => s
  free_wrapper s2 p

/-- A test state with all four collections in use: an attach procedure at
address 1 (specific), its child, an authentication procedure at address 2
(common list, node 3), an authentication-info procedure at address 4 whose
parent is the authentication procedure (core-network list, node 5) and a
service-request procedure at address 6 without parent (connection
management). -/
def full_registry_state : State :=
  { mk_state .EMM_REGISTERED
      (some { emm_specific_proc := some 1,
              emm_common_procs := [{ addr := 3, proc := some 2 }],
              cn_procs := [{ addr := 5, proc := some 4 }],
              emm_con_mngt_proc := some 6 }) with
    procs := fun x =>
      if x = 1 then
        some { base_type := .NAS_PROC_TYPE_EMM, emm_type := .NAS_EMM_PROC_TYPE_SPECIFIC,
               spec_type := .EMM_SPEC_PROC_TYPE_ATTACH, child := some 2 }
      else if x = 2 then
        some { base_type := .NAS_PROC_TYPE_EMM, emm_type := .NAS_EMM_PROC_TYPE_COMMON,
               comm_type := .EMM_COMM_PROC_AUTH, parent := some 1, child := some 4 }
      else if x = 4 then
        some { base_type := .NAS_PROC_TYPE_CN, cn_type := .CN_PROC_AUTH_INFO, parent := some 2 }
      else if x = 6 then
        some { base_type := .NAS_PROC_TYPE_EMM, emm_type := .NAS_EMM_PROC_TYPE_CONN_MNGT,
               con_mngt_type := .EMM_CON_MNGT_PROC_SERVICE_REQUEST }
      else none }

/-- The outcome of `nas_delete_all_emm_procedures` that C17 describes: the call
returns, the registry is absent, and every lookup of a specific,
connection-management, common or core-network procedure returns NULL. -/
def all_deleted (res : Except Fault State) : Prop :=
  ∃ s', res = .ok s' ∧ s'.emm_context.emm_procedures = none ∧
    (∀ k, get_nas_specific_procedure s' true k = .ok none) ∧
    get_nas_con_mngt_procedure_service_request s' true = .ok none ∧
    (∀ k, get_nas_common_procedure s' true k = .ok none) ∧
    (∀ k, get_nas_cn_procedure s' true k = .ok none)

/-! ## EMM service access point and procedure entry points -/

/-- Modelled from the spec: the collaborators outside the sources that the
procedure entry points call.  The device-context table is reduced to whether
an identifier finds the device of the state (by eNB identifier, by MME
identifier); `emm_ctx_get_new_ue_id` is the identifier handed out for a device
that has none; `emm_as_send` is the result of handing a primitive to the access
stratum; `absent_handler` is the result of the FSM handler of a state whose
handler is not among the sources. -/
structure collaborators_t where
  mme_ue_context_exists_enb_ue_s1ap_id : Nat → Bool
  mme_ue_context_exists_mme_ue_s1ap_id : Nat → Bool
  emm_ctx_get_new_ue_id : Nat
  emm_as_send : emm_as_establish_t → Int
  absent_handler : emm_fsm_state_t → emm_reg_t → Int

/-- Modelled from the spec: `emm_fsm_process` routes an event to the handler for
the stored FSM state of the device.  The handlers of `EMM_REGISTERED` and
`EMM_COMMON_PROCEDURE_INITIATED` are the two of the sources; a handler that is
not among the sources is a collaborator: its result comes from the
environment and the memory is left as it is. -/
def emm_fsm_process (env : collaborators_t) (s : State) (evt : emm_reg_t) :
    Except Fault (Int × State) :=
  match emm_fsm_get_state s evt.ctx with
  | .EMM_REGISTERED => EmmRegistered s evt
  | .EMM_COMMON_PROCEDURE_INITIATED => EmmCommonProcedureInitiated s evt
  | st => .ok (env.absent_handler st evt, s)

/-- Modelled from the spec: `emm_sap_send` (the service access point is not among
the sources).  The message is recorded in the trace; an event for the FSM is
processed by `emm_fsm_process`, a primitive for the access stratum is a
fire-and-forget call whose result comes from the environment. -/
def emm_sap_send (env : collaborators_t) (s : State) (msg : emm_sap_t) :
    Except Fault (Int × State) :=
  let s1 := { s with trace := s.trace ++ [Action.emm_sap_send msg] }
  match msg with
  | .EMMREG evt => emm_fsm_process env s1 evt
  | .EMMAS_ESTABLISH_REJ m => .ok (env.emm_as_send m, s1)

/-- Modelled from the spec: `emm_as_set_security_data (&sctx, &_security, is_new,
is_ciphered)` puts a snapshot of the security context of the device and the
two flags into the primitive. -/
def emm_as_set_security_data (security : Nat) (is_new is_ciphered : Bool) :
    emm_as_security_data_t :=
  { security := security, is_new := is_new, is_ciphered := is_ciphered }

/-! ## ServiceRequestHdl.c -/

/-- `_emm_service_reject (emm_context, base_proc)`: both pointers are tested; the
identifier is read from the enclosing device context; a cause
`EMM_CAUSE_SUCCESS` of the procedure is replaced by
`EMM_CAUSE_IMPLICITLY_DETACHED` in the procedure itself; the
establishment-rejected primitive is filled and sent, and the result of the send
is returned. -/
def _emm_service_reject (env : collaborators_t) (s : State) (emm_context : Bool)
    (base_proc : Ptr) : Except Fault (Int × State) :=
  match base_proc with
  | some a =>
    if emm_context then do
      let ue_id := s.mme_ue_s1ap_id
      let sr_proc ← deref s (some a)
      let s1 :=
        if sr_proc.emm_cause = EMM_CAUSE_SUCCESS then
          store s a { sr_proc with emm_cause := EMM_CAUSE_IMPLICITLY_DETACHED }
        else s
      let sr_proc1 ← deref s1 (some a)
      emm_sap_send env s1 (.EMMAS_ESTABLISH_REJ
        { ue_id := ue_id, guti := false, emm_cause := sr_proc1.emm_cause,
          nas_info := .EMM_AS_NAS_INFO_SR, nas_msg := false,
          sctx := emm_as_set_security_data s1.emm_context._security false false })
    else .ok (RETURNerror, s)
  | none => .ok (RETURNerror, s)

/-- The block of `emm_proc_service_reject` that runs when the device context has
been found: a variable `sr_proc` declared inside the block receives the
service-request procedure of the registry, or a new one if there is none, and
the cause is stored in it if it is not NULL.  The variable is local to the
block: the result is the memory only. -/
def service_reject_set_cause (s : State) (emm_cause : emm_cause_t) : Except Fault State := do
  let sr_proc ← get_nas_con_mngt_procedure_service_request s true
  let (sr_proc1, s1) ←
    if sr_proc = none then nas_new_service_request_procedure s else pure (sr_proc, s)
  match sr_proc1 with
  | some a => do
    let o ← deref s1 (some a)
    return store s1 a { o with emm_cause := emm_cause }
  | none => return s1

/-- The statements of `emm_proc_service_reject` after the lookup: the fields of
the procedure behind `sr_proc` are written (identifier first), then the
service-reject event is sent with the notify and free flags set. -/
def service_reject_fill_and_send (env : collaborators_t) (s : State) (ue_id : Nat)
    (sr_proc : Ptr) : Except Fault (Int × State) :=
  match sr_proc with
  | none => .error .null_dereference
  | some a => do
    let o ← deref s (some a)
    let s1 := store s a
      { o with ue_id := ue_id, parent := none, delivered := none,
               previous_emm_fsm_state := s.emm_context._emm_fsm_state,
               not_delivered := none, not_delivered_ho := none,
               success_notif := none, failure_notif := none, abort := none,
               fail_in := none, fail_out := some ._emm_service_reject, time_out := none }
    emm_sap_send env s1 (.EMMREG
      { primitive := ._EMMREG_SERVICE_REJ, ue_id := ue_id, ctx := true, notify := true,
        free_proc := true, sr_proc := some a })

/-- `emm_proc_service_reject (ue_id, enb_ue_s1ap_id, emm_cause)`.  The function
declares `sr_proc = NULL` at its top; both branches of the lookup declare a
second variable `sr_proc` inside their block, so the outer one is still NULL
when the statements after the lookup write through it.  In both branches the
device is looked up by eNB identifier. -/
def emm_proc_service_reject (env : collaborators_t) (s : State) (ue_id enb_ue_s1ap_id : Nat)
    (emm_cause : emm_cause_t) : Except Fault (Int × State) :=
  let sr_proc : Ptr := none
  if ue_id = INVALID_MME_UE_S1AP_ID then
    if env.mme_ue_context_exists_enb_ue_s1ap_id enb_ue_s1ap_id then do
      let s1 := { s with mme_ue_s1ap_id := env.emm_ctx_get_new_ue_id }
      let s2 := { s1 with trace := s1.trace ++
        [Action.mme_api_notified_new_ue_s1ap_id_association s1.mme_ue_s1ap_id] }
      let s3 ← service_reject_set_cause s2 EMM_CAUSE_IMPLICITLY_DETACHED
      service_reject_fill_and_send env s3 ue_id sr_proc
    else .ok (RETURNerror, s)
  else
    if env.mme_ue_context_exists_enb_ue_s1ap_id ue_id then do
      let s3 ← service_reject_set_cause s emm_cause
      service_reject_fill_and_send env s3 ue_id sr_proc
    else .ok (RETURNerror, s)

/-! ## TrackingAreaUpdate.c, reject entry point -/

/-- `emm_proc_tracking_area_update_reject (ue_id, emm_cause)`.  The TAU procedure
of the event is a local variable of the function: the model gives it the next
free address for the time of the call and releases it when the function
returns. -/
def emm_proc_tracking_area_update_reject (env : collaborators_t) (s : State) (ue_id : Nat)
    (emm_cause : emm_cause_t) : Except Fault (Int × State) :=
  if env.mme_ue_context_exists_mme_ue_s1ap_id ue_id then do
    let (a, s1) := calloc s
    let s2 := store s1 a
      { emm_cause := emm_cause, fail_out := some ._emm_attach_reject,
        spec_type := .EMM_SPEC_PROC_TYPE_TAU, emm_type := .NAS_EMM_PROC_TYPE_SPECIFIC,
        base_type := .NAS_PROC_TYPE_EMM }
    let (rc, s3) ← emm_sap_send env s2 (.EMMREG
      { primitive := ._EMMREG_TAU_REJ, ue_id := ue_id, ctx := true, notify := false,
        free_proc := false, tau_proc := some a })
    return (rc, { s3 with procs := fun x => if x = a then none else s3.procs x })
  else .ok (RETURNerror, s)

/-- The test environment: every identifier finds the device, every send
succeeds. -/
def env_found : collaborators_t :=
  { mme_ue_context_exists_enb_ue_s1ap_id := fun _ => true,
    mme_ue_context_exists_mme_ue_s1ap_id := fun _ => true,
    emm_ctx_get_new_ue_id := 7,
    emm_as_send := fun _ => RETURNok,
    absent_handler := fun _ _ => RETURNok }

/-- The test environment in which no identifier finds a device. -/
def env_not_found : collaborators_t :=
  { env_found with
    mme_ue_context_exists_enb_ue_s1ap_id := fun _ => false,
    mme_ue_context_exists_mme_ue_s1ap_id := fun _ => false }

/-- A test state: a registered device whose registry holds a service-request
procedure with cause `c` at address 1. -/
def service_request_state (c : emm_cause_t) : State :=
  { mk_state .EMM_REGISTERED (some { emm_con_mngt_proc := some 1 }) with
    procs := fun x =>
      if x = 1 then
        some { base_type := .NAS_PROC_TYPE_EMM, emm_type := .NAS_EMM_PROC_TYPE_CONN_MNGT,
               con_mngt_type := .EMM_CON_MNGT_PROC_SERVICE_REQUEST, emm_cause := c }
      else none }

/-- A test state: as `common_proc_state auth_proc_obj`, but every callback reports
failure. -/
def failing_callback_state : State :=
  { common_proc_state auth_proc_obj with callback_rc := fun _ => RETURNerror }

/-- A test state: a registered device whose specific procedure is a TAU procedure
at address 1 with the nested-failure callback `other_fn 3` and the failure
notification `other_fn 2`; `other_fn 3` returns `rc`, every other callback
reports success. -/
def tau_state (rc : Int) : State :=
  { mk_state .EMM_REGISTERED (some { emm_specific_proc := some 1 }) with
    procs := fun x =>
      if x = 1 then
        some { base_type := .NAS_PROC_TYPE_EMM, emm_type := .NAS_EMM_PROC_TYPE_SPECIFIC,
               spec_type := .EMM_SPEC_PROC_TYPE_TAU, fail_out := some (.other_fn 3),
               failure_notif := some (.other_fn 2) }
      else none,
    callback_rc := fun f => if f = .other_fn 3 then rc else RETURNok }

/-- The establishment-rejected primitive that `_emm_service_reject` sends for a
procedure with cause `c` on the device of the state: a cause `EMM_CAUSE_SUCCESS`
is sent as `EMM_CAUSE_IMPLICITLY_DETACHED`. -/
def service_reject_primitive (s : State) (c : emm_cause_t) : emm_as_establish_t :=
  { ue_id := s.mme_ue_s1ap_id, guti := false,
    emm_cause := if c = EMM_CAUSE_SUCCESS then EMM_CAUSE_IMPLICITLY_DETACHED else c,
    nas_info := .EMM_AS_NAS_INFO_SR, nas_msg := false,
    sctx := { security := s.emm_context._security, is_new := false, is_ciphered := false } }

/-- The calls of the TAU confirm and reject branches of `EmmRegistered` through the
callback slots of the procedure at address `a`, with nested-failure callback
`fo` and failure notification `fn`, when the context exists and notify is set:
`fo` is called with the procedure; `fn` follows unless `fo` returned
RETURNerror. -/
def tau_callbacks (s : State) (a : Addr) (fo fn : callback_t) : List Action :=
  Action.callback .fail_out fo (some a) ::
    (if s.callback_rc fo ≠ RETURNerror then [Action.callback .failure_notif fn none] else [])

/-- The calls to collaborators of the common-procedure abort branch of
`EmmCommonProcedureInitiated` for a procedure `o`, on a context that exists:
the abort callback if it is set, the state set to the saved previous state,
the failure notification if notify is set and the callback is set. -/
def common_proc_abort_calls (evt : emm_reg_t) (o : nas_proc_t) : List Action :=
  (match o.abort with
   | some f => [Action.callback .abort f none]
   | none => []) ++
  [Action.emm_fsm_set_state evt.ue_id o.previous_emm_fsm_state] ++
  (if evt.notify = true then
    match o.failure_notif with
    | some fn => [Action.callback .failure_notif fn none]
    | none => []
   else [])

/-- A test state: the device is in `EMM_COMMON_PROCEDURE_INITIATED`; an attach
procedure at address 1 is the specific procedure and the parent of the
authentication procedure at address 2 (node 3 of the common list), which has
previous state `EMM_REGISTERED`, the abort callback `other_fn 4` and the
failure notification `other_fn 2`. -/
def abort_state : State :=
  { mk_state .EMM_COMMON_PROCEDURE_INITIATED
      (some { emm_specific_proc := some 1,
              emm_common_procs := [{ addr := 3, proc := some 2 }] }) with
    procs := fun x =>
      if x = 1 then
        some { base_type := .NAS_PROC_TYPE_EMM, emm_type := .NAS_EMM_PROC_TYPE_SPECIFIC,
               spec_type := .EMM_SPEC_PROC_TYPE_ATTACH, child := some 2 }
      else if x = 2 then
        some { auth_proc_obj with parent := some 1, abort := some (.other_fn 4) }
      else none }

/-- The action is a call through the success or the failure-notification slot of a
procedure. -/
def is_notification : Action → Bool
  | .callback .success_notif _ _ => true
  | .callback .failure_notif _ _ => true
  | _ => false

/-- From `s` to `s'` the trace has only grown, and none of the calls added is a
call through the success or the failure-notification slot. -/
def no_notification (s s' : State) : Prop :=
  ∃ l, s'.trace = s.trace ++ l ∧ ∀ act ∈ l, is_notification act = false

/-! ## nas_procedures.c, running tests -/

/-- The shared body of `is_nas_specific_procedure_attach_running`, `_detach_running`
and `_tau_running`: context, registry and specific pointer are tested in this
order, then the kind of the specific procedure is compared with `k`. -/
def is_nas_specific_procedure_running (s : State) (ctxt : Bool) (k : emm_specific_proc_type_t) :
    Except Fault Bool :=
  if ctxt then
    match s.emm_context.emm_procedures with
    | some r =>
      match r.emm_specific_proc with
      | some a => do
        let o ← deref s (some a)
        if k = o.spec_type then return true else return false
      | none => .ok false
    | none => .ok false
  else .ok false

/-- `is_nas_specific_procedure_attach_running`. -/
def is_nas_specific_procedure_attach_running (s : State) (ctxt : Bool) : Except Fault Bool :=
  is_nas_specific_procedure_running s ctxt .EMM_SPEC_PROC_TYPE_ATTACH

/-- `is_nas_specific_procedure_detach_running`. -/
def is_nas_specific_procedure_detach_running (s : State) (ctxt : Bool) : Except Fault Bool :=
  is_nas_specific_procedure_running s ctxt .EMM_SPEC_PROC_TYPE_DETACH

/-- `is_nas_specific_procedure_tau_running`. -/
def is_nas_specific_procedure_tau_running (s : State) (ctxt : Bool) : Except Fault Bool :=
  is_nas_specific_procedure_running s ctxt .EMM_SPEC_PROC_TYPE_TAU

/-- The context has no specific procedure of kind Attach, Detach or TAU: the
context, the registry or the specific pointer is absent, or the specific
procedure has the zero kind. -/
def no_specific_of_kind (s : State) (ctxt : Bool) : Prop :=
  ctxt = false ∨ s.emm_context.emm_procedures = none ∨
    ∃ r, s.emm_context.emm_procedures = some r ∧
      (r.emm_specific_proc = none ∨
        ∃ a o, r.emm_specific_proc = some a ∧ s.procs a = some o ∧
          o.spec_type = .EMM_SPEC_PROC_TYPE_NONE)

/-- A test state: a registered device whose only procedure is the authentication
procedure at address 1 (node 2 of the common list) with timer T3460 running
under the identifier 5. -/
def auth_timer_state : State :=
  { mk_state .EMM_REGISTERED (some { emm_common_procs := [{ addr := 2, proc := some 1 }] }) with
    procs := fun x =>
      if x = 1 then
        some { base_type := .NAS_PROC_TYPE_EMM, emm_type := .NAS_EMM_PROC_TYPE_COMMON,
               comm_type := .EMM_COMM_PROC_AUTH, T3460 := { sec := 6, id := 5 } }
      else none }

/-! ## The lookups as the spec words them -/

/-- The node wraps an allocated procedure of common kind `k`. -/
def wraps_common_kind (s : State) (k : emm_common_proc_type_t)
    (w : nas_emm_common_procedure_t) : Bool :=
  match w.proc with
  | some a =>
    match s.procs a with
    | some o => decide (o.comm_type = k)
    | none => false
  | none => false

/-- The lookup of a common procedure as the spec words it: a linear scan that
returns the procedure of the first node, in list order, whose procedure has
kind `k`, and NULL if the context, the registry or such a node is absent. -/
def find_common_spec (s : State) (ctxt : Bool) (k : emm_common_proc_type_t) : Ptr :=
  if ctxt then
    match s.emm_context.emm_procedures with
    | some r =>
      match r.emm_common_procs.find? (wraps_common_kind s k) with
      | some w => w.proc
      | none => none
    | none => none
  else none

/-- The lookup of the specific procedure as the spec words it: a direct check of
the field, which returns the stored procedure if it has kind `k` and NULL
otherwise. -/
def find_specific_spec (s : State) (ctxt : Bool) (k : emm_specific_proc_type_t) : Ptr :=
  if ctxt then
    match s.emm_context.emm_procedures with
    | some r =>
      match r.emm_specific_proc with
      | some a =>
        match s.procs a with
        | some o => if o.spec_type = k then some a else none
        | none => none
      | none => none
    | none => none
  else none

/-- The lookup of the connection-management procedure as the spec words it. -/
def find_con_mngt_spec (s : State) (ctxt : Bool) (k : emm_con_mngt_proc_type_t) : Ptr :=
  if ctxt then
    match s.emm_context.emm_procedures with
    | some r =>
      match r.emm_con_mngt_proc with
      | some a =>
        match s.procs a with
        | some o => if o.con_mngt_type = k then some a else none
        | none => none
      | none => none
    | none => none
  else none

/-- Every pointer that the lookups read is usable: the nodes of the common list
wrap allocated procedures, and the specific and the connection-management
pointer are NULL or refer to allocated procedures. -/
def lookups_readable (s : State) : Bool :=
  match s.emm_context.emm_procedures with
  | some r =>
    common_wf s r.emm_common_procs && valid_ptr s r.emm_specific_proc &&
      valid_ptr s r.emm_con_mngt_proc
  | none => true

/-- A test state: a registered device with a TAU procedure at address 1 and, in
the common list, an identification procedure at address 2 (node 5), an
authentication procedure at address 3 (node 6) and a second authentication
procedure at address 4 (node 7), in this order. -/
def lookup_state : State :=
  { mk_state .EMM_REGISTERED
      (some { emm_specific_proc := some 1,
              emm_common_procs := [{ addr := 5, proc := some 2 }, { addr := 6, proc := some 3 },
                                   { addr := 7, proc := some 4 }] }) with
    procs := fun x =>
      if x = 1 then
        some { base_type := .NAS_PROC_TYPE_EMM, emm_type := .NAS_EMM_PROC_TYPE_SPECIFIC,
               spec_type := .EMM_SPEC_PROC_TYPE_TAU }
      else if x = 2 then
        some { base_type := .NAS_PROC_TYPE_EMM, emm_type := .NAS_EMM_PROC_TYPE_COMMON,
               comm_type := .EMM_COMM_PROC_IDENT }
      else if x = 3 ∨ x = 4 then
        some { base_type := .NAS_PROC_TYPE_EMM, emm_type := .NAS_EMM_PROC_TYPE_COMMON,
               comm_type := .EMM_COMM_PROC_AUTH }
      else none }

/-- A test state: the authentication procedure at address 1 (node 4 of the common
list) names the security-mode procedure at address 3 (node 5) as its child,
and is itself named as parent both by that procedure and by the
authentication-info procedure at address 2 (node 6 of the core-network
list). -/
def cn_other_child_state : State :=
  { mk_state .EMM_COMMON_PROCEDURE_INITIATED
      (some { emm_common_procs := [{ addr := 4, proc := some 1 }, { addr := 5, proc := some 3 }],
              cn_procs := [{ addr := 6, proc := some 2 }] }) with
    procs := fun x =>
      if x = 1 then
        some { base_type := .NAS_PROC_TYPE_EMM, emm_type := .NAS_EMM_PROC_TYPE_COMMON,
               comm_type := .EMM_COMM_PROC_AUTH, child := some 3 }
      else if x = 2 then
        some { base_type := .NAS_PROC_TYPE_CN, cn_type := .CN_PROC_AUTH_INFO, parent := some 1 }
      else if x = 3 then
        some { base_type := .NAS_PROC_TYPE_EMM, emm_type := .NAS_EMM_PROC_TYPE_COMMON,
               comm_type := .EMM_COMM_PROC_SMC, parent := some 1 }
      else none }

/-! ## TrackingAreaUpdate.c, reject handler -/

/-- `_emm_tracking_area_update_reject (emm_context, nas_base_proc)`: only the
context is tested; the identifier is read from the enclosing device context
and the cause from the procedure; the establishment-rejected primitive is
filled with the NAS-info discriminator of the TAU and sent, and the result of
the send is returned. -/
def _emm_tracking_area_update_reject (env : collaborators_t) (s : State) (emm_context : Bool)
    (nas_base_proc : Ptr) : Except Fault (Int × State) :=
  if emm_context then do
    let ue_id := s.mme_ue_s1ap_id
    let tau_proc ← deref s nas_base_proc
    emm_sap_send env s (.EMMAS_ESTABLISH_REJ
      { ue_id := ue_id, guti := false, emm_cause := tau_proc.emm_cause,
        nas_info := .EMM_AS_NAS_INFO_TAU, nas_msg := false,
        sctx := emm_as_set_security_data s.emm_context._security false true })
  else .ok (RETURNerror, s)

/-- The local TAU procedure that `emm_proc_tracking_area_update_reject` fills for
the cause `c`. -/
def dummy_tau_proc (c : emm_cause_t) : nas_proc_t :=
  { emm_cause := c, fail_out := some ._emm_attach_reject,
    spec_type := .EMM_SPEC_PROC_TYPE_TAU, emm_type := .NAS_EMM_PROC_TYPE_SPECIFIC,
    base_type := .NAS_PROC_TYPE_EMM }

/-- The event that `emm_proc_tracking_area_update_reject` sends for the device
`ue_id`, with the local procedure at address `a`. -/
def tau_reject_event (ue_id : Nat) (a : Addr) : emm_reg_t :=
  { primitive := ._EMMREG_TAU_REJ, ue_id := ue_id, ctx := true, notify := false,
    free_proc := false, tau_proc := some a }

/-- The calls that `nas_delete_tau_procedure` adds for the device of `s`: the stop
of T3450 of its TAU procedure, if the lookup returns one. -/
def tau_deletion_calls (s : State) : List Action :=
  match get_nas_specific_procedure_tau s true with
  | .ok (some b) =>
    match s.procs b with
    | some ob => [Action.nas_stop_T3450 s.mme_ue_s1ap_id ob.T3450]
    | none => []
  | _ => []

/-! ## Theorems -/

/-- C1: when the registry already holds a specific procedure, both
`nas_new_attach_procedure` and `nas_new_tau_procedure` return NULL and the whole
state (heap, context with its registry, trace) is exactly as before. -/
theorem C1_new_specific_refused (s : State) (r : emm_procedures_t) (a : Addr)
    (hr : s.emm_context.emm_procedures = some r) (ha : r.emm_specific_proc = some a) :
    nas_new_attach_procedure s = .ok (none, s) ∧ nas_new_tau_procedure s = .ok (none, s) := by
  simp [nas_new_attach_procedure, nas_new_tau_procedure, nas_new_specific_procedure, hr, ha]

/-- Witness of C1 on a registry that holds an attach procedure. -/
theorem C1_new_specific_refused_witness :
    nas_new_attach_procedure (attach_state .EMM_REGISTERED)
        = .ok (none, attach_state .EMM_REGISTERED) ∧
      nas_new_tau_procedure (attach_state .EMM_REGISTERED)
        = .ok (none, attach_state .EMM_REGISTERED) :=
  C1_new_specific_refused (attach_state .EMM_REGISTERED) { emm_specific_proc := some 1 } 1 rfl rfl

/-- C2 (evaluation at the failing input): on a context without registry and
hence without connection-management procedure, `nas_new_service_request_procedure`
does not return a procedure: `_nas_new_emm_procedures` initialises the list head
through the NULL registry pointer of the context. -/
theorem C2_new_service_request_absent_registry :
    nas_new_service_request_procedure (mk_state .EMM_REGISTERED none)
      = .error .null_dereference := by
  rfl

/-- The part of C2 that holds: with a registry in place, the constructor returns
NULL and changes nothing if a connection-management procedure exists, and
otherwise installs a new procedure tagged ServiceRequest, which
`get_nas_con_mngt_procedure_service_request` then returns. -/
theorem new_service_request_registry_present (s : State) (r : emm_procedures_t)
    (hr : s.emm_context.emm_procedures = some r) :
    (r.emm_con_mngt_proc ≠ none → nas_new_service_request_procedure s = .ok (none, s)) ∧
    (r.emm_con_mngt_proc = none →
      ∃ s', nas_new_service_request_procedure s = .ok (some s.brk, s') ∧
        s'.emm_context.emm_procedures = some { r with emm_con_mngt_proc := some s.brk } ∧
        (∃ o, s'.procs s.brk = some o ∧
          o.con_mngt_type = .EMM_CON_MNGT_PROC_SERVICE_REQUEST) ∧
        get_nas_con_mngt_procedure_service_request s' true = .ok (some s.brk)) := by
  constructor
  · intro h
    simp [nas_new_service_request_procedure, hr, h]
  · intro h
    simp [nas_new_service_request_procedure, hr, h, install_con_mngt_proc, calloc,
      set_emm_procedures, store, get_nas_con_mngt_procedure_service_request, deref]
    rfl

/-- The result of `nas_unlink_procedures` on a mutually linked pair, as a state. -/
theorem unlink_linked_eq (s : State) (p c : Addr) (pp cc : nas_proc_t)
    (hp : s.procs p = some pp) (hc : s.procs c = some cc)
    (hpc : pp.child = some c) (hcp : cc.parent = some p) :
    nas_unlink_procedures s (some p) (some c) = .ok (RETURNok,
      store (store s c { cc with parent := none }) p
        { (if p = c then { cc with parent := none } else pp) with child := none }) := by
  by_cases hpceq : p = c
  · subst hpceq
    have hcc : cc = pp := by rw [hp] at hc; exact (Option.some.inj hc).symm
    subst hcc
    simp [nas_unlink_procedures, deref, hp, hpc, hcp, store, bind, Except.bind, pure,
      Except.pure]
  · simp [nas_unlink_procedures, deref, hp, hc, hpc, hcp, store, hpceq, bind, Except.bind, pure,
      Except.pure]

/-- C3: for two allocated procedures `p` and `c` with `p.child = c` and
`c.parent = p`, `nas_unlink_procedures` returns RETURNok; afterwards `p` has no
child and `c` has no parent, every other field of the two procedures is as
before (if `p` and `c` are the same object, both of its links are cleared), and
nothing else in memory changes. -/
theorem C3_unlink_linked_pair (s : State) (p c : Addr) (pp cc : nas_proc_t)
    (hp : s.procs p = some pp) (hc : s.procs c = some cc)
    (hpc : pp.child = some c) (hcp : cc.parent = some p) :
    ∃ s', nas_unlink_procedures s (some p) (some c) = .ok (RETURNok, s') ∧
      s'.procs p = some { pp with child := none, parent := if p = c then none else pp.parent } ∧
      s'.procs c = some { cc with parent := none, child := if p = c then none else cc.child } ∧
      (∀ x, x ≠ p → x ≠ c → s'.procs x = s.procs x) ∧
      s'.emm_context = s.emm_context ∧ s'.trace = s.trace ∧ s'.brk = s.brk := by
  refine ⟨_, unlink_linked_eq s p c pp cc hp hc hpc hcp, ?_, ?_, ?_, rfl, rfl, rfl⟩
  · by_cases hpceq : p = c
    · subst hpceq
      have hcc : cc = pp := by rw [hp] at hc; exact (Option.some.inj hc).symm
      subst hcc
      simp [store]
    · simp [store, hpceq]
  · by_cases hpceq : p = c
    · subst hpceq
      have hcc : cc = pp := by rw [hp] at hc; exact (Option.some.inj hc).symm
      subst hcc
      simp [store]
    · have h2 : c ≠ p := fun h => hpceq h.symm
      simp [store, h2, hpceq]
  · intro x hx hx2
    simp [store, hx, hx2]

/-- Witness of C3 on a linked pair at addresses 1 and 2. -/
theorem C3_unlink_linked_pair_witness :
    ∃ s', nas_unlink_procedures linked_pair_state (some 1) (some 2) = .ok (RETURNok, s') ∧
      s'.procs 1 = some { ({ child := some 2 } : nas_proc_t) with
        child := none, parent := if 1 = 2 then none else none } ∧
      s'.procs 2 = some { ({ parent := some 1 } : nas_proc_t) with
        parent := none, child := if 1 = 2 then none else none } ∧
      (∀ x, x ≠ 1 → x ≠ 2 → s'.procs x = linked_pair_state.procs x) ∧
      s'.emm_context = linked_pair_state.emm_context ∧ s'.trace = linked_pair_state.trace ∧
      s'.brk = linked_pair_state.brk :=
  C3_unlink_linked_pair linked_pair_state 1 2 { child := some 2 } { parent := some 1 }
    rfl rfl rfl rfl

/-- C4: if the parent is NULL, the child is NULL, the parent's child link is not
the child, or the child's parent link is not the parent (so also when the link
is recorded on one side only), `nas_unlink_procedures` returns RETURNerror and
the state is exactly as before. -/
theorem C4_unlink_not_linked (s : State) (parent_proc child_proc : Ptr)
    (h : parent_proc = none ∨ child_proc = none ∨
      ∃ p c pp, parent_proc = some p ∧ child_proc = some c ∧ s.procs p = some pp ∧
        (pp.child ≠ some c ∨ ∃ cc, s.procs c = some cc ∧ cc.parent ≠ some p)) :
    nas_unlink_procedures s parent_proc child_proc = .ok (RETURNerror, s) := by
  rcases h with h | h | ⟨p, c, pp, h1, h2, hp, h3⟩
  · subst h
    cases child_proc <;> rfl
  · subst h
    cases parent_proc <;> rfl
  · subst h1 h2
    by_cases hch : pp.child = some c
    · rcases h3 with h3 | ⟨cc, hc, hne⟩
      · exact absurd hch h3
      · simp [nas_unlink_procedures, deref, hp, hc, hch, hne, bind, Except.bind, pure,
          Except.pure]
    · simp [nas_unlink_procedures, deref, hp, hch, bind, Except.bind, pure, Except.pure]

/-- Witness of C4 on a link recorded on the parent side only. -/
theorem C4_unlink_not_linked_witness :
    nas_unlink_procedures half_linked_state (some 1) (some 2)
      = .ok (RETURNerror, half_linked_state) :=
  C4_unlink_not_linked half_linked_state (some 1) (some 2)
    (Or.inr (Or.inr ⟨1, 2, { child := some 2 }, rfl, rfl, rfl,
      Or.inr ⟨{}, rfl, by decide⟩⟩))

/-- Creating the registry always stops: `_nas_new_emm_procedures` is only called
when the context has no registry, and then writes through that NULL pointer. -/
theorem new_emm_procedures_null (s : State) (h : s.emm_context.emm_procedures = none) :
    _nas_new_emm_procedures s = .error .null_dereference := by
  simp [_nas_new_emm_procedures, h]

/-- C5 (evaluation at the failing inputs): on every context with an absent
registry the round trip stops in its first call, `nas_new_attach_procedure`,
with a NULL dereference, so it does not leave the registry absent. -/
theorem C5_round_trip_absent_registry (s : State) (h : s.emm_context.emm_procedures = none) :
    nas_new_attach_procedure s = .error .null_dereference ∧
      attach_auth_round_trip s = .error .null_dereference := by
  have h1 : nas_new_attach_procedure s = .error .null_dereference := by
    simp [nas_new_attach_procedure, nas_new_specific_procedure, h, new_emm_procedures_null,
      bind, Except.bind]
  refine ⟨h1, ?_⟩
  simp [attach_auth_round_trip, h1, bind, Except.bind]

/-- Witness of C5 on a fresh context. -/
theorem C5_round_trip_absent_registry_witness :
    nas_new_attach_procedure (mk_state .EMM_DEREGISTERED none) = .error .null_dereference ∧
      attach_auth_round_trip (mk_state .EMM_DEREGISTERED none) = .error .null_dereference :=
  C5_round_trip_absent_registry (mk_state .EMM_DEREGISTERED none) rfl

/-- The second defect on the round trip: started on an empty registry that is
already allocated, the two constructors succeed, and the deletion of the attach
procedure stops in `nas_delete_child_procedures`, which unlinks and frees the
list node that `nas_delete_common_procedure` has just unlinked and freed. -/
theorem round_trip_present_registry :
    attach_auth_round_trip (mk_state .EMM_DEREGISTERED (some {})) = .error .invalid_pointer := by
  rfl

/-- Reading after a store. -/
theorem deref_store (s : State) (a : Addr) (o : nas_proc_t) (p : Ptr) :
    deref (store s a o) p = if p = some a then .ok o else deref s p := by
  cases p with
  | none => simp [deref]
  | some b =>
    by_cases h : b = a
    · subst h
      simp [deref, store]
    · simp [deref, store, h]

/-- The loop of `nas_delete_child_procedures` changes nothing when no wrapped
procedure names the parent. -/
theorem child_loop_no_match (a : Addr) (l : List nas_emm_common_procedure_t) (s : State)
    (h : ∀ w ∈ l, ∃ o, deref s w.proc = .ok o ∧ o.parent ≠ some a) :
    nas_delete_child_procedures_loop (some a) l s = .ok s := by
  induction l with
  | nil => rfl
  | cons w l ih =>
    obtain ⟨o, ho, hne⟩ := h w (List.mem_cons_self _ _)
    have ih2 := ih (fun w' hw' => h w' (List.mem_cons_of_mem _ hw'))
    simp [nas_delete_child_procedures_loop, ho, hne, ih2, bind, Except.bind]

/-- What `no_child_in_registry` says about the common list. -/
theorem no_child_common (s : State) (r : emm_procedures_t) (a : Addr)
    (h : no_child_in_registry s r a = true) :
    ∀ w ∈ r.emm_common_procs, ∃ o, deref s w.proc = .ok o ∧ o.parent ≠ some a := by
  intro w hw
  simp only [no_child_in_registry, Bool.and_eq_true, List.all_eq_true] at h
  have h1 := h.1 w hw
  cases hd : deref s w.proc with
  | error e => simp [hd] at h1
  | ok o =>
    simp [hd] at h1
    exact ⟨o, rfl, h1⟩

/-- What `no_child_in_registry` says about the connection-management procedure. -/
theorem no_child_con_mngt (s : State) (r : emm_procedures_t) (a : Addr)
    (h : no_child_in_registry s r a = true) :
    ∀ c, r.emm_con_mngt_proc = some c → ∃ o, s.procs c = some o ∧ o.parent ≠ some a := by
  intro c hc
  simp only [no_child_in_registry, Bool.and_eq_true] at h
  have h2 := h.2
  rw [hc] at h2
  cases hd : s.procs c with
  | none => simp [hd] at h2
  | some o =>
    simp [hd] at h2
    exact ⟨o, rfl, h2⟩

/-- `nas_delete_child_procedures` changes nothing when the parent has no child
in the registry. -/
theorem delete_child_no_child (s : State) (r : emm_procedures_t) (a : Addr)
    (hr : s.emm_context.emm_procedures = some r)
    (hcommon : ∀ w ∈ r.emm_common_procs, ∃ o, deref s w.proc = .ok o ∧ o.parent ≠ some a)
    (hcm : ∀ c, r.emm_con_mngt_proc = some c → ∃ o, s.procs c = some o ∧ o.parent ≠ some a) :
    nas_delete_child_procedures s (some a) = .ok s := by
  have hl := child_loop_no_match a r.emm_common_procs s hcommon
  cases hc : r.emm_con_mngt_proc with
  | none =>
    simp [nas_delete_child_procedures, hr, hl, hc, bind, Except.bind, pure, Except.pure]
  | some c =>
    obtain ⟨o, ho, hne⟩ := hcm c hc
    simp [nas_delete_child_procedures, hr, hl, hc, deref, ho, hne, bind, Except.bind, pure,
      Except.pure]

/-- The statements of a specific deletion after the content of the procedure has
been released, on a procedure without children in the registry: the children
loop changes nothing, the specific procedure is freed and the garbage
collection runs. -/
theorem delete_specific_core (s : State) (r : emm_procedures_t) (a : Addr) (o : nas_proc_t)
    (hr : s.emm_context.emm_procedures = some r) (ha : r.emm_specific_proc = some a)
    (ho : s.procs a = some o)
    (hcommon : ∀ w ∈ r.emm_common_procs, ∃ o, deref s w.proc = .ok o ∧ o.parent ≠ some a)
    (hcm : ∀ c, r.emm_con_mngt_proc = some c → ∃ o, s.procs c = some o ∧ o.parent ≠ some a) :
    ∃ s', (nas_delete_child_procedures s (some a) >>= free_specific_proc) = .ok s' ∧
      s'.emm_context._emm_fsm_state = s.emm_context._emm_fsm_state ∧ s'.trace = s.trace ∧
      specific_deleted r a (.ok s') := by
  rw [delete_child_no_child s r a hr hcommon hcm]
  have hfree : free_wrapper s (some a)
      = .ok { s with procs := fun x => if x = a then none else s.procs x } := by
    simp [free_wrapper, ho]
  have hpost : ∀ (s' : State), (s'.procs = fun x => if x = a then none else s.procs x) →
      ∀ r' : emm_procedures_t, r'.emm_common_procs = r.emm_common_procs →
        r'.emm_con_mngt_proc = r.emm_con_mngt_proc →
      (∀ w ∈ r'.emm_common_procs, ∀ o, deref s' w.proc = .ok o → o.parent ≠ some a) ∧
      (∀ c o, r'.emm_con_mngt_proc = some c → s'.procs c = some o → o.parent ≠ some a) := by
    intro s' hs' r' h1 h2
    constructor
    · intro w hw o' hd
      rw [h1] at hw
      obtain ⟨o'', hd'', hne⟩ := hcommon w hw
      cases hp : w.proc with
      | none => simp [deref, hp] at hd
      | some b =>
        rw [hp] at hd hd''
        by_cases hb : b = a
        · simp [deref, hs', hb] at hd
        · simp [deref, hs', hb] at hd
          simp [deref] at hd''
          cases hx : s.procs b with
          | none => simp [hx] at hd
          | some ob =>
            simp [hx] at hd hd''
            rw [← hd, hd'']
            exact hne
    · intro c o' hc hpc
      rw [h2] at hc
      obtain ⟨o'', ho'', hne⟩ := hcm c hc
      by_cases hb : c = a
      · simp [hs', hb] at hpc
      · simp [hs', hb] at hpc
        rw [ho''] at hpc
        rw [← Option.some.inj hpc]
        exact hne
  by_cases hg : r.emm_common_procs = [] ∧ r.cn_procs = [] ∧ r.emm_con_mngt_proc = none
  · refine ⟨set_emm_procedures { s with procs := fun x => if x = a then none else s.procs x } none,
      ?_, rfl, rfl, _, rfl, ?_, ?_, ?_⟩
    · simp [free_specific_proc, hr, ha, hfree, nas_emm_procedure_gc, set_emm_procedures, hg, bind,
        Except.bind]
    · simp [set_emm_procedures]
    · simp [set_emm_procedures, hg]
    · intro r' hr'
      simp [set_emm_procedures] at hr'
  · refine ⟨set_emm_procedures { s with procs := fun x => if x = a then none else s.procs x }
        (some { r with emm_specific_proc := none }), ?_, rfl, rfl, _, rfl, ?_, ?_, ?_⟩
    · simp only [free_specific_proc, hr, ha, hfree, nas_emm_procedure_gc, set_emm_procedures, bind,
        Except.bind]
      simp
      intro h1 h2 h3
      exact absurd ⟨h1, h2, h3⟩ hg
    · simp [set_emm_procedures]
    · simp [set_emm_procedures, hg]
    · intro r' hr'
      simp [set_emm_procedures] at hr'
      subst hr'
      exact ⟨rfl, hpost _ rfl _ rfl rfl⟩

/-- The absence of children survives an update of the parent object that keeps
its parent link. -/
theorem no_child_after_store (s s2 : State) (r : emm_procedures_t) (a : Addr) (o o2 : nas_proc_t)
    (ho : s.procs a = some o) (hs2 : s2.procs = fun x => if x = a then some o2 else s.procs x)
    (hpar : o2.parent = o.parent)
    (hcommon : ∀ w ∈ r.emm_common_procs, ∃ o, deref s w.proc = .ok o ∧ o.parent ≠ some a)
    (hcm : ∀ c, r.emm_con_mngt_proc = some c → ∃ o, s.procs c = some o ∧ o.parent ≠ some a) :
    (∀ w ∈ r.emm_common_procs, ∃ o, deref s2 w.proc = .ok o ∧ o.parent ≠ some a) ∧
    (∀ c, r.emm_con_mngt_proc = some c → ∃ o, s2.procs c = some o ∧ o.parent ≠ some a) := by
  constructor
  · intro w hw
    obtain ⟨o', hd, hne⟩ := hcommon w hw
    cases hp : w.proc with
    | none => simp [deref, hp] at hd
    | some b =>
      rw [hp] at hd
      by_cases hb : b = a
      · subst hb
        simp [deref, ho] at hd
        subst hd
        exact ⟨o2, by simp [deref, hs2], by rw [hpar]; exact hne⟩
      · refine ⟨o', ?_, hne⟩
        simp only [deref, hs2, hb, if_false]
        simpa [deref] using hd
  · intro c hc
    obtain ⟨o', hd, hne⟩ := hcm c hc
    by_cases hb : c = a
    · subst hb
      rw [ho] at hd
      have := Option.some.inj hd
      subst this
      exact ⟨o2, by simp [hs2], by rw [hpar]; exact hne⟩
    · exact ⟨o', by simp [hs2, hb, hd], hne⟩

/-- The specific lookup on a registry whose specific procedure is allocated. -/
theorem get_specific_eq (s : State) (r : emm_procedures_t) (a : Addr) (o : nas_proc_t)
    (k : emm_specific_proc_type_t)
    (hr : s.emm_context.emm_procedures = some r) (ha : r.emm_specific_proc = some a)
    (ho : s.procs a = some o) :
    get_nas_specific_procedure s true k = .ok (if k = o.spec_type then some a else none) := by
  by_cases hk : k = o.spec_type
  · simp [get_nas_specific_procedure, hr, ha, deref, ho, hk, bind, Except.bind, pure, Except.pure]
  · simp [get_nas_specific_procedure, hr, ha, deref, ho, hk, bind, Except.bind, pure, Except.pure]

/-- The body shared by the attach and TAU deletions, on a procedure without
children. -/
theorem delete_t3450_without_children (s : State) (r : emm_procedures_t) (a : Addr)
    (o : nas_proc_t)
    (hr : s.emm_context.emm_procedures = some r) (ha : r.emm_specific_proc = some a)
    (ho : s.procs a = some o) (hn : no_child_in_registry s r a = true) :
    ∃ s', nas_delete_t3450_procedure s a = .ok s' ∧
      s'.emm_context._emm_fsm_state = s.emm_context._emm_fsm_state ∧
      s'.trace = s.trace ++ [Action.nas_stop_T3450 s.mme_ue_s1ap_id o.T3450] ∧
      specific_deleted r a (.ok s') := by
  have h := no_child_after_store s
    (store { s with trace := s.trace ++ [Action.nas_stop_T3450 s.mme_ue_s1ap_id o.T3450] } a
      { o with ies := false, esm_msg_out := false })
    r a o _ ho rfl rfl (no_child_common s r a hn) (no_child_con_mngt s r a hn)
  have hc := delete_specific_core _ r a { o with ies := false, esm_msg_out := false }
    (by simpa [store] using hr) ha (by simp [store]) h.1 h.2
  obtain ⟨s', h1, h2, h3, h4⟩ := hc
  refine ⟨s', ?_, h2, h3, h4⟩
  simpa [nas_delete_t3450_procedure, deref, ho, bind, Except.bind] using h1

/-- C6 (amended): for a registry whose specific procedure `a` has kind Attach
(resp. TAU, Detach) and in which no common procedure and no
connection-management procedure names `a` as parent, `nas_delete_attach_procedure`
(resp. `nas_delete_tau_procedure`, `nas_delete_detach_procedure`) returns; the
procedure is freed, the specific field is empty (the registry is released when
nothing else is left in it) and no remaining common or connection-management
procedure has `a` as parent. -/
theorem C6_delete_specific_without_children (s : State) (r : emm_procedures_t) (a : Addr)
    (o : nas_proc_t)
    (hr : s.emm_context.emm_procedures = some r) (ha : r.emm_specific_proc = some a)
    (ho : s.procs a = some o) (hn : no_child_in_registry s r a = true) :
    (o.spec_type = .EMM_SPEC_PROC_TYPE_ATTACH →
      specific_deleted r a (nas_delete_attach_procedure s true)) ∧
    (o.spec_type = .EMM_SPEC_PROC_TYPE_TAU →
      specific_deleted r a (nas_delete_tau_procedure s true)) ∧
    (o.spec_type = .EMM_SPEC_PROC_TYPE_DETACH →
      specific_deleted r a (nas_delete_detach_procedure s true)) := by
  refine ⟨?_, ?_, ?_⟩
  · intro hk
    have hg := get_specific_eq s r a o .EMM_SPEC_PROC_TYPE_ATTACH hr ha ho
    simp only [hk, if_true] at hg
    obtain ⟨s', h1, _, _, h4⟩ := delete_t3450_without_children s r a o hr ha ho hn
    have h5 : nas_delete_attach_procedure s true = .ok s' := by
      simpa [nas_delete_attach_procedure, get_nas_specific_procedure_attach, hg, bind, Except.bind]
        using h1
    rw [h5]
    exact h4
  · intro hk
    have hg := get_specific_eq s r a o .EMM_SPEC_PROC_TYPE_TAU hr ha ho
    simp only [hk, if_true] at hg
    obtain ⟨s', h1, _, _, h4⟩ := delete_t3450_without_children s r a o hr ha ho hn
    have h5 : nas_delete_tau_procedure s true = .ok s' := by
      simpa [nas_delete_tau_procedure, get_nas_specific_procedure_tau, hg, bind, Except.bind]
        using h1
    rw [h5]
    exact h4
  · intro hk
    have hg := get_specific_eq s r a o .EMM_SPEC_PROC_TYPE_DETACH hr ha ho
    simp only [hk, if_true] at hg
    have h := no_child_after_store s (store s a { o with ies := false }) r a o _ ho rfl rfl
      (no_child_common s r a hn) (no_child_con_mngt s r a hn)
    have hc := delete_specific_core _ r a { o with ies := false }
      (by simpa [store] using hr) ha (by simp [store]) h.1 h.2
    obtain ⟨s', h1, _, _, h4⟩ := hc
    have h5 : nas_delete_detach_procedure s true = .ok s' := by
      simpa [nas_delete_detach_procedure, get_nas_specific_procedure_detach, hg, deref, ho, bind,
        Except.bind] using h1
    rw [h5]
    exact h4

/-- Witness of C6 (amended): the three deletions on a registry that holds the
specific procedure and an unrelated identification procedure. -/
theorem C6_delete_specific_without_children_witness :
    specific_deleted
        { emm_specific_proc := some 1, emm_common_procs := [{ addr := 3, proc := some 2 }] } 1
        (nas_delete_attach_procedure
          (specific_with_unrelated_common .EMM_REGISTERED .EMM_SPEC_PROC_TYPE_ATTACH) true) ∧
      specific_deleted
        { emm_specific_proc := some 1, emm_common_procs := [{ addr := 3, proc := some 2 }] } 1
        (nas_delete_tau_procedure
          (specific_with_unrelated_common .EMM_REGISTERED .EMM_SPEC_PROC_TYPE_TAU) true) ∧
      specific_deleted
        { emm_specific_proc := some 1, emm_common_procs := [{ addr := 3, proc := some 2 }] } 1
        (nas_delete_detach_procedure
          (specific_with_unrelated_common .EMM_REGISTERED .EMM_SPEC_PROC_TYPE_DETACH) true) :=
  ⟨(C6_delete_specific_without_children
      (specific_with_unrelated_common .EMM_REGISTERED .EMM_SPEC_PROC_TYPE_ATTACH) _ 1 _
      rfl rfl rfl rfl).1 rfl,
   (C6_delete_specific_without_children
      (specific_with_unrelated_common .EMM_REGISTERED .EMM_SPEC_PROC_TYPE_TAU) _ 1 _
      rfl rfl rfl rfl).2.1 rfl,
   (C6_delete_specific_without_children
      (specific_with_unrelated_common .EMM_REGISTERED .EMM_SPEC_PROC_TYPE_DETACH) _ 1 _
      rfl rfl rfl rfl).2.2 rfl⟩

/-- C6 (counterexample): on a registry whose attach procedure has the
connection-management procedure as child, `nas_delete_attach_procedure` does not
complete: it stops at the fatal assertion of `nas_delete_con_mngt_procedure`. -/
theorem C6_counterexample_con_mngt_child :
    nas_delete_attach_procedure (attach_with_con_mngt_child .EMM_REGISTERED) true
        = .error .assert_fatal ∧
      ¬ specific_deleted { emm_specific_proc := some 1, emm_con_mngt_proc := some 2 } 1
          (nas_delete_attach_procedure (attach_with_con_mngt_child .EMM_REGISTERED) true) := by
  have h : nas_delete_attach_procedure (attach_with_con_mngt_child .EMM_REGISTERED) true
      = .error .assert_fatal := rfl
  refine ⟨h, ?_⟩
  rintro ⟨s', hs', _⟩
  rw [h] at hs'
  cases hs'

@[simp] theorem set_emm_procedures_procs (s : State) (r : Option emm_procedures_t) :
    (set_emm_procedures s r).procs = s.procs := rfl

@[simp] theorem set_emm_procedures_trace (s : State) (r : Option emm_procedures_t) :
    (set_emm_procedures s r).trace = s.trace := rfl

@[simp] theorem set_emm_procedures_fsm_state (s : State) (r : Option emm_procedures_t) :
    (set_emm_procedures s r).emm_context._emm_fsm_state = s.emm_context._emm_fsm_state := rfl

@[simp] theorem set_emm_procedures_registry (s : State) (r : Option emm_procedures_t) :
    (set_emm_procedures s r).emm_context.emm_procedures = r := rfl

/-- Freeing an allocated procedure. -/
theorem free_wrapper_live (s : State) (a : Addr) (o : nas_proc_t) (ho : s.procs a = some o) :
    free_wrapper s (some a)
      = .ok { s with procs := fun x => if x = a then none else s.procs x } := by
  simp [free_wrapper, ho]

/-- `nas_delete_common_procedure` on an allocated procedure returns, frees the
procedure, clears the caller's pointer and leaves FSM state, trace and callback
return codes alone; the registry is the one described by
`registry_after_delete_common`. -/
theorem delete_common_ok (s : State) (a : Addr) (o : nas_proc_t) (ho : s.procs a = some o) :
    ∃ s', nas_delete_common_procedure s true (some a) = .ok (s', none) ∧
      s'.procs a = none ∧ (∀ x, x ≠ a → s'.procs x = s.procs x) ∧
      s'.emm_context._emm_fsm_state = s.emm_context._emm_fsm_state ∧
      s'.trace = s.trace ∧
      s'.emm_context.emm_procedures =
        (match s.emm_context.emm_procedures with
         | none => none
         | some r => registry_after_delete_common r a) := by
  -- the state after the kind-specific content has been released
  obtain ⟨s1, o1, hs1, ho1, hctx1, htr1, hpr1⟩ : ∃ s1 o1,
      (if o.comm_type = .EMM_COMM_PROC_AUTH ∧ o.unchecked_imsi = true then
        store s a { o with unchecked_imsi := false } else s) = s1 ∧ s1.procs a = some o1 ∧
      s1.emm_context = s.emm_context ∧ s1.trace = s.trace ∧
      (∀ x, x ≠ a → s1.procs x = s.procs x) := by
    by_cases hc : o.comm_type = .EMM_COMM_PROC_AUTH ∧ o.unchecked_imsi = true
    · exact ⟨_, { o with unchecked_imsi := false }, rfl, by simp [hc, store], by simp [hc, store],
        by simp [hc, store], by intro x hx; simp [hc, store, hx]⟩
    · exact ⟨_, o, rfl, by simp [hc, ho], by simp [hc], by simp [hc], by intro x _; simp [hc]⟩
  cases hr : s.emm_context.emm_procedures with
  | none =>
    have hr1 : s1.emm_context.emm_procedures = none := by rw [hctx1]; exact hr
    refine ⟨{ s1 with procs := fun x => if x = a then none else s1.procs x }, ?_, by simp, ?_, ?_, ?_, ?_⟩
    · simp only [nas_delete_common_procedure, deref, ho, bind, Except.bind, hs1, hr1]
      simp [free_wrapper_live s1 a o1 ho1, pure, Except.pure]
    · intro x hx
      simp [hx, hpr1 x hx]
    · simp [hctx1]
    · simp [htr1]
    · simp [hr1]
  | some r =>
    have hr1 : s1.emm_context.emm_procedures = some r := by rw [hctx1]; exact hr
    cases hf : r.emm_common_procs.find? (fun p1 => p1.proc = some a) with
    | some p1 =>
      have hp1 : p1.proc = some a := by
        have := List.find?_some hf
        simpa using this
      refine ⟨{ set_emm_procedures s1 (some { r with emm_common_procs := r.emm_common_procs.erase p1 })
        with procs := fun x => if x = a then none else s1.procs x }, ?_, by simp, ?_, ?_, ?_, ?_⟩
      · simp only [nas_delete_common_procedure, deref, ho, bind, Except.bind, hs1, hr1]
        simp [hf, hp1, free_wrapper_live (set_emm_procedures s1 _) a o1 (by simpa using ho1), pure,
          Except.pure]
      · intro x hx
        simp [hx, hpr1 x hx]
      · simp [hctx1]
      · simp [htr1]
      · simp [registry_after_delete_common, hf]
    | none =>
      by_cases hg : r.emm_common_procs = [] ∧ r.cn_procs = [] ∧ r.emm_con_mngt_proc = none
          ∧ r.emm_specific_proc = none
      · refine ⟨{ set_emm_procedures s1 none with procs := fun x => if x = a then none else s1.procs x },
          ?_, by simp, ?_, ?_, ?_, ?_⟩
        · simp only [nas_delete_common_procedure, deref, ho, bind, Except.bind, hs1, hr1]
          simp [hf, nas_emm_procedure_gc, hr1, hg,
            free_wrapper_live (set_emm_procedures s1 none) a o1 (by simpa using ho1), pure,
            Except.pure]
        · intro x hx
          simp [hx, hpr1 x hx]
        · simp [hctx1]
        · simp [htr1]
        · simp [registry_after_delete_common, hf, hg]
      · refine ⟨{ s1 with procs := fun x => if x = a then none else s1.procs x },
          ?_, by simp, ?_, ?_, ?_, ?_⟩
        · simp only [nas_delete_common_procedure, deref, ho, bind, Except.bind, hs1, hr1]
          simp [hf, nas_emm_procedure_gc, hr1, hg, free_wrapper_live s1 a o1 ho1, pure, Except.pure]
        · intro x hx
          simp [hx, hpr1 x hx]
        · simp [hctx1]
        · simp [htr1]
        · simp [registry_after_delete_common, hf, hg, hr1]

/-- The unlink step of the confirm and abort branches, on an allocated procedure:
the call returns RETURNerror and writes nothing, whether or not the procedure
has a parent. -/
theorem unlink_from_parent_eq (s : State) (a : Addr) (o : nas_proc_t) (ho : s.procs a = some o) :
    unlink_from_parent s a o = .ok (RETURNerror, s) := by
  by_cases hp : o.parent = none
  · simp [unlink_from_parent, hp, pure, Except.pure]
  · simp [unlink_from_parent, hp, nas_unlink_procedures_by_address, deref, ho, bind, Except.bind,
      pure, Except.pure]

/-- `nas_free_procedure` on an allocated procedure tagged as an EMM common
procedure is `nas_delete_common_procedure`. -/
theorem free_procedure_common (s : State) (a : Addr) (o : nas_proc_t) (ho : s.procs a = some o)
    (hb : o.base_type = .NAS_PROC_TYPE_EMM) (he : o.emm_type = .NAS_EMM_PROC_TYPE_COMMON) :
    nas_free_procedure s true (some a) = nas_delete_common_procedure s true (some a) := by
  simp [nas_free_procedure, deref, ho, hb, he, bind, Except.bind]

/-- The common-procedure confirm branch on a procedure whose success callback is
set: for a CommonProcConfirm event with notify set that carries an allocated
common procedure with saved previous FSM state `st` and success callback `cb`,
on a device whose context exists, the handler returns RETURNok, the FSM state
afterwards is `st`, and the calls to collaborators are the state set followed
by exactly one call of `cb` through the success slot. -/
theorem common_proc_cnf_with_callback (s : State) (evt : emm_reg_t) (a : Addr)
    (o : nas_proc_t) (st : emm_fsm_state_t) (cb : callback_t)
    (hprim : evt.primitive = ._EMMREG_COMMON_PROC_CNF)
    (hnotify : evt.notify = true) (hctx : evt.ctx = true)
    (hstate : s.emm_context._emm_fsm_state = .EMM_COMMON_PROCEDURE_INITIATED)
    (hproc : evt.common_proc = some a) (ho : s.procs a = some o)
    (hb : o.base_type = .NAS_PROC_TYPE_EMM) (he : o.emm_type = .NAS_EMM_PROC_TYPE_COMMON)
    (hprev : o.previous_emm_fsm_state = st) (hcb : o.success_notif = some cb) :
    ∃ s', EmmCommonProcedureInitiated s evt = .ok (RETURNok, s') ∧
      s'.emm_context._emm_fsm_state = st ∧
      s'.trace = s.trace ++
        [Action.emm_fsm_set_state evt.ue_id st, Action.callback .success_notif cb none] := by
  have hstep := unlink_from_parent_eq s a o ho
  have ho3 : ({ s with
      emm_context := { s.emm_context with _emm_fsm_state := st },
      trace := s.trace ++ [Action.emm_fsm_set_state evt.ue_id st,
        Action.callback .success_notif cb none] } : State).procs a
      = some o := ho
  obtain ⟨s4, hdel, _, _, hst4, htr4, _⟩ := delete_common_ok _ a _ ho3
  rw [← free_procedure_common _ a _ ho3 hb he] at hdel
  refine ⟨s4, ?_, ?_, ?_⟩
  · simp only [EmmCommonProcedureInitiated, emm_fsm_get_state, hctx, hstate, hprim, common_proc_cnf,
      hproc, deref, ho, bind, Except.bind, hstep, emm_fsm_set_state, hprev, hnotify, hcb,
      call_callback]
    simp [RETURNok, RETURNerror, ho, hcb, hdel, pure, Except.pure]
  · rw [hst4]
  · rw [htr4]

/-- The common-procedure confirm branch on a procedure whose success callback is
not set: for a CommonProcConfirm event with notify set that carries an
allocated procedure with an empty success slot, on a device whose context
exists, the handler calls through the empty slot and does not return. -/
theorem common_proc_cnf_without_callback (s : State) (evt : emm_reg_t) (a : Addr)
    (o : nas_proc_t)
    (hprim : evt.primitive = ._EMMREG_COMMON_PROC_CNF)
    (hnotify : evt.notify = true) (hctx : evt.ctx = true)
    (hstate : s.emm_context._emm_fsm_state = .EMM_COMMON_PROCEDURE_INITIATED)
    (hproc : evt.common_proc = some a) (ho : s.procs a = some o)
    (hcb : o.success_notif = none) :
    EmmCommonProcedureInitiated s evt = .error .null_dereference := by
  have hstep := unlink_from_parent_eq s a o ho
  simp only [EmmCommonProcedureInitiated, emm_fsm_get_state, hctx, hstate, hprim, common_proc_cnf,
    hproc, deref, ho, bind, Except.bind, hstep, emm_fsm_set_state, hnotify, hcb, call_callback]
  simp [RETURNok, RETURNerror, ho, hcb, call_callback]

/-- C7 (evaluation at the failing input): on a device in
`EMM_COMMON_PROCEDURE_INITIATED` with an attach procedure,
`nas_new_authentication_procedure` returns a procedure whose success slot is
empty; a CommonProcConfirm event with notify set that carries this procedure
makes `EmmCommonProcedureInitiated` call through the empty slot after the state
set: the handler does not return, so no FSM state is reached and no success
callback is invoked. -/
theorem C7_common_proc_cnf_null_success_callback :
    ∃ s1 o, nas_new_authentication_procedure (attach_state .EMM_COMMON_PROCEDURE_INITIATED)
        = .ok (some 100, s1) ∧
      s1.procs 100 = some o ∧ o.success_notif = none ∧
      emm_fsm_get_state s1 true = .EMM_COMMON_PROCEDURE_INITIATED ∧
      EmmCommonProcedureInitiated s1
        { primitive := ._EMMREG_COMMON_PROC_CNF, notify := true, common_proc := some 100 }
        = .error .null_dereference ∧
      ¬ ∃ rc s', EmmCommonProcedureInitiated s1
        { primitive := ._EMMREG_COMMON_PROC_CNF, notify := true, common_proc := some 100 }
        = .ok (rc, s') := by
  refine ⟨_, _, rfl, rfl, rfl, rfl, rfl, ?_⟩
  rintro ⟨rc, s', hs'⟩
  have h2 := hs'.symm.trans
    (rfl : _ = (Except.error Fault.null_dereference : Except Fault (Int × State)))
  cases h2

/-- C8 (evaluation at the failing input): the device is in
`EMM_COMMON_PROCEDURE_INITIATED` and its only procedure is an authentication
procedure; after CommonProcConfirm the procedure is no longer found by
`get_nas_common_procedure_authentication`, but the registry is not absent: it is
still allocated, with all four collections empty, because
`nas_delete_common_procedure` returns before the garbage collection when it
finds the procedure in the list. -/
theorem C8_common_proc_cnf_keeps_empty_registry :
    ∃ s', EmmCommonProcedureInitiated (common_proc_state auth_proc_obj)
        { primitive := ._EMMREG_COMMON_PROC_CNF, notify := true, common_proc := some 1 }
          = .ok (RETURNok, s') ∧
      get_nas_common_procedure_authentication s' true = .ok none ∧
      s'.procs 1 = none ∧
      s'.emm_context.emm_procedures
        = some { emm_specific_proc := none, emm_common_procs := [], cn_procs := [],
                 emm_con_mngt_proc := none } ∧
      s'.emm_context.emm_procedures ≠ none :=
  ⟨_, rfl, rfl, rfl, rfl, by simp⟩

/-- C9: in `EmmCommonProcedureInitiated`, for a CommonProcReject event with notify
set that carries a procedure with failure callback `cb`, on a device whose
context exists: the FSM state afterwards is `EMM_DEREGISTERED` and the calls to
collaborators are the state set followed by exactly one call of `cb` through
the failure slot, whose return code is the result.  With the free flag clear
nothing else changes: the procedure is still allocated and the registry is as
before.  With the free flag set (and a procedure tagged as an EMM common
procedure) the procedure is deleted by `nas_delete_common_procedure`: it is
freed and its node is removed from the common list. -/
theorem C9_common_proc_rej (s : State) (evt : emm_reg_t) (a : Addr) (o : nas_proc_t)
    (cb : callback_t)
    (hprim : evt.primitive = ._EMMREG_COMMON_PROC_REJ)
    (hnotify : evt.notify = true) (hctx : evt.ctx = true)
    (hstate : s.emm_context._emm_fsm_state = .EMM_COMMON_PROCEDURE_INITIATED)
    (hproc : evt.common_proc = some a) (ho : s.procs a = some o)
    (hcb : o.failure_notif = some cb) :
    (evt.free_proc = false →
      EmmCommonProcedureInitiated s evt = .ok (s.callback_rc cb,
        { s with
          emm_context := { s.emm_context with _emm_fsm_state := .EMM_DEREGISTERED },
          trace := s.trace ++ [Action.emm_fsm_set_state evt.ue_id .EMM_DEREGISTERED,
                               Action.callback .failure_notif cb none] })) ∧
    (evt.free_proc = true → o.base_type = .NAS_PROC_TYPE_EMM →
      o.emm_type = .NAS_EMM_PROC_TYPE_COMMON →
      ∃ s', EmmCommonProcedureInitiated s evt = .ok (s.callback_rc cb, s') ∧
        s'.emm_context._emm_fsm_state = .EMM_DEREGISTERED ∧
        s'.trace = s.trace ++ [Action.emm_fsm_set_state evt.ue_id .EMM_DEREGISTERED,
                               Action.callback .failure_notif cb none] ∧
        s'.procs a = none ∧ (∀ x, x ≠ a → s'.procs x = s.procs x) ∧
        s'.emm_context.emm_procedures =
          (match s.emm_context.emm_procedures with
           | none => none
           | some r => registry_after_delete_common r a)) := by
  constructor
  · intro hfree
    simp [EmmCommonProcedureInitiated, emm_fsm_get_state, hctx, hstate, hprim, common_proc_rej,
      hproc, deref, ho, bind, Except.bind, emm_fsm_set_state, hnotify, hcb, call_callback, hfree,
      RETURNok, RETURNerror, pure, Except.pure]
  · intro hfree hb he
    have ho3 : ({ s with
        emm_context := { s.emm_context with _emm_fsm_state := .EMM_DEREGISTERED },
        trace := s.trace ++ [Action.emm_fsm_set_state evt.ue_id .EMM_DEREGISTERED,
          Action.callback .failure_notif cb none] } : State).procs a = some o := ho
    obtain ⟨s4, hdel, hp4, hx4, hst4, htr4, hreg4⟩ := delete_common_ok _ a _ ho3
    rw [← free_procedure_common _ a _ ho3 hb he] at hdel
    refine ⟨s4, ?_, hst4, htr4, hp4, hx4, hreg4⟩
    simp only [EmmCommonProcedureInitiated, emm_fsm_get_state, hctx, hstate, hprim, common_proc_rej,
      hproc, deref, ho, bind, Except.bind, emm_fsm_set_state, hnotify, hcb, call_callback, hfree]
    simp [RETURNok, RETURNerror, ho, hcb, hdel, pure, Except.pure]

/-- Witness of C9: an authentication procedure is rejected with notify set, once
with the free flag clear and once with the free flag set. -/
theorem C9_common_proc_rej_witness :
    (EmmCommonProcedureInitiated (common_proc_state auth_proc_obj)
        { primitive := ._EMMREG_COMMON_PROC_REJ, notify := true, common_proc := some 1 }
      = .ok ((common_proc_state auth_proc_obj).callback_rc (.other_fn 2),
        { common_proc_state auth_proc_obj with
          emm_context := { (common_proc_state auth_proc_obj).emm_context with
            _emm_fsm_state := .EMM_DEREGISTERED },
          trace := (common_proc_state auth_proc_obj).trace ++
            [Action.emm_fsm_set_state 0 .EMM_DEREGISTERED,
             Action.callback .failure_notif (.other_fn 2) none] })) ∧
    (∃ s', EmmCommonProcedureInitiated (common_proc_state auth_proc_obj)
        { primitive := ._EMMREG_COMMON_PROC_REJ, notify := true, free_proc := true,
          common_proc := some 1 }
          = .ok ((common_proc_state auth_proc_obj).callback_rc (.other_fn 2), s') ∧
        s'.emm_context._emm_fsm_state = .EMM_DEREGISTERED ∧
        s'.trace = (common_proc_state auth_proc_obj).trace ++
          [Action.emm_fsm_set_state 0 .EMM_DEREGISTERED,
           Action.callback .failure_notif (.other_fn 2) none] ∧
        s'.procs 1 = none ∧
        (∀ x, x ≠ 1 → s'.procs x = (common_proc_state auth_proc_obj).procs x) ∧
        s'.emm_context.emm_procedures =
          (match (common_proc_state auth_proc_obj).emm_context.emm_procedures with
           | none => none
           | some r => registry_after_delete_common r 1)) :=
  ⟨(C9_common_proc_rej (common_proc_state auth_proc_obj)
      { primitive := ._EMMREG_COMMON_PROC_REJ, notify := true, common_proc := some 1 } 1
      auth_proc_obj (.other_fn 2) rfl rfl rfl rfl rfl rfl rfl).1 rfl,
   (C9_common_proc_rej (common_proc_state auth_proc_obj)
      { primitive := ._EMMREG_COMMON_PROC_REJ, notify := true, free_proc := true,
        common_proc := some 1 } 1
      auth_proc_obj (.other_fn 2) rfl rfl rfl rfl rfl rfl rfl).2 rfl rfl rfl⟩

/-- The attach lookup returns NULL on a state whose registry is absent or has an
empty specific field. -/
theorem get_attach_none (s : State)
    (h : ∀ r, s.emm_context.emm_procedures = some r → r.emm_specific_proc = none) :
    get_nas_specific_procedure_attach s true = .ok none := by
  cases hr : s.emm_context.emm_procedures with
  | none => simp [get_nas_specific_procedure_attach, get_nas_specific_procedure, hr]
  | some r => simp [get_nas_specific_procedure_attach, get_nas_specific_procedure, hr, h r hr]

/-- C10 (amended): in `EmmRegistered`, for an AttachReject event with either value
of the free flag, on a device in `EMM_REGISTERED` whose specific procedure, if
there is one, is allocated and, if it is an attach procedure, is not the parent
of a common or connection-management procedure of the registry: the handler
returns RETURNok, the FSM state afterwards is `EMM_DEREGISTERED` and
`get_nas_specific_procedure_attach` returns NULL. -/
theorem C10_attach_rej_without_children (s : State) (evt : emm_reg_t)
    (hprim : evt.primitive = ._EMMREG_ATTACH_REJ) (hctx : evt.ctx = true)
    (hstate : s.emm_context._emm_fsm_state = .EMM_REGISTERED)
    (hreg : ∀ r a, s.emm_context.emm_procedures = some r → r.emm_specific_proc = some a →
      ∃ o, s.procs a = some o ∧
        (o.spec_type = .EMM_SPEC_PROC_TYPE_ATTACH → no_child_in_registry s r a = true)) :
    ∃ s', EmmRegistered s evt = .ok (RETURNok, s') ∧
      s'.emm_context._emm_fsm_state = .EMM_DEREGISTERED ∧
      get_nas_specific_procedure_attach s' true = .ok none := by
  -- the state after `emm_fsm_set_state`
  obtain ⟨s1, hs1⟩ : ∃ s1 : State, s1 = { s with
      emm_context := { s.emm_context with _emm_fsm_state := .EMM_DEREGISTERED },
      trace := s.trace ++ [Action.emm_fsm_set_state evt.ue_id .EMM_DEREGISTERED] } := ⟨_, rfl⟩
  have hst1 : s1.emm_context._emm_fsm_state = .EMM_DEREGISTERED := by rw [hs1]
  have hreg1 : s1.emm_context.emm_procedures = s.emm_context.emm_procedures := by rw [hs1]
  have hprocs1 : s1.procs = s.procs := by rw [hs1]
  have hrun : ∀ s', nas_delete_attach_procedure s1 true = .ok s' →
      EmmRegistered s evt = .ok (RETURNok, s') := by
    intro s' h
    rw [hs1] at h
    simp [EmmRegistered, emm_fsm_get_state, hctx, hstate, hprim, emm_fsm_set_state, h, bind,
      Except.bind, pure, Except.pure]
  have hkeep : get_nas_specific_procedure_attach s1 true = .ok none →
      ∃ s', EmmRegistered s evt = .ok (RETURNok, s') ∧
        s'.emm_context._emm_fsm_state = .EMM_DEREGISTERED ∧
        get_nas_specific_procedure_attach s' true = .ok none := by
    intro hg
    refine ⟨s1, hrun s1 ?_, hst1, hg⟩
    simp [nas_delete_attach_procedure, hg, bind, Except.bind, pure, Except.pure]
  cases hr : s.emm_context.emm_procedures with
  | none =>
    exact hkeep (get_attach_none s1 (fun r h => by rw [hreg1, hr] at h; cases h))
  | some r =>
    cases ha : r.emm_specific_proc with
    | none =>
      refine hkeep (get_attach_none s1 (fun r' h => ?_))
      rw [hreg1, hr] at h
      cases h
      exact ha
    | some a =>
      obtain ⟨o, ho, hn⟩ := hreg r a hr ha
      have hr1 : s1.emm_context.emm_procedures = some r := by rw [hreg1, hr]
      have ho1 : s1.procs a = some o := by rw [hprocs1, ho]
      have hg := get_specific_eq s1 r a o .EMM_SPEC_PROC_TYPE_ATTACH hr1 ha ho1
      by_cases hk : o.spec_type = .EMM_SPEC_PROC_TYPE_ATTACH
      · have hn1 : no_child_in_registry s1 r a = true := by
          have := hn hk
          rw [hs1]
          exact this
        obtain ⟨s', h1, h2, _, s'', hs'', _, h4, h5⟩ :=
          delete_t3450_without_children s1 r a o hr1 ha ho1 hn1
        cases hs''
        simp only [hk, if_true] at hg
        refine ⟨s', hrun s' ?_, by rw [h2, hst1], get_attach_none s' (fun r' h => (h5 r' h).1)⟩
        simpa [nas_delete_attach_procedure, get_nas_specific_procedure_attach, hg, bind,
          Except.bind] using h1
      · have hk' : ¬ (emm_specific_proc_type_t.EMM_SPEC_PROC_TYPE_ATTACH = o.spec_type) :=
          fun h => hk h.symm
        simp only [hk', if_false] at hg
        exact hkeep hg

/-- Witness of C10 (amended): AttachReject with the free flag set on a registered
device whose attach procedure has no children. -/
theorem C10_attach_rej_without_children_witness :
    ∃ s', EmmRegistered (attach_state .EMM_REGISTERED)
        { primitive := ._EMMREG_ATTACH_REJ, free_proc := true } = .ok (RETURNok, s') ∧
      s'.emm_context._emm_fsm_state = .EMM_DEREGISTERED ∧
      get_nas_specific_procedure_attach s' true = .ok none :=
  C10_attach_rej_without_children (attach_state .EMM_REGISTERED)
    { primitive := ._EMMREG_ATTACH_REJ, free_proc := true } rfl rfl rfl
    (fun r a hr ha => by
      have hr' : r = { emm_specific_proc := some 1 } := (Option.some.inj hr).symm
      subst hr'
      have ha' : a = 1 := (Option.some.inj ha).symm
      subst ha'
      exact ⟨_, rfl, fun _ => rfl⟩)

/-- C10 (counterexample): on a registered device whose attach procedure is the
parent of the connection-management procedure, AttachReject (with either value
of the free flag) does not reach a state: the handler stops at the fatal
assertion of `nas_delete_con_mngt_procedure`. -/
theorem C10_counterexample_con_mngt_child :
    EmmRegistered (attach_with_con_mngt_child .EMM_REGISTERED)
        { primitive := ._EMMREG_ATTACH_REJ, free_proc := true } = .error .assert_fatal ∧
      EmmRegistered (attach_with_con_mngt_child .EMM_REGISTERED)
        { primitive := ._EMMREG_ATTACH_REJ, free_proc := false } = .error .assert_fatal ∧
      ¬ ∃ s', EmmRegistered (attach_with_con_mngt_child .EMM_REGISTERED)
          { primitive := ._EMMREG_ATTACH_REJ, free_proc := true } = .ok (RETURNok, s') ∧
        s'.emm_context._emm_fsm_state = .EMM_DEREGISTERED ∧
        get_nas_specific_procedure_attach s' true = .ok none := by
  have h : EmmRegistered (attach_with_con_mngt_child .EMM_REGISTERED)
      { primitive := ._EMMREG_ATTACH_REJ, free_proc := true } = .error .assert_fatal := rfl
  refine ⟨h, rfl, ?_⟩
  rintro ⟨s', hs', _⟩
  rw [h] at hs'
  cases hs'

/-- One run of `EmmRegistered` on a lower-layer success event. -/
theorem registered_ll_success (s : State) (evt : emm_reg_t)
    (hprim : evt.primitive = ._EMMREG_LOWERLAYER_SUCCESS)
    (hst : emm_fsm_get_state s evt.ctx = .EMM_REGISTERED) :
    EmmRegistered s evt = .ok (RETURNok, s) := by
  simp [EmmRegistered, hst, hprim]

/-- One run of `EmmCommonProcedureInitiated` on a lower-layer success event. -/
theorem common_procedure_initiated_ll_success (s : State) (evt : emm_reg_t)
    (hprim : evt.primitive = ._EMMREG_LOWERLAYER_SUCCESS)
    (hst : emm_fsm_get_state s evt.ctx = .EMM_COMMON_PROCEDURE_INITIATED) :
    EmmCommonProcedureInitiated s evt = .ok (RETURNok, s) := by
  simp [EmmCommonProcedureInitiated, hst, hprim]

/-- Repeating a run that returns the state it was given. -/
theorem handle_times_fixed (h : State → emm_reg_t → Except Fault (Int × State)) (evt : emm_reg_t)
    (s : State) (rc : Int) (hfix : h s evt = .ok (rc, s)) (n : Nat) :
    handle_times h evt n s = .ok (rc, s) := by
  induction n with
  | zero => simpa [handle_times] using hfix
  | succ n ih => simp [handle_times, hfix, ih, bind, Except.bind]

/-- C11: for a LowerLayerSuccess event on a device whose stored FSM state is the
one the handler is dispatched for, `EmmRegistered` and
`EmmCommonProcedureInitiated` return RETURNok and the state they return is the
state they were given (FSM state, registry, every procedure, trace); handling
the event `n + 1` times therefore gives the same result as handling it once. -/
theorem C11_lower_layer_success_idempotent (s : State) (evt : emm_reg_t) (n : Nat)
    (hprim : evt.primitive = ._EMMREG_LOWERLAYER_SUCCESS) :
    (emm_fsm_get_state s evt.ctx = .EMM_REGISTERED →
      EmmRegistered s evt = .ok (RETURNok, s) ∧
      handle_times EmmRegistered evt n s = EmmRegistered s evt) ∧
    (emm_fsm_get_state s evt.ctx = .EMM_COMMON_PROCEDURE_INITIATED →
      EmmCommonProcedureInitiated s evt = .ok (RETURNok, s) ∧
      handle_times EmmCommonProcedureInitiated evt n s = EmmCommonProcedureInitiated s evt) := by
  constructor
  · intro hst
    have h := registered_ll_success s evt hprim hst
    exact ⟨h, by rw [handle_times_fixed EmmRegistered evt s RETURNok h n, h]⟩
  · intro hst
    have h := common_procedure_initiated_ll_success s evt hprim hst
    exact ⟨h, by rw [handle_times_fixed EmmCommonProcedureInitiated evt s RETURNok h n, h]⟩

/-- Witness of C11: the event is handled three times on a registered device with
an attach procedure and on a device in `EMM_COMMON_PROCEDURE_INITIATED` with an
authentication procedure. -/
theorem C11_lower_layer_success_idempotent_witness :
    (EmmRegistered (attach_state .EMM_REGISTERED) { primitive := ._EMMREG_LOWERLAYER_SUCCESS }
        = .ok (RETURNok, attach_state .EMM_REGISTERED) ∧
      handle_times EmmRegistered { primitive := ._EMMREG_LOWERLAYER_SUCCESS } 2
          (attach_state .EMM_REGISTERED)
        = EmmRegistered (attach_state .EMM_REGISTERED)
            { primitive := ._EMMREG_LOWERLAYER_SUCCESS }) ∧
    (EmmCommonProcedureInitiated (common_proc_state auth_proc_obj)
          { primitive := ._EMMREG_LOWERLAYER_SUCCESS }
        = .ok (RETURNok, common_proc_state auth_proc_obj) ∧
      handle_times EmmCommonProcedureInitiated { primitive := ._EMMREG_LOWERLAYER_SUCCESS } 2
          (common_proc_state auth_proc_obj)
        = EmmCommonProcedureInitiated (common_proc_state auth_proc_obj)
            { primitive := ._EMMREG_LOWERLAYER_SUCCESS }) :=
  ⟨(C11_lower_layer_success_idempotent (attach_state .EMM_REGISTERED)
      { primitive := ._EMMREG_LOWERLAYER_SUCCESS } 2 rfl).1 rfl,
   (C11_lower_layer_success_idempotent (common_proc_state auth_proc_obj)
      { primitive := ._EMMREG_LOWERLAYER_SUCCESS } 2 rfl).2 rfl⟩

/-- C12: if the stored FSM state (`EMM_INVALID` for a context that does not
exist) is not the state the handler is dispatched for, the run of either
handler stops at its first statement, the assertion on the state: the switch on
the primitive is not reached, so no FSM state is set, no callback is called
and nothing in the registry is changed, whatever the event. -/
theorem C12_state_mismatch_no_transition (s : State) (evt : emm_reg_t) :
    (emm_fsm_get_state s evt.ctx ≠ .EMM_REGISTERED →
      EmmRegistered s evt = .error .assert_failed) ∧
    (emm_fsm_get_state s evt.ctx ≠ .EMM_COMMON_PROCEDURE_INITIATED →
      EmmCommonProcedureInitiated s evt = .error .assert_failed) := by
  constructor
  · intro h
    simp [EmmRegistered, h]
  · intro h
    simp [EmmCommonProcedureInitiated, h]

/-- Witness of C12: an attach reject routed to `EmmRegistered` and a common
procedure confirm routed to `EmmCommonProcedureInitiated` for a device that is
in `EMM_DEREGISTERED`. -/
theorem C12_state_mismatch_no_transition_witness :
    EmmRegistered (attach_state .EMM_DEREGISTERED) { primitive := ._EMMREG_ATTACH_REJ }
        = .error .assert_failed ∧
      EmmCommonProcedureInitiated (attach_state .EMM_DEREGISTERED)
          { primitive := ._EMMREG_COMMON_PROC_CNF, notify := true, common_proc := some 1 }
        = .error .assert_failed :=
  ⟨(C12_state_mismatch_no_transition (attach_state .EMM_DEREGISTERED)
      { primitive := ._EMMREG_ATTACH_REJ }).1 (by decide),
   (C12_state_mismatch_no_transition (attach_state .EMM_DEREGISTERED)
      { primitive := ._EMMREG_COMMON_PROC_CNF, notify := true, common_proc := some 1 }).2
      (by decide)⟩

/-- C14 (evaluation at the failing input): on a context without registry, and
hence without specific procedure, neither `nas_new_attach_procedure` nor
`nas_new_tau_procedure` returns a procedure or creates the registry: both stop in
`_nas_new_emm_procedures`, which initialises the list head through the NULL
registry pointer of the context. -/
theorem C14_new_specific_absent_registry :
    nas_new_attach_procedure (mk_state .EMM_DEREGISTERED none) = .error .null_dereference ∧
      nas_new_tau_procedure (mk_state .EMM_DEREGISTERED none) = .error .null_dereference :=
  ⟨rfl, rfl⟩

/-- The part of C14 that holds: on a registry that exists and has an empty
specific field, the constructor for kind `k` (Attach or TAU) returns a new
procedure that is installed as the specific procedure, is tagged EMM /
specific / `k`, has the configured T3450 duration and an inactive timer
identifier, and is zero in every other field (callback slots, parent, child);
the other three collections, the rest of the heap, the FSM state and the trace
are unchanged. -/
theorem new_specific_registry_present (s : State) (r : emm_procedures_t)
    (k : emm_specific_proc_type_t)
    (hr : s.emm_context.emm_procedures = some r) (hs : r.emm_specific_proc = none) :
    ∃ s', nas_new_specific_procedure s k = .ok (some s.brk, s') ∧
      s'.emm_context.emm_procedures = some { r with emm_specific_proc := some s.brk } ∧
      s'.procs s.brk = some
        { base_type := .NAS_PROC_TYPE_EMM, emm_type := .NAS_EMM_PROC_TYPE_SPECIFIC, spec_type := k,
          T3450 := { sec := s.mme_config.t3450_sec, id := NAS_TIMER_INACTIVE_ID } } ∧
      (∀ x, x ≠ s.brk → s'.procs x = s.procs x) ∧
      s'.emm_context._emm_fsm_state = s.emm_context._emm_fsm_state ∧ s'.trace = s.trace := by
  refine ⟨store (set_emm_procedures (calloc s).2 (some { r with emm_specific_proc := some s.brk }))
    s.brk { base_type := .NAS_PROC_TYPE_EMM, emm_type := .NAS_EMM_PROC_TYPE_SPECIFIC, spec_type := k,
            T3450 := { sec := s.mme_config.t3450_sec, id := NAS_TIMER_INACTIVE_ID } },
    ?_, rfl, ?_, ?_, rfl, rfl⟩
  · simp [nas_new_specific_procedure, hr, hs, install_specific_proc, calloc]
  · simp [store]
  · intro x hx
    simp [store, set_emm_procedures, calloc, hx]

/-- C15: on a context with a registry, `nas_emm_procedure_gc` returns; the
registry is absent afterwards if and only if the common list and the
core-network list are empty and there is neither a connection-management nor a
specific procedure; in that case only the registry pointer changes, and in
every other case the state is exactly as before. -/
theorem C15_gc_frees_iff_all_empty (s : State) (r : emm_procedures_t)
    (hr : s.emm_context.emm_procedures = some r) :
    ∃ s', nas_emm_procedure_gc s = .ok s' ∧
      (s'.emm_context.emm_procedures = none ↔
        (r.emm_common_procs = [] ∧ r.cn_procs = [] ∧ r.emm_con_mngt_proc = none
          ∧ r.emm_specific_proc = none)) ∧
      (registry_empty r = true → s' = set_emm_procedures s none) ∧
      (registry_empty r = false → s' = s) := by
  by_cases hg : r.emm_common_procs = [] ∧ r.cn_procs = [] ∧ r.emm_con_mngt_proc = none
      ∧ r.emm_specific_proc = none
  · refine ⟨set_emm_procedures s none, ?_, ?_, fun _ => rfl, ?_⟩
    · simp [nas_emm_procedure_gc, hr, hg]
    · simp [hg]
    · intro h
      simp [registry_empty, hg] at h
  · refine ⟨s, ?_, ?_, ?_, fun _ => rfl⟩
    · simp only [nas_emm_procedure_gc, hr]
      rw [if_neg hg]
    · simp [hr, hg]
    · intro h
      simp [registry_empty] at h
      exact absurd h hg

/-- Witness of C15: a registry that holds only an attach procedure is kept, an
empty registry is released. -/
theorem C15_gc_frees_iff_all_empty_witness :
    (∃ s', nas_emm_procedure_gc (attach_state .EMM_REGISTERED) = .ok s' ∧
      (s'.emm_context.emm_procedures = none ↔
        (([] : List nas_emm_common_procedure_t) = [] ∧ ([] : List nas_cn_procedure_t) = []
          ∧ (none : Ptr) = none ∧ some 1 = (none : Ptr))) ∧
      (registry_empty { emm_specific_proc := some 1 } = true →
        s' = set_emm_procedures (attach_state .EMM_REGISTERED) none) ∧
      (registry_empty { emm_specific_proc := some 1 } = false →
        s' = attach_state .EMM_REGISTERED)) ∧
    (∃ s', nas_emm_procedure_gc (mk_state .EMM_REGISTERED (some {})) = .ok s' ∧
      (s'.emm_context.emm_procedures = none ↔
        (([] : List nas_emm_common_procedure_t) = [] ∧ ([] : List nas_cn_procedure_t) = []
          ∧ (none : Ptr) = none ∧ (none : Ptr) = none)) ∧
      (registry_empty {} = true →
        s' = set_emm_procedures (mk_state .EMM_REGISTERED (some {})) none) ∧
      (registry_empty {} = false → s' = mk_state .EMM_REGISTERED (some {}))) :=
  ⟨C15_gc_frees_iff_all_empty (attach_state .EMM_REGISTERED) { emm_specific_proc := some 1 } rfl,
   C15_gc_frees_iff_all_empty (mk_state .EMM_REGISTERED (some {})) {} rfl⟩

/-- C16 (evaluation at the failing inputs): deleting the only procedure of a
device with `nas_delete_common_procedure` (a common procedure that is in the
list) or with `nas_delete_cn_procedure` (a core-network procedure that is in the
list) removes it from its list and frees it, but the registry is not absent
afterwards: it stays allocated with its four collections empty, because both
functions return before the garbage collection when they find the node. -/
theorem C16_delete_leaves_empty_registry :
    (∃ s', nas_delete_common_procedure (common_proc_state auth_proc_obj) true (some 1)
          = .ok (s', none) ∧
        s'.procs 1 = none ∧
        s'.emm_context.emm_procedures = some {} ∧ registry_empty {} = true ∧
        s'.emm_context.emm_procedures ≠ none) ∧
    (∃ s', nas_delete_cn_procedure cn_proc_state true (some 1) = .ok s' ∧
        s'.procs 1 = none ∧
        s'.emm_context.emm_procedures = some {} ∧ registry_empty {} = true ∧
        s'.emm_context.emm_procedures ≠ none) :=
  ⟨⟨_, rfl, rfl, rfl, rfl, by simp⟩, ⟨_, rfl, rfl, rfl, rfl, by simp⟩⟩

/-- C19: on a device whose stored FSM state is the one the handler is dispatched
for, a primitive that `EmmRegistered` treats as not valid (common procedure
confirm, reject or abort, attach abort, the detach primitives, TAU request, the
service-request primitives, any unknown value) and a primitive for which
`EmmCommonProcedureInitiated` has no case make the handler return RETURNerror
with the state it was given: no FSM state is set, no callback is called (the
trace is unchanged) and the registry and the heap are as before. -/
theorem C19_invalid_primitive_no_mutation (s : State) (evt : emm_reg_t) :
    (emm_fsm_get_state s evt.ctx = .EMM_REGISTERED →
      invalid_in_registered evt.primitive = true →
      EmmRegistered s evt = .ok (RETURNerror, s)) ∧
    (emm_fsm_get_state s evt.ctx = .EMM_COMMON_PROCEDURE_INITIATED →
      invalid_in_common_procedure_initiated evt.primitive = true →
      EmmCommonProcedureInitiated s evt = .ok (RETURNerror, s)) := by
  constructor
  · intro hst hp
    cases hprim : evt.primitive <;>
      simp [hprim, invalid_in_registered] at hp <;>
      simp [EmmRegistered, hst, hprim]
  · intro hst hp
    cases hprim : evt.primitive <;>
      simp [hprim, invalid_in_common_procedure_initiated] at hp <;>
      simp [EmmCommonProcedureInitiated, hst, hprim]

/-- Witness of C19: a common procedure confirm in `EmmRegistered` and a TAU request
in `EmmCommonProcedureInitiated`. -/
theorem C19_invalid_primitive_no_mutation_witness :
    EmmRegistered (attach_state .EMM_REGISTERED)
        { primitive := ._EMMREG_COMMON_PROC_CNF, notify := true, common_proc := some 1 }
        = .ok (RETURNerror, attach_state .EMM_REGISTERED) ∧
      EmmCommonProcedureInitiated (common_proc_state auth_proc_obj)
        { primitive := ._EMMREG_TAU_REQ, notify := true }
        = .ok (RETURNerror, common_proc_state auth_proc_obj) :=
  ⟨(C19_invalid_primitive_no_mutation (attach_state .EMM_REGISTERED)
      { primitive := ._EMMREG_COMMON_PROC_CNF, notify := true, common_proc := some 1 }).1 rfl rfl,
   (C19_invalid_primitive_no_mutation (common_proc_state auth_proc_obj)
      { primitive := ._EMMREG_TAU_REQ, notify := true }).2 rfl rfl⟩

/-- C20 (amended): on a device in `EMM_COMMON_PROCEDURE_INITIATED`, an attach-abort
event stops `EmmCommonProcedureInitiated` at the fatal assertion
`AssertFatal(0, "TODO")`: no result is returned to the caller; the assertion is
the only statement of the branch, so no FSM state is set and nothing in the
registry is changed before the run stops. -/
theorem C20_attach_abort_is_fatal (s : State) (evt : emm_reg_t)
    (hprim : evt.primitive = ._EMMREG_ATTACH_ABORT)
    (hst : emm_fsm_get_state s evt.ctx = .EMM_COMMON_PROCEDURE_INITIATED) :
    EmmCommonProcedureInitiated s evt = .error .assert_fatal := by
  simp [EmmCommonProcedureInitiated, hst, hprim]

/-- Witness of C20 (amended): attach abort while an authentication procedure is
running. -/
theorem C20_attach_abort_is_fatal_witness :
    EmmCommonProcedureInitiated (common_proc_state auth_proc_obj)
        { primitive := ._EMMREG_ATTACH_ABORT, notify := true } = .error .assert_fatal :=
  C20_attach_abort_is_fatal (common_proc_state auth_proc_obj)
    { primitive := ._EMMREG_ATTACH_ABORT, notify := true } rfl rfl

/-- C20 (counterexample): for an attach-abort event on a device in
`EMM_COMMON_PROCEDURE_INITIATED` there is no result, error or other, that
`EmmCommonProcedureInitiated` returns to its caller. -/
theorem C20_counterexample_no_result :
    ¬ ∃ rc s', EmmCommonProcedureInitiated (common_proc_state auth_proc_obj)
        { primitive := ._EMMREG_ATTACH_ABORT } = .ok (rc, s') := by
  have h : EmmCommonProcedureInitiated (common_proc_state auth_proc_obj)
      { primitive := ._EMMREG_ATTACH_ABORT } = .error .assert_fatal := rfl
  rintro ⟨rc, s', hs'⟩
  rw [h] at hs'
  cases hs'

/-- C18 (evaluation at the failing input): the heap holds an attach procedure and
an authentication procedure linked as parent and child on both sides, so the
links are consistent and nothing dangles.  `nas_delete_common_procedure` on the
authentication procedure returns and frees it, but it does not touch the parent:
afterwards the attach procedure still names the freed procedure as its child. -/
theorem C18_delete_common_leaves_dangling_child :
    link_consistent attach_with_auth_child ∧ no_dangling_link attach_with_auth_child ∧
    ∃ s', nas_delete_common_procedure attach_with_auth_child true (some 2) = .ok (s', none) ∧
      s'.procs 2 = none ∧
      (∃ o, s'.procs 1 = some o ∧ o.child = some 2) ∧
      ¬ no_dangling_link s' := by
  refine ⟨?_, ?_, _, rfl, rfl, ⟨_, rfl, rfl⟩, ?_⟩
  · intro p c pp cc hp hc
    by_cases hp1 : p = 1
    · by_cases hc1 : c = 1
      · subst hp1 hc1
        simp [attach_with_auth_child] at hp hc
        subst hp hc
        simp
      · by_cases hc2 : c = 2
        · subst hp1 hc2
          simp [attach_with_auth_child] at hp hc
          subst hp hc
          simp
        · simp [attach_with_auth_child, hc1, hc2] at hc
    · by_cases hp2 : p = 2
      · by_cases hc1 : c = 1
        · subst hp2 hc1
          simp [attach_with_auth_child] at hp hc
          subst hp hc
          simp
        · by_cases hc2 : c = 2
          · subst hp2 hc2
            simp [attach_with_auth_child] at hp hc
            subst hp hc
            simp
          · simp [attach_with_auth_child, hc1, hc2] at hc
      · simp [attach_with_auth_child, hp1, hp2] at hp
  · intro p pp hp
    by_cases hp1 : p = 1
    · subst hp1
      simp [attach_with_auth_child] at hp
      subst hp
      exact ⟨rfl, rfl⟩
    · by_cases hp2 : p = 2
      · subst hp2
        simp [attach_with_auth_child] at hp
        subst hp
        exact ⟨rfl, rfl⟩
      · simp [attach_with_auth_child, hp1, hp2] at hp
  · intro h
    have h1 := (h 1 _ rfl).2
    simp [valid_ptr] at h1

/-- One step of the loop of `nas_delete_cn_procedures`. -/
theorem cn_loop_cons (w : nas_cn_procedure_t) (t : List nas_cn_procedure_t) (s : State) :
    nas_delete_cn_procedures_loop (w :: t) s = (do
      let o ← deref s w.proc
      let s1 ← delete_cn_by_kind s w.proc o
      let s2 ← list_remove_cn s1 w
      nas_delete_cn_procedures_loop t s2) := by
  rw [nas_delete_cn_procedures_loop]
  cases h1 : deref s w.proc with
  | error e => rfl
  | ok o =>
    simp only [bind, Except.bind, delete_cn_by_kind]
    cases hk : o.cn_type with
    | CN_PROC_AUTH_INFO =>
      cases h2 : nas_delete_auth_info_procedure s w.proc with
      | error e => simp [h2]
      | ok v => simp [h2, pure, Except.pure]
    | CN_PROC_NONE =>
      cases h2 : free_wrapper s w.proc with
      | error e => simp [h2]
      | ok v => simp [h2]

/-- One step of the loop of `nas_delete_common_procedures`. -/
theorem common_loop_cons (w : nas_emm_common_procedure_t) (t : List nas_emm_common_procedure_t)
    (s : State) :
    nas_delete_common_procedures_loop (w :: t) s = (do
      let s1 ← list_remove_common s w
      let s3 ← delete_common_content s1 w.proc
      nas_delete_common_procedures_loop t s3) := by
  rw [nas_delete_common_procedures_loop]
  cases h1 : list_remove_common s w with
  | error e => rfl
  | ok s1 =>
    simp only [bind, Except.bind, delete_common_content]
    cases h2 : deref s1 w.proc with
    | error e => rfl
    | ok o => rfl
/-- Rewriting the child field of an object with its own value gives the object. -/
theorem with_child_self (o : nas_proc_t) : { o with child := o.child } = o := by
  cases o
  rfl

/-- The switch on the kind of a core-network procedure returns for an allocated
procedure whose parent pointer is NULL or allocated: the procedure is freed,
and of the other objects at most the child field changes. -/
theorem delete_cn_by_kind_ok (s : State) (a : Addr) (o : nas_proc_t) (ho : s.procs a = some o)
    (hpar : valid_ptr s o.parent = true) :
    ∃ s1, delete_cn_by_kind s (some a) o = .ok s1 ∧ s1.emm_context = s.emm_context ∧
      s1.trace = s.trace ∧ s1.mme_ue_s1ap_id = s.mme_ue_s1ap_id ∧ s1.procs a = none ∧
      ∀ x, x ≠ a → ∀ ox, s.procs x = some ox → ∃ c, s1.procs x = some { ox with child := c } := by
  have hplain : ∃ s1, free_wrapper s (some a) = .ok s1 ∧ s1.emm_context = s.emm_context ∧
      s1.trace = s.trace ∧ s1.mme_ue_s1ap_id = s.mme_ue_s1ap_id ∧ s1.procs a = none ∧
      ∀ x, x ≠ a → ∀ ox, s.procs x = some ox →
        ∃ c, s1.procs x = some { ox with child := c } := by
    refine ⟨{ s with procs := fun x => if x = a then none else s.procs x },
      free_wrapper_live s a o ho, rfl, rfl, rfl, by simp, ?_⟩
    intro x hx ox hox
    exact ⟨ox.child, by simp [hx, hox, with_child_self]⟩
  cases hk : o.cn_type with
  | CN_PROC_NONE =>
    simpa [delete_cn_by_kind, hk] using hplain
  | CN_PROC_AUTH_INFO =>
    cases hp : o.parent with
    | none =>
      obtain ⟨s1, h1, h2⟩ := hplain
      refine ⟨s1, ?_, h2⟩
      simp [delete_cn_by_kind, hk, nas_delete_auth_info_procedure, deref, ho, hp, h1, bind,
        Except.bind, pure, Except.pure]
    | some q =>
      obtain ⟨oq, hq⟩ : ∃ oq, s.procs q = some oq := by
        rw [hp] at hpar
        exact Option.isSome_iff_exists.mp hpar
      obtain ⟨oa, hoa⟩ : ∃ oa, (store s q { oq with child := none }).procs a = some oa := by
        by_cases haq : a = q
        · exact ⟨{ oq with child := none }, by simp [store, haq]⟩
        · exact ⟨o, by simp [store, haq, ho]⟩
      refine ⟨{ store s q { oq with child := none } with
          procs := fun x => if x = a then none else (store s q { oq with child := none }).procs x },
        ?_, rfl, rfl, rfl, by simp, ?_⟩
      · simp [delete_cn_by_kind, hk, nas_delete_auth_info_procedure, deref, ho, hp, hq,
          free_wrapper_live _ a oa hoa, bind, Except.bind, pure, Except.pure]
      · intro x hx ox hox
        by_cases hxq : x = q
        · subst hxq
          rw [hq] at hox
          cases hox
          exact ⟨none, by simp [store, hx]⟩
        · exact ⟨ox.child, by simp [store, hx, hxq, hox, with_child_self]⟩

/-- The content release and free of a common procedure returns for an allocated
procedure and changes no other object. -/
theorem delete_common_content_ok (s : State) (a : Addr) (o : nas_proc_t)
    (ho : s.procs a = some o) :
    ∃ s1, delete_common_content s (some a) = .ok s1 ∧ s1.emm_context = s.emm_context ∧
      s1.trace = s.trace ∧ s1.mme_ue_s1ap_id = s.mme_ue_s1ap_id ∧ s1.procs a = none ∧
      ∀ x, x ≠ a → s1.procs x = s.procs x := by
  by_cases hc : o.comm_type = .EMM_COMM_PROC_AUTH ∧ o.unchecked_imsi = true
  · refine ⟨{ store s a { o with unchecked_imsi := false } with
        procs := fun x => if x = a then none
          else (store s a { o with unchecked_imsi := false }).procs x },
      ?_, rfl, rfl, rfl, by simp, ?_⟩
    · have hfw := free_wrapper_live (store s a { o with unchecked_imsi := false }) a
        { o with unchecked_imsi := false } (by simp [store])
      simp only [delete_common_content, deref, ho, bind, Except.bind]
      rw [if_pos hc]
      exact hfw
    · intro x hx
      simp [store, hx]
  · refine ⟨{ s with procs := fun x => if x = a then none else s.procs x },
      ?_, rfl, rfl, rfl, by simp, ?_⟩
    · simp only [delete_common_content, deref, ho, bind, Except.bind]
      rw [if_neg hc]
      exact free_wrapper_live s a o ho
    · intro x hx
      simp [hx]
/-- The loop of `nas_delete_cn_procedures` over the whole core-network list of a
registry returns, if the wrapped procedures are pairwise different and
allocated and their parent pointers are NULL or refer to allocated procedures
outside the list.  Afterwards the list is empty and, of the procedures outside
the list, at most the child field has changed. -/
theorem cn_loop_ok (l : List nas_cn_procedure_t) :
    ∀ (s : State) (r : emm_procedures_t), s.emm_context.emm_procedures = some r →
      r.cn_procs = l → (l.map (fun w => w.proc)).Nodup →
      (∀ w ∈ l, ∃ a o, w.proc = some a ∧ s.procs a = some o ∧ valid_ptr s o.parent = true ∧
        o.parent ∉ l.map (fun w => w.proc)) →
      ∃ s', nas_delete_cn_procedures_loop l s = .ok s' ∧
        s'.emm_context.emm_procedures = some { r with cn_procs := [] } ∧
        s'.trace = s.trace ∧ s'.mme_ue_s1ap_id = s.mme_ue_s1ap_id ∧
        (∀ x, some x ∉ l.map (fun w => w.proc) → ∀ ox, s.procs x = some ox →
          ∃ c, s'.procs x = some { ox with child := c }) := by
  induction l with
  | nil =>
    intro s r hr hl _ _
    refine ⟨s, rfl, ?_, rfl, rfl, ?_⟩
    · rw [hr, ← hl]
    · intro x _ ox hox
      exact ⟨ox.child, by rw [hox, with_child_self]⟩
  | cons w t ih =>
    intro s r hr hl hnd hlive
    obtain ⟨a, o, hwa, ho, hpar, _⟩ := hlive w (List.mem_cons_self _ _)
    have hnd' : w.proc ∉ t.map (fun w => w.proc) ∧ (t.map (fun w => w.proc)).Nodup := by
      simpa using hnd
    obtain ⟨s1, hs1, hctx1, htr1, hue1, _, hframe1⟩ := delete_cn_by_kind_ok s a o ho hpar
    have hr1 : s1.emm_context.emm_procedures = some r := by rw [hctx1, hr]
    have hrem : list_remove_cn s1 w
        = .ok (set_emm_procedures s1 (some { r with cn_procs := t })) := by
      simp [list_remove_cn, hr1, hl]
    have hlive2 : ∀ w' ∈ t, ∃ a' o', w'.proc = some a' ∧
        (set_emm_procedures s1 (some { r with cn_procs := t })).procs a' = some o' ∧
        valid_ptr (set_emm_procedures s1 (some { r with cn_procs := t })) o'.parent = true ∧
        o'.parent ∉ t.map (fun w => w.proc) := by
      intro w' hw'
      obtain ⟨a', o', hwa', ho', hpar', hnot'⟩ := hlive w' (List.mem_cons_of_mem _ hw')
      have hmem : some a' ∈ t.map (fun w => w.proc) := by
        rw [← hwa']
        exact List.mem_map_of_mem _ hw'
      have hne : a' ≠ a := by
        intro h
        apply hnd'.1
        rw [hwa, ← h]
        exact hmem
      obtain ⟨c, hc⟩ := hframe1 a' hne o' ho'
      refine ⟨a', { o' with child := c }, hwa', by simpa using hc, ?_, ?_⟩
      · cases hq : o'.parent with
        | none => simp [valid_ptr]
        | some q =>
          have hqa : q ≠ a := by
            intro h
            apply hnot'
            rw [hq, h, ← hwa]
            exact List.mem_map_of_mem _ (List.mem_cons_self _ _)
          obtain ⟨oq, hoq⟩ : ∃ oq, s.procs q = some oq := by
            rw [hq] at hpar'
            exact Option.isSome_iff_exists.mp hpar'
          obtain ⟨cq, hcq⟩ := hframe1 q hqa oq hoq
          simp [valid_ptr, hcq]
      · intro h
        apply hnot'
        simp only [List.map_cons, List.mem_cons]
        exact Or.inr h
    obtain ⟨s', hs', hreg', htr', hue', hframe'⟩ :=
      ih (set_emm_procedures s1 (some { r with cn_procs := t })) { r with cn_procs := t }
        rfl rfl hnd'.2 hlive2
    refine ⟨s', ?_, hreg', ?_, ?_, ?_⟩
    · rw [cn_loop_cons]
      simp [deref, hwa, ho, hs1, hrem, hs', bind, Except.bind]
    · rw [htr']
      simpa using htr1
    · rw [hue']
      exact hue1
    · intro x hx ox hox
      have hxa : x ≠ a := by
        intro h
        apply hx
        rw [h, ← hwa]
        exact List.mem_map_of_mem _ (List.mem_cons_self _ _)
      have hxt : some x ∉ t.map (fun w => w.proc) := by
        intro h
        apply hx
        simp only [List.map_cons, List.mem_cons]
        exact Or.inr h
      obtain ⟨c1, hc1⟩ := hframe1 x hxa ox hox
      obtain ⟨c2, hc2⟩ := hframe' x hxt { ox with child := c1 } (by simpa using hc1)
      exact ⟨c2, hc2⟩
/-- The loop of `nas_delete_common_procedures` over the whole common list of a
registry returns, if the wrapped procedures are pairwise different and
allocated.  Afterwards the list is empty and the procedures outside the list
are unchanged. -/
theorem common_loop_ok (l : List nas_emm_common_procedure_t) :
    ∀ (s : State) (r : emm_procedures_t), s.emm_context.emm_procedures = some r →
      r.emm_common_procs = l → (l.map (fun w => w.proc)).Nodup →
      (∀ w ∈ l, ∃ a o, w.proc = some a ∧ s.procs a = some o) →
      ∃ s', nas_delete_common_procedures_loop l s = .ok s' ∧
        s'.emm_context.emm_procedures = some { r with emm_common_procs := [] } ∧
        s'.trace = s.trace ∧ s'.mme_ue_s1ap_id = s.mme_ue_s1ap_id ∧
        (∀ x, some x ∉ l.map (fun w => w.proc) → s'.procs x = s.procs x) := by
  induction l with
  | nil =>
    intro s r hr hl _ _
    refine ⟨s, rfl, ?_, rfl, rfl, fun _ _ => rfl⟩
    rw [hr, ← hl]
  | cons w t ih =>
    intro s r hr hl hnd hlive
    obtain ⟨a, o, hwa, ho⟩ := hlive w (List.mem_cons_self _ _)
    have hnd' : w.proc ∉ t.map (fun w => w.proc) ∧ (t.map (fun w => w.proc)).Nodup := by
      simpa using hnd
    have hrem : list_remove_common s w
        = .ok (set_emm_procedures s (some { r with emm_common_procs := t })) := by
      simp [list_remove_common, hr, hl]
    obtain ⟨s3, hs3, hctx3, htr3, hue3, _, hframe3⟩ :=
      delete_common_content_ok (set_emm_procedures s (some { r with emm_common_procs := t })) a o
        (by simpa using ho)
    have hr3 : s3.emm_context.emm_procedures = some { r with emm_common_procs := t } := by
      rw [hctx3]
      rfl
    have hlive3 : ∀ w' ∈ t, ∃ a' o', w'.proc = some a' ∧ s3.procs a' = some o' := by
      intro w' hw'
      obtain ⟨a', o', hwa', ho'⟩ := hlive w' (List.mem_cons_of_mem _ hw')
      have hne : a' ≠ a := by
        intro h
        apply hnd'.1
        rw [hwa, ← h, ← hwa']
        exact List.mem_map_of_mem _ hw'
      exact ⟨a', o', hwa', by rw [hframe3 a' hne]; simpa using ho'⟩
    obtain ⟨s', hs', hreg', htr', hue', hframe'⟩ :=
      ih s3 { r with emm_common_procs := t } hr3 rfl hnd'.2 hlive3
    refine ⟨s', ?_, hreg', ?_, ?_, ?_⟩
    · rw [common_loop_cons]
      simp [hrem, hwa, hs3, hs', bind, Except.bind]
    · rw [htr', htr3]
      rfl
    · rw [hue', hue3]
      rfl
    · intro x hx
      have hxa : x ≠ a := by
        intro h
        apply hx
        rw [h, ← hwa]
        exact List.mem_map_of_mem _ (List.mem_cons_self _ _)
      have hxt : some x ∉ t.map (fun w => w.proc) := by
        intro h
        apply hx
        simp only [List.map_cons, List.mem_cons]
        exact Or.inr h
      rw [hframe' x hxt, hframe3 x hxa]
      rfl

/-- The garbage collection on a context with a registry. -/
theorem gc_eq (s : State) (r : emm_procedures_t) (hr : s.emm_context.emm_procedures = some r) :
    nas_emm_procedure_gc s = .ok (if registry_empty r = true then set_emm_procedures s none else s) := by
  by_cases hg : r.emm_common_procs = [] ∧ r.cn_procs = [] ∧ r.emm_con_mngt_proc = none
      ∧ r.emm_specific_proc = none
  · simp [nas_emm_procedure_gc, hr, registry_empty, hg]
  · simp only [nas_emm_procedure_gc, hr, registry_empty]
    rw [if_neg hg]
    simp [hg]

/-- `nas_delete_cn_procedures` returns on a context without registry or with a
registry whose core-network list is well formed; a registry that remains is
the old one with an empty core-network list, and of the procedures outside the
list at most the child field changes. -/
theorem delete_cn_procedures_ok (s : State)
    (h : ∀ r, s.emm_context.emm_procedures = some r →
      (r.cn_procs.map (fun w => w.proc)).Nodup ∧
      ∀ w ∈ r.cn_procs, ∃ a o, w.proc = some a ∧ s.procs a = some o ∧
        valid_ptr s o.parent = true ∧ o.parent ∉ r.cn_procs.map (fun w => w.proc)) :
    ∃ s', nas_delete_cn_procedures s = .ok s' ∧
      (∀ r', s'.emm_context.emm_procedures = some r' →
        ∃ r, s.emm_context.emm_procedures = some r ∧ r' = { r with cn_procs := [] }) ∧
      s'.mme_ue_s1ap_id = s.mme_ue_s1ap_id ∧
      (∀ x, (∀ r, s.emm_context.emm_procedures = some r →
          some x ∉ r.cn_procs.map (fun w => w.proc)) →
        ∀ ox, s.procs x = some ox → ∃ c, s'.procs x = some { ox with child := c }) := by
  cases hr : s.emm_context.emm_procedures with
  | none =>
    refine ⟨s, by simp [nas_delete_cn_procedures, hr], ?_, rfl, ?_⟩
    · intro r' hr'
      rw [hr] at hr'
      cases hr'
    · intro x _ ox hox
      exact ⟨ox.child, by rw [hox, with_child_self]⟩
  | some r =>
    obtain ⟨hnd, hlive⟩ := h r hr
    obtain ⟨s1, hs1, hr1, _, hue1, hframe1⟩ := cn_loop_ok r.cn_procs s r hr rfl hnd hlive
    refine ⟨if registry_empty { r with cn_procs := [] } = true then set_emm_procedures s1 none
      else s1, ?_, ?_, ?_, ?_⟩
    · simp [nas_delete_cn_procedures, hr, hs1, gc_eq s1 _ hr1, bind, Except.bind]
    · intro r' hr'
      refine ⟨r, rfl, ?_⟩
      split at hr'
      · simp at hr'
      · rw [hr1] at hr'
        exact (Option.some.inj hr').symm
    · split <;> exact hue1
    · intro x hx ox hox
      obtain ⟨c, hc⟩ := hframe1 x (hx r rfl) ox hox
      refine ⟨c, ?_⟩
      split <;> simpa using hc

/-- `nas_delete_common_procedures` returns on a context without registry or with a
registry whose common list is well formed; a registry that remains is the old
one with an empty common list, and the procedures outside the list are
unchanged. -/
theorem delete_common_procedures_ok (s : State)
    (h : ∀ r, s.emm_context.emm_procedures = some r →
      (r.emm_common_procs.map (fun w => w.proc)).Nodup ∧
      ∀ w ∈ r.emm_common_procs, ∃ a o, w.proc = some a ∧ s.procs a = some o) :
    ∃ s', nas_delete_common_procedures s = .ok s' ∧
      (∀ r', s'.emm_context.emm_procedures = some r' →
        ∃ r, s.emm_context.emm_procedures = some r ∧ r' = { r with emm_common_procs := [] }) ∧
      s'.mme_ue_s1ap_id = s.mme_ue_s1ap_id ∧
      (∀ x, (∀ r, s.emm_context.emm_procedures = some r →
          some x ∉ r.emm_common_procs.map (fun w => w.proc)) →
        s'.procs x = s.procs x) := by
  cases hr : s.emm_context.emm_procedures with
  | none =>
    refine ⟨s, by simp [nas_delete_common_procedures, hr], ?_, rfl, fun _ _ => rfl⟩
    intro r' hr'
    rw [hr] at hr'
    cases hr'
  | some r =>
    obtain ⟨hnd, hlive⟩ := h r hr
    obtain ⟨s1, hs1, hr1, _, hue1, hframe1⟩ := common_loop_ok r.emm_common_procs s r hr rfl hnd hlive
    refine ⟨if registry_empty { r with emm_common_procs := [] } = true
      then set_emm_procedures s1 none else s1, ?_, ?_, ?_, ?_⟩
    · simp [nas_delete_common_procedures, hr, hs1, gc_eq s1 _ hr1, bind, Except.bind]
    · intro r' hr'
      refine ⟨r, rfl, ?_⟩
      split at hr'
      · simp at hr'
      · rw [hr1] at hr'
        exact (Option.some.inj hr').symm
    · split <;> exact hue1
    · intro x hx
      have := hframe1 x (hx r rfl)
      split <;> simpa using this

/-- A specific lookup returns NULL on a state whose registry is absent or has an
empty specific field. -/
theorem get_specific_none (s : State) (k : emm_specific_proc_type_t)
    (h : ∀ r, s.emm_context.emm_procedures = some r → r.emm_specific_proc = none) :
    get_nas_specific_procedure s true k = .ok none := by
  cases hr : s.emm_context.emm_procedures with
  | none => simp [get_nas_specific_procedure, hr]
  | some r => simp [get_nas_specific_procedure, hr, h r hr]

/-- `no_child_in_registry` from its two parts, for an empty common list. -/
theorem no_child_of_facts (s : State) (r : emm_procedures_t) (a : Addr)
    (hcommon : r.emm_common_procs = [])
    (hcm : ∀ c, r.emm_con_mngt_proc = some c → ∃ oc, s.procs c = some oc ∧ oc.parent ≠ some a) :
    no_child_in_registry s r a = true := by
  cases hc : r.emm_con_mngt_proc with
  | none => simp [no_child_in_registry, hcommon, hc]
  | some c =>
    obtain ⟨oc, hoc, hne⟩ := hcm c hc
    simp [no_child_in_registry, hcommon, hc, hoc, hne]

/-- The detach deletion on a procedure without children. -/
theorem delete_detach_without_children (s : State) (r : emm_procedures_t) (a : Addr)
    (o : nas_proc_t)
    (hr : s.emm_context.emm_procedures = some r) (ha : r.emm_specific_proc = some a)
    (ho : s.procs a = some o) (hk : o.spec_type = .EMM_SPEC_PROC_TYPE_DETACH)
    (hn : no_child_in_registry s r a = true) :
    ∃ s', nas_delete_detach_procedure s true = .ok s' ∧
      s'.emm_context._emm_fsm_state = s.emm_context._emm_fsm_state ∧
      specific_deleted r a (.ok s') := by
  have hg := get_specific_eq s r a o .EMM_SPEC_PROC_TYPE_DETACH hr ha ho
  simp only [hk, if_true] at hg
  have h := no_child_after_store s (store s a { o with ies := false }) r a o _ ho rfl rfl
    (no_child_common s r a hn) (no_child_con_mngt s r a hn)
  obtain ⟨s', h1, h2, _, h4⟩ := delete_specific_core _ r a { o with ies := false }
    (by simpa [store] using hr) ha (by simp [store]) h.1 h.2
  refine ⟨s', ?_, h2, h4⟩
  simpa [nas_delete_detach_procedure, get_nas_specific_procedure_detach, hg, deref, ho, bind,
    Except.bind] using h1

/-- The three specific deletions in the order of `nas_delete_all_emm_procedures`
return on a context without registry or with a registry whose common list is
empty, whose specific procedure, if any, is allocated and whose
connection-management procedure, if any, is allocated and not a child of the
specific procedure. -/
theorem specific_deletions_ok (s : State)
    (h : ∀ r, s.emm_context.emm_procedures = some r →
      r.emm_common_procs = [] ∧
      ∀ a, r.emm_specific_proc = some a →
        (∃ o, s.procs a = some o) ∧
        ∀ c, r.emm_con_mngt_proc = some c → ∃ oc, s.procs c = some oc ∧ oc.parent ≠ some a) :
    ∃ s3 s4 s5, nas_delete_attach_procedure s true = .ok s3 ∧
      nas_delete_detach_procedure s3 true = .ok s4 ∧
      nas_delete_tau_procedure s4 true = .ok s5 := by
  have hskip : ∀ s0 : State,
      (∀ r, s0.emm_context.emm_procedures = some r → r.emm_specific_proc = none) →
      nas_delete_attach_procedure s0 true = .ok s0 ∧
      nas_delete_detach_procedure s0 true = .ok s0 ∧
      nas_delete_tau_procedure s0 true = .ok s0 := by
    intro s0 h0
    refine ⟨?_, ?_, ?_⟩
    · simp [nas_delete_attach_procedure, get_nas_specific_procedure_attach,
        get_specific_none s0 _ h0, bind, Except.bind, pure, Except.pure]
    · simp [nas_delete_detach_procedure, get_nas_specific_procedure_detach,
        get_specific_none s0 _ h0, bind, Except.bind, pure, Except.pure]
    · simp [nas_delete_tau_procedure, get_nas_specific_procedure_tau,
        get_specific_none s0 _ h0, bind, Except.bind, pure, Except.pure]
  cases hr : s.emm_context.emm_procedures with
  | none =>
    have h0 := hskip s (fun r hr' => by rw [hr] at hr'; cases hr')
    exact ⟨s, s, s, h0.1, h0.2.1, h0.2.2⟩
  | some r =>
    obtain ⟨hcommon, hspec⟩ := h r hr
    cases ha : r.emm_specific_proc with
    | none =>
      have h0 := hskip s (fun r' hr' => by rw [hr] at hr'; cases hr'; exact ha)
      exact ⟨s, s, s, h0.1, h0.2.1, h0.2.2⟩
    | some a =>
      obtain ⟨⟨o, ho⟩, hcm⟩ := hspec a ha
      have hn := no_child_of_facts s r a hcommon hcm
      have hga := get_specific_eq s r a o .EMM_SPEC_PROC_TYPE_ATTACH hr ha ho
      have hgd := get_specific_eq s r a o .EMM_SPEC_PROC_TYPE_DETACH hr ha ho
      have hgt := get_specific_eq s r a o .EMM_SPEC_PROC_TYPE_TAU hr ha ho
      cases hk : o.spec_type with
      | EMM_SPEC_PROC_TYPE_NONE =>
        simp [hk] at hga hgd hgt
        refine ⟨s, s, s, ?_, ?_, ?_⟩
        · simp [nas_delete_attach_procedure, get_nas_specific_procedure_attach, hga, bind,
            Except.bind, pure, Except.pure]
        · simp [nas_delete_detach_procedure, get_nas_specific_procedure_detach, hgd, bind,
            Except.bind, pure, Except.pure]
        · simp [nas_delete_tau_procedure, get_nas_specific_procedure_tau, hgt, bind,
            Except.bind, pure, Except.pure]
      | EMM_SPEC_PROC_TYPE_ATTACH =>
        simp [hk] at hga
        obtain ⟨s', h1, _, _, s'', hs'', _, _, h5⟩ :=
          delete_t3450_without_children s r a o hr ha ho hn
        cases hs''
        have h0 := hskip s' (fun r' hr' => (h5 r' hr').1)
        refine ⟨s', s', s', ?_, h0.2.1, h0.2.2⟩
        simpa [nas_delete_attach_procedure, get_nas_specific_procedure_attach, hga, bind,
          Except.bind] using h1
      | EMM_SPEC_PROC_TYPE_DETACH =>
        simp [hk] at hga
        obtain ⟨s', h1, _, s'', hs'', _, _, h5⟩ :=
          delete_detach_without_children s r a o hr ha ho hk hn
        cases hs''
        have h0 := hskip s' (fun r' hr' => (h5 r' hr').1)
        refine ⟨s, s', s', ?_, h1, h0.2.2⟩
        simp [nas_delete_attach_procedure, get_nas_specific_procedure_attach, hga, bind,
          Except.bind, pure, Except.pure]
      | EMM_SPEC_PROC_TYPE_TAU =>
        simp [hk] at hga hgd hgt
        obtain ⟨s', h1, _, _, s'', hs'', _, _, h5⟩ :=
          delete_t3450_without_children s r a o hr ha ho hn
        cases hs''
        refine ⟨s, s, s', ?_, ?_, ?_⟩
        · simp [nas_delete_attach_procedure, get_nas_specific_procedure_attach, hga, bind,
            Except.bind, pure, Except.pure]
        · simp [nas_delete_detach_procedure, get_nas_specific_procedure_detach, hgd, bind,
            Except.bind, pure, Except.pure]
        · simpa [nas_delete_tau_procedure, get_nas_specific_procedure_tau, hgt, bind,
            Except.bind] using h1

/-- What `registry_wf` says, part by part. -/
theorem registry_wf_facts (s : State) (r : emm_procedures_t) (h : registry_wf s r = true) :
    (listed_procs r).Nodup ∧
    (∀ w ∈ r.cn_procs, ∃ a o, w.proc = some a ∧ s.procs a = some o ∧
      valid_ptr s o.parent = true ∧ o.parent ∉ r.cn_procs.map (fun w => w.proc)) ∧
    (∀ w ∈ r.emm_common_procs, ∃ a o, w.proc = some a ∧ s.procs a = some o) ∧
    valid_ptr s r.emm_specific_proc = true ∧ r.emm_specific_proc ∉ listed_procs r ∧
    valid_ptr s r.emm_con_mngt_proc = true ∧ r.emm_con_mngt_proc ∉ listed_procs r := by
  simp only [registry_wf, Bool.and_eq_true, decide_eq_true_eq, Bool.not_eq_true',
    List.contains, List.elem_eq_mem, decide_eq_false_iff_not] at h
  obtain ⟨⟨⟨⟨⟨⟨h1, h2⟩, h3⟩, h4⟩, h5⟩, h6⟩, h7⟩ := h
  refine ⟨h1, ?_, ?_, h4, h5, h6, h7⟩
  · intro w hw
    simp only [cn_wf, List.all_eq_true] at h2
    have hw2 := h2 w hw
    cases hp : w.proc with
    | none => simp [hp] at hw2
    | some a =>
      cases ho : s.procs a with
      | none => simp [hp, ho] at hw2
      | some o =>
        simp only [hp, ho, Bool.and_eq_true, Bool.not_eq_true', List.contains, List.elem_eq_mem,
          decide_eq_false_iff_not] at hw2
        exact ⟨a, o, rfl, ho, hw2.1, hw2.2⟩
  · intro w hw
    simp only [common_wf, List.all_eq_true] at h3
    have hw3 := h3 w hw
    cases hp : w.proc with
    | none => simp [hp] at hw3
    | some a =>
      cases ho : s.procs a with
      | none => simp [hp, ho] at hw3
      | some o => exact ⟨a, o, rfl, ho⟩

/-- Every lookup returns NULL when the registry is absent. -/
theorem all_deleted_of_none (s' : State) (h : s'.emm_context.emm_procedures = none) :
    all_deleted (.ok s') := by
  refine ⟨s', rfl, h, ?_, ?_, ?_, ?_⟩
  · intro k
    simp [get_nas_specific_procedure, h]
  · simp [get_nas_con_mngt_procedure_service_request, h]
  · intro k
    simp [get_nas_common_procedure, h]
  · intro k
    simp [get_nas_cn_procedure, h]

/-- C17 (amended): on a context without registry, or with a well-formed registry
(no procedure wrapped twice, every referenced procedure allocated, parents of
core-network procedures outside the core-network list) whose
connection-management procedure is not a child of its specific procedure,
`nas_delete_all_emm_procedures` returns and afterwards the registry is absent, so
that every lookup of a specific, connection-management, common or core-network
procedure returns NULL. -/
theorem C17_delete_all_well_formed (s : State)
    (hwf : ∀ r, s.emm_context.emm_procedures = some r →
      registry_wf s r = true ∧ con_mngt_child_of_specific s r = false) :
    all_deleted (nas_delete_all_emm_procedures s) := by
  cases hr : s.emm_context.emm_procedures with
  | none =>
    have h : nas_delete_all_emm_procedures s = .ok s := by
      simp [nas_delete_all_emm_procedures, hr]
    rw [h]
    exact all_deleted_of_none s hr
  | some r =>
    obtain ⟨hwfr, hcm⟩ := hwf r hr
    obtain ⟨hnd, hcn, hcommon, hvs, hns, hvc, hnc⟩ := registry_wf_facts s r hwfr
    have hnd2 : (r.cn_procs.map (fun w => w.proc)).Nodup ∧
        (r.emm_common_procs.map (fun w => w.proc)).Nodup ∧
        ∀ p, p ∈ r.cn_procs.map (fun w => w.proc) →
          p ∈ r.emm_common_procs.map (fun w => w.proc) → False := by
      have := List.nodup_append.mp hnd
      exact ⟨this.1, this.2.1, fun p h1 h2 => this.2.2 h1 h2⟩
    -- core-network list
    obtain ⟨sA, hA, hregA, _, hframeA⟩ := delete_cn_procedures_ok s (fun r' hr' => by
      rw [hr] at hr'
      cases hr'
      exact ⟨hnd2.1, hcn⟩)
    have hliveA : ∀ x, some x ∉ r.cn_procs.map (fun w => w.proc) → ∀ ox, s.procs x = some ox →
        ∃ c, sA.procs x = some { ox with child := c } := by
      intro x hx ox hox
      exact hframeA x (fun r' hr' => by rw [hr] at hr'; cases hr'; exact hx) ox hox
    -- common list
    obtain ⟨sB, hB, hregB, _, hframeB⟩ := delete_common_procedures_ok sA (fun rA hrA => by
      obtain ⟨r0, hr0, hrA'⟩ := hregA rA hrA
      rw [hr] at hr0
      cases hr0
      subst hrA'
      refine ⟨hnd2.2.1, ?_⟩
      intro w hw
      obtain ⟨a, o, hwa, ho⟩ := hcommon w hw
      have hmem : some a ∈ r.emm_common_procs.map (fun w => w.proc) := by
        rw [← hwa]
        exact List.mem_map_of_mem _ hw
      obtain ⟨c, hc⟩ := hliveA a (fun h => hnd2.2.2 _ h hmem) o ho
      exact ⟨a, _, hwa, hc⟩)
    have hliveB : ∀ x, some x ∉ listed_procs r → ∀ ox, s.procs x = some ox →
        ∃ c, sB.procs x = some { ox with child := c } := by
      intro x hx ox hox
      have hx1 : some x ∉ r.cn_procs.map (fun w => w.proc) := fun h =>
        hx (List.mem_append_left _ h)
      have hx2 : some x ∉ r.emm_common_procs.map (fun w => w.proc) := fun h =>
        hx (List.mem_append_right _ h)
      obtain ⟨c, hc⟩ := hliveA x hx1 ox hox
      refine ⟨c, ?_⟩
      rw [hframeB x (fun rA hrA => by
        obtain ⟨r0, hr0, hrA'⟩ := hregA rA hrA
        rw [hr] at hr0
        cases hr0
        subst hrA'
        exact hx2)]
      exact hc
    -- the three specific deletions
    obtain ⟨s3, s4, s5, h3, h4, h5⟩ := specific_deletions_ok sB (fun rB hrB => by
      obtain ⟨rA, hrA, hrB'⟩ := hregB rB hrB
      obtain ⟨r0, hr0, hrA'⟩ := hregA rA hrA
      rw [hr] at hr0
      cases hr0
      subst hrA' hrB'
      refine ⟨rfl, ?_⟩
      intro a ha
      have ha' : r.emm_specific_proc = some a := ha
      obtain ⟨o, ho⟩ : ∃ o, s.procs a = some o := by
        rw [ha'] at hvs
        exact Option.isSome_iff_exists.mp hvs
      obtain ⟨c, hc⟩ := hliveB a (by rw [← ha']; exact hns) o ho
      refine ⟨⟨_, hc⟩, ?_⟩
      intro cm hcm'
      have hcm'' : r.emm_con_mngt_proc = some cm := hcm'
      obtain ⟨oc, hoc⟩ : ∃ oc, s.procs cm = some oc := by
        rw [hcm''] at hvc
        exact Option.isSome_iff_exists.mp hvc
      obtain ⟨c2, hc2⟩ := hliveB cm (by rw [← hcm'']; exact hnc) oc hoc
      refine ⟨_, hc2, ?_⟩
      simpa [con_mngt_child_of_specific, ha', hcm'', hoc] using hcm)
    have h : nas_delete_all_emm_procedures s = .ok (set_emm_procedures s5 none) := by
      simp [nas_delete_all_emm_procedures, hr, hA, hB, h3, h4, h5, bind, Except.bind, pure,
        Except.pure]
    rw [h]
    exact all_deleted_of_none _ rfl

/-- Witness of C17 (amended): a registry with an attach procedure, a common child
of it, a core-network procedure and a service-request procedure without
parent. -/
theorem C17_delete_all_well_formed_witness :
    all_deleted (nas_delete_all_emm_procedures full_registry_state) :=
  C17_delete_all_well_formed full_registry_state (fun r hr => by
    have hr' : r = { emm_specific_proc := some 1,
                     emm_common_procs := [{ addr := 3, proc := some 2 }],
                     cn_procs := [{ addr := 5, proc := some 4 }],
                     emm_con_mngt_proc := some 6 } := (Option.some.inj hr).symm
    subst hr'
    exact ⟨by decide, by decide⟩)

/-- C17 (counterexample): on a registry whose attach procedure is the parent of
the connection-management procedure, `nas_delete_all_emm_procedures` does not
complete: the attach deletion reaches the fatal assertion of
`nas_delete_con_mngt_procedure`. -/
theorem C17_counterexample_con_mngt_child :
    nas_delete_all_emm_procedures (attach_with_con_mngt_child .EMM_REGISTERED)
        = .error .assert_fatal ∧
      ¬ all_deleted (nas_delete_all_emm_procedures (attach_with_con_mngt_child .EMM_REGISTERED)) := by
  have h : nas_delete_all_emm_procedures (attach_with_con_mngt_child .EMM_REGISTERED)
      = .error .assert_fatal := rfl
  refine ⟨h, ?_⟩
  rintro ⟨s', hs', _⟩
  rw [h] at hs'
  cases hs'

/-- The part of C18 that holds for `nas_unlink_procedures`: whatever the two
arguments, if the call returns and the links of the heap were consistent
before, they are consistent afterwards. -/
theorem unlink_preserves_link_consistent (s s' : State) (parent_proc child_proc : Ptr)
    (rc : Int) (h : nas_unlink_procedures s parent_proc child_proc = .ok (rc, s'))
    (hinv : link_consistent s) : link_consistent s' := by
  cases parent_proc with
  | none =>
    cases child_proc <;>
    · simp [nas_unlink_procedures, pure, Except.pure] at h
      rw [← h.2]
      exact hinv
  | some p =>
    cases child_proc with
    | none =>
      simp [nas_unlink_procedures, pure, Except.pure] at h
      rw [← h.2]
      exact hinv
    | some c =>
      cases hp : s.procs p with
      | none => simp [nas_unlink_procedures, deref, hp, bind, Except.bind] at h
      | some pp =>
        by_cases hl : pp.child = some c
        · cases hc : s.procs c with
          | none => simp [nas_unlink_procedures, deref, hp, hc, hl, bind, Except.bind] at h
          | some cc =>
            by_cases hcp : cc.parent = some p
            · rw [unlink_linked_eq s p c pp cc hp hc hl hcp] at h
              have hs' : s' = store (store s c { cc with parent := none }) p
                  { (if p = c then { cc with parent := none } else pp) with child := none } := by
                have := Except.ok.inj h
                exact (Prod.mk.inj this).2.symm
              subst hs'
              intro x y ox oy hx hy
              by_cases hxp : x = p
              · subst hxp
                have hox : ox.child = none := by
                  simp [store] at hx
                  rw [← hx]
                simp only [hox, reduceCtorEq, iff_false]
                by_cases hyp : y = x
                · subst hyp
                  simp [store] at hy
                  rw [← hy]
                  by_cases hxc : y = c
                  · simp [hxc]
                  · simp only [hxc, if_false]
                    intro hpar
                    have := (hinv y y pp pp hp hp).mp hpar
                    rw [hl] at this
                    exact hxc (Option.some.inj this).symm
                · by_cases hyc : y = c
                  · subst hyc
                    simp [store, hyp] at hy
                    rw [← hy]
                    simp
                  · simp [store, hyp, hyc] at hy
                    intro hpar
                    have := (hinv x y pp oy hp hy).mp hpar
                    rw [hl] at this
                    exact hyc (Option.some.inj this).symm
              · by_cases hxc : x = c
                · subst hxc
                  have hox : ox = { cc with parent := none } := by
                    simp [store, hxp] at hx
                    exact hx.symm
                  subst hox
                  by_cases hyp : y = p
                  · subst hyp
                    have hyx : y ≠ x := fun h => hxp h.symm
                    simp [store, hyx] at hy
                    rw [← hy]
                    simpa using hinv x y cc pp hc hp
                  · by_cases hyc : y = x
                    · subst hyc
                      simp [store, hxp] at hy
                      rw [← hy]
                      simp only [reduceCtorEq, false_iff]
                      intro hch
                      have := (hinv y y cc cc hc hc).mpr hch
                      rw [hcp] at this
                      exact hxp (Option.some.inj this).symm
                    · simp [store, hyp, hyc] at hy
                      simpa using hinv x y cc oy hc hy
                · simp [store, hxp, hxc] at hx
                  by_cases hyp : y = p
                  · subst hyp
                    by_cases hyc : y = c
                    · subst hyc
                      simp [store] at hy
                      rw [← hy]
                      simp only [reduceCtorEq, false_iff]
                      intro hch
                      have := (hinv x y ox cc hx hc).mpr hch
                      rw [hcp] at this
                      exact hxp (Option.some.inj this).symm
                    · simp [store, hyc] at hy
                      rw [← hy]
                      simpa using hinv x y ox pp hx hp
                  · by_cases hyc : y = c
                    · subst hyc
                      simp [store, hyp] at hy
                      rw [← hy]
                      simp only [reduceCtorEq, false_iff]
                      intro hch
                      have := (hinv x y ox cc hx hc).mpr hch
                      rw [hcp] at this
                      exact hxp (Option.some.inj this).symm
                    · simp [store, hyp, hyc] at hy
                      exact hinv x y ox oy hx hy
            · simp [nas_unlink_procedures, deref, hp, hc, hl, hcp, bind, Except.bind, pure,
                Except.pure] at h
              rw [← h.2]
              exact hinv
        · simp [nas_unlink_procedures, deref, hp, hl, bind, Except.bind, pure, Except.pure] at h
          rw [← h.2]
          exact hinv

/-- A handler only runs past its assertion for a context that exists. -/
theorem ctx_of_state (s : State) (c : Bool) (st : emm_fsm_state_t)
    (h : emm_fsm_get_state s c = st) (hne : st ≠ .EMM_INVALID) : c = true := by
  cases c with
  | true => rfl
  | false =>
    simp [emm_fsm_get_state] at h
    exact absurd h.symm hne

/-- The lower-layer failure and release branches of `EmmCommonProcedureInitiated`:
the test before the callback reads `rc`, which still has its initial value
`RETURNerror`, so the branch is the state set alone, whatever the event
carries. -/
theorem common_procedure_initiated_ll_failure (s : State) (evt : emm_reg_t)
    (hst : emm_fsm_get_state s evt.ctx = .EMM_COMMON_PROCEDURE_INITIATED)
    (hprim : evt.primitive = ._EMMREG_LOWERLAYER_FAILURE ∨
      evt.primitive = ._EMMREG_LOWERLAYER_RELEASE) :
    EmmCommonProcedureInitiated s evt
      = .ok (emm_fsm_set_state s evt.ue_id evt.ctx .EMM_DEREGISTERED) := by
  rcases hprim with h | h <;>
    simp [EmmCommonProcedureInitiated, hst, h, pure, Except.pure, bind, Except.bind]

/-- The non-delivery branch of `EmmCommonProcedureInitiated`: for the same reason
the callback is never called, the result so far is always `RETURNok` and the
state is always set. -/
theorem common_procedure_initiated_non_delivery (s : State) (evt : emm_reg_t)
    (hst : emm_fsm_get_state s evt.ctx = .EMM_COMMON_PROCEDURE_INITIATED)
    (hprim : evt.primitive = ._EMMREG_LOWERLAYER_NON_DELIVERY) :
    EmmCommonProcedureInitiated s evt
      = .ok (emm_fsm_set_state s evt.ue_id evt.ctx .EMM_DEREGISTERED) := by
  simp [EmmCommonProcedureInitiated, hst, hprim, pure, Except.pure, bind, Except.bind, RETURNok,
    RETURNerror]

/-- C26 (evaluation at the failing input): a lower-layer failure and a lower-layer
release event with notify set, for a device in `EMM_COMMON_PROCEDURE_INITIATED`
whose context exists, carrying a procedure whose failure notification is set:
the handler returns RETURNok and sets the FSM state to `EMM_DEREGISTERED`, but
the only call to a collaborator is the state set: the failure notification is
not called. -/
theorem C26_ll_failure_callback_not_called :
    (common_proc_state auth_proc_obj).procs 1 = some auth_proc_obj ∧
    auth_proc_obj.failure_notif = some (.other_fn 2) ∧
    (∃ s', EmmCommonProcedureInitiated (common_proc_state auth_proc_obj)
          { primitive := ._EMMREG_LOWERLAYER_FAILURE, notify := true,
            ll_failure_emm_proc := some 1 } = .ok (RETURNok, s') ∧
        s'.trace = [Action.emm_fsm_set_state 0 .EMM_DEREGISTERED] ∧
        s'.emm_context._emm_fsm_state = .EMM_DEREGISTERED) ∧
    (∃ s', EmmCommonProcedureInitiated (common_proc_state auth_proc_obj)
          { primitive := ._EMMREG_LOWERLAYER_RELEASE, notify := true,
            ll_failure_emm_proc := some 1 } = .ok (RETURNok, s') ∧
        s'.trace = [Action.emm_fsm_set_state 0 .EMM_DEREGISTERED] ∧
        s'.emm_context._emm_fsm_state = .EMM_DEREGISTERED) :=
  ⟨rfl, rfl, ⟨_, rfl, rfl, rfl⟩, ⟨_, rfl, rfl, rfl⟩⟩

/-- C27 (evaluation at the failing input): a lower-layer non-delivery event with
notify set, for a device in `EMM_COMMON_PROCEDURE_INITIATED` whose context
exists, carrying a procedure whose failure handler is set and would report
failure: the handler is not called (the only call to a collaborator is the
state set), the result is RETURNok and the FSM state is set to
`EMM_DEREGISTERED`. -/
theorem C27_non_delivery_callback_not_called :
    failing_callback_state.procs 1 = some auth_proc_obj ∧
    auth_proc_obj.failure_notif = some (.other_fn 2) ∧
    failing_callback_state.callback_rc (.other_fn 2) = RETURNerror ∧
    ∃ s', EmmCommonProcedureInitiated failing_callback_state
          { primitive := ._EMMREG_LOWERLAYER_NON_DELIVERY, notify := true,
            non_delivery_ho_emm_proc := some 1 } = .ok (RETURNok, s') ∧
        s'.trace = [Action.emm_fsm_set_state 0 .EMM_DEREGISTERED] ∧
        s'.emm_context._emm_fsm_state = .EMM_DEREGISTERED :=
  ⟨rfl, rfl, rfl, _, rfl, rfl, rfl⟩

/-- C30: in `EmmRegistered`, for a lower-layer failure or release event on a
device in `EMM_REGISTERED` (its context exists): with notify set and the
failure notification `cb` of the allocated procedure of the event set, the
handler calls `cb` exactly once, returns the result of `cb` and changes nothing
else (no FSM state is set, registry and heap are as before); with notify not
set, without a procedure, or with a procedure whose failure notification is
not set, no callback is called, the handler returns RETURNerror and the state
is exactly as before. -/
theorem C30_registered_ll_failure (s : State) (evt : emm_reg_t)
    (hst : emm_fsm_get_state s evt.ctx = .EMM_REGISTERED)
    (hprim : evt.primitive = ._EMMREG_LOWERLAYER_FAILURE ∨
      evt.primitive = ._EMMREG_LOWERLAYER_RELEASE) :
    (∀ a o cb, evt.notify = true → evt.ll_failure_emm_proc = some a → s.procs a = some o →
      o.failure_notif = some cb →
      EmmRegistered s evt = .ok (s.callback_rc cb,
        { s with trace := s.trace ++ [Action.callback .failure_notif cb none] })) ∧
    ((evt.notify = false ∨ evt.ll_failure_emm_proc = none ∨
        ∃ a o, evt.ll_failure_emm_proc = some a ∧ s.procs a = some o ∧ o.failure_notif = none) →
      EmmRegistered s evt = .ok (RETURNerror, s)) := by
  have hctx : evt.ctx = true := ctx_of_state s evt.ctx _ hst (by decide)
  have hbody : EmmRegistered s evt
      = registered_ll_notify s evt evt.ll_failure_emm_proc RETURNerror := by
    rcases hprim with h | h <;> simp [EmmRegistered, hst, h]
  rw [hbody]
  constructor
  · intro a o cb hn ha ho hcb
    simp [registered_ll_notify, hctx, hn, ha, deref, ho, hcb, call_callback, bind, Except.bind]
  · rintro (hn | hp | ⟨a, o, ha, ho, hcb⟩)
    · simp [registered_ll_notify, hn, pure, Except.pure]
    · simp [registered_ll_notify, hp, pure, Except.pure]
    · simp [registered_ll_notify, ha, deref, ho, hcb, bind, Except.bind, pure, Except.pure]

/-- Witness of C30: a lower-layer failure with notify set for the TAU procedure of
a registered device, whose failure notification is `other_fn 2`. -/
theorem C30_registered_ll_failure_witness :
    EmmRegistered (tau_state RETURNok)
        { primitive := ._EMMREG_LOWERLAYER_FAILURE, notify := true, ll_failure_emm_proc := some 1 }
      = .ok ((tau_state RETURNok).callback_rc (.other_fn 2),
        { tau_state RETURNok with
          trace := (tau_state RETURNok).trace ++
            [Action.callback .failure_notif (.other_fn 2) none] }) :=
  (C30_registered_ll_failure (tau_state RETURNok)
    { primitive := ._EMMREG_LOWERLAYER_FAILURE, notify := true, ll_failure_emm_proc := some 1 }
    rfl (Or.inl rfl)).1 1 _ (.other_fn 2) rfl rfl rfl rfl

/-- C21 (amended): with an absent procedure reference, on a device whose stored
FSM state is the one of the handler, the common-procedure abort and confirm
branches of `EmmCommonProcedureInitiated` and the TAU confirm and reject
branches of `EmmRegistered` return RETURNerror with the state they were given
(nothing is dereferenced, no callback is called, FSM state and registry are
unchanged); the attach-reject branch of `EmmCommonProcedureInitiated` does not
dereference the reference and calls no callback either, but it sets the FSM
state to `EMM_DEREGISTERED` and returns RETURNok, the result of the state set;
the registry and the heap are unchanged. -/
theorem C21_absent_procedure_reference (s : State) (evt : emm_reg_t) :
    (emm_fsm_get_state s evt.ctx = .EMM_COMMON_PROCEDURE_INITIATED →
      evt.common_proc = none →
      (evt.primitive = ._EMMREG_COMMON_PROC_ABORT ∨ evt.primitive = ._EMMREG_COMMON_PROC_CNF) →
      EmmCommonProcedureInitiated s evt = .ok (RETURNerror, s)) ∧
    (emm_fsm_get_state s evt.ctx = .EMM_REGISTERED →
      evt.tau_proc = none →
      (evt.primitive = ._EMMREG_TAU_CNF ∨ evt.primitive = ._EMMREG_TAU_REJ) →
      EmmRegistered s evt = .ok (RETURNerror, s)) ∧
    (emm_fsm_get_state s evt.ctx = .EMM_COMMON_PROCEDURE_INITIATED →
      evt.attach_proc = none →
      evt.primitive = ._EMMREG_ATTACH_REJ →
      EmmCommonProcedureInitiated s evt = .ok (RETURNok,
        { s with emm_context := { s.emm_context with _emm_fsm_state := .EMM_DEREGISTERED },
                 trace := s.trace ++ [Action.emm_fsm_set_state evt.ue_id .EMM_DEREGISTERED] })) := by
  refine ⟨?_, ?_, ?_⟩
  · intro hst hp hprim
    rcases hprim with h | h
    · simp [EmmCommonProcedureInitiated, hst, h, common_proc_abort, hp]
    · simp [EmmCommonProcedureInitiated, hst, h, common_proc_cnf, hp]
  · intro hst hp hprim
    rcases hprim with h | h <;> simp [EmmRegistered, hst, h, hp]
  · intro hst hp hprim
    have hctx : evt.ctx = true := ctx_of_state s evt.ctx _ hst (by decide)
    rw [hctx] at hst
    simp [EmmCommonProcedureInitiated, hst, hprim, hp, hctx, emm_fsm_set_state, nas_free_procedure,
      bind, Except.bind, pure, Except.pure]

/-- Witness of C21 (amended): a common-procedure abort, a TAU reject and an attach
reject, each without procedure reference. -/
theorem C21_absent_procedure_reference_witness :
    EmmCommonProcedureInitiated (common_proc_state auth_proc_obj)
        { primitive := ._EMMREG_COMMON_PROC_ABORT, notify := true }
      = .ok (RETURNerror, common_proc_state auth_proc_obj) ∧
    EmmRegistered (tau_state RETURNok) { primitive := ._EMMREG_TAU_REJ, notify := true }
      = .ok (RETURNerror, tau_state RETURNok) ∧
    EmmCommonProcedureInitiated (common_proc_state auth_proc_obj)
        { primitive := ._EMMREG_ATTACH_REJ, notify := true }
      = .ok (RETURNok,
        { common_proc_state auth_proc_obj with
          emm_context := { (common_proc_state auth_proc_obj).emm_context with
            _emm_fsm_state := .EMM_DEREGISTERED },
          trace := (common_proc_state auth_proc_obj).trace ++
            [Action.emm_fsm_set_state 0 .EMM_DEREGISTERED] }) :=
  ⟨(C21_absent_procedure_reference (common_proc_state auth_proc_obj)
      { primitive := ._EMMREG_COMMON_PROC_ABORT, notify := true }).1 rfl rfl (Or.inl rfl),
   (C21_absent_procedure_reference (tau_state RETURNok)
      { primitive := ._EMMREG_TAU_REJ, notify := true }).2.1 rfl rfl (Or.inr rfl),
   (C21_absent_procedure_reference (common_proc_state auth_proc_obj)
      { primitive := ._EMMREG_ATTACH_REJ, notify := true }).2.2 rfl rfl rfl⟩

/-- C21 (counterexample): an attach reject without procedure reference in
`EmmCommonProcedureInitiated` does not return RETURNerror and does not leave the
FSM state as it was: the result is RETURNok and the state afterwards is
`EMM_DEREGISTERED`, where it was `EMM_COMMON_PROCEDURE_INITIATED`. -/
theorem C21_counterexample_attach_rej :
    (common_proc_state auth_proc_obj).emm_context._emm_fsm_state
      = .EMM_COMMON_PROCEDURE_INITIATED ∧
    (∃ s', EmmCommonProcedureInitiated (common_proc_state auth_proc_obj)
        { primitive := ._EMMREG_ATTACH_REJ, attach_proc := none } = .ok (RETURNok, s') ∧
      s'.emm_context._emm_fsm_state = .EMM_DEREGISTERED) ∧
    EmmCommonProcedureInitiated (common_proc_state auth_proc_obj)
        { primitive := ._EMMREG_ATTACH_REJ, attach_proc := none }
      ≠ .ok (RETURNerror, common_proc_state auth_proc_obj) := by
  refine ⟨rfl, ⟨_, rfl, rfl⟩, ?_⟩
  intro h
  have h1 : EmmCommonProcedureInitiated (common_proc_state auth_proc_obj)
      { primitive := ._EMMREG_ATTACH_REJ, attach_proc := none }
      = .ok (RETURNok,
        { common_proc_state auth_proc_obj with
          emm_context := { (common_proc_state auth_proc_obj).emm_context with
            _emm_fsm_state := .EMM_DEREGISTERED },
          trace := (common_proc_state auth_proc_obj).trace ++
            [Action.emm_fsm_set_state 0 .EMM_DEREGISTERED] }) := rfl
  rw [h1] at h
  have h2 := congrArg (fun r => match r with
    | Except.ok (rc, _) => rc
    | Except.error _ => 0) h
  simp [RETURNok, RETURNerror] at h2

/-- The common-procedure reject branch of `EmmCommonProcedureInitiated` has no
test of the procedure reference: with notify set and no procedure the run
stops at the read of the failure notification through the NULL reference,
after the FSM state has been set. -/
theorem common_proc_rej_null_reference (s : State) (evt : emm_reg_t)
    (hst : emm_fsm_get_state s evt.ctx = .EMM_COMMON_PROCEDURE_INITIATED)
    (hprim : evt.primitive = ._EMMREG_COMMON_PROC_REJ)
    (hn : evt.notify = true) (hp : evt.common_proc = none) :
    EmmCommonProcedureInitiated s evt = .error .null_dereference := by
  have hctx : evt.ctx = true := ctx_of_state s evt.ctx _ hst (by decide)
  rw [hctx] at hst
  simp [EmmCommonProcedureInitiated, hst, hprim, common_proc_rej, hctx, hn, hp, emm_fsm_set_state,
    deref, bind, Except.bind, RETURNok, RETURNerror]

/-- C22: when the lookup of the device finds no context (in
`emm_proc_service_reject` the lookup by eNB identifier, made with
`enb_ue_s1ap_id` if `ue_id` is the invalid identifier and with `ue_id`
otherwise; in `emm_proc_tracking_area_update_reject` the lookup by MME
identifier), the function returns RETURNerror and the state is exactly as
before: nothing is sent (the trace is unchanged) and no procedure is created
or modified. -/
theorem C22_reject_without_context (env : collaborators_t) (s : State)
    (ue_id enb_ue_s1ap_id : Nat) (emm_cause : emm_cause_t) :
    (ue_id = INVALID_MME_UE_S1AP_ID →
      env.mme_ue_context_exists_enb_ue_s1ap_id enb_ue_s1ap_id = false →
      emm_proc_service_reject env s ue_id enb_ue_s1ap_id emm_cause = .ok (RETURNerror, s)) ∧
    (ue_id ≠ INVALID_MME_UE_S1AP_ID →
      env.mme_ue_context_exists_enb_ue_s1ap_id ue_id = false →
      emm_proc_service_reject env s ue_id enb_ue_s1ap_id emm_cause = .ok (RETURNerror, s)) ∧
    (env.mme_ue_context_exists_mme_ue_s1ap_id ue_id = false →
      emm_proc_tracking_area_update_reject env s ue_id emm_cause = .ok (RETURNerror, s)) := by
  refine ⟨?_, ?_, ?_⟩
  · intro h1 h2
    simp [emm_proc_service_reject, h1, h2]
  · intro h1 h2
    simp [emm_proc_service_reject, h1, h2]
  · intro h
    simp [emm_proc_tracking_area_update_reject, h]

/-- Witness of C22: no identifier finds a device; the service reject is tried
with the invalid and with a valid identifier. -/
theorem C22_reject_without_context_witness :
    emm_proc_service_reject env_not_found (service_request_state 9) INVALID_MME_UE_S1AP_ID 4 9
      = .ok (RETURNerror, service_request_state 9) ∧
    emm_proc_service_reject env_not_found (service_request_state 9) 3 4 9
      = .ok (RETURNerror, service_request_state 9) ∧
    emm_proc_tracking_area_update_reject env_not_found (tau_state RETURNok) 3 9
      = .ok (RETURNerror, tau_state RETURNok) :=
  ⟨(C22_reject_without_context env_not_found (service_request_state 9)
      INVALID_MME_UE_S1AP_ID 4 9).1 rfl rfl,
   (C22_reject_without_context env_not_found (service_request_state 9) 3 4 9).2.1
      (by decide) rfl,
   (C22_reject_without_context env_not_found (tau_state RETURNok) 3 9 9).2.2 rfl⟩

/-- The statements after the lookup of `emm_proc_service_reject` write through the
outer variable `sr_proc`, which is NULL: the run stops there. -/
theorem service_reject_fill_null (env : collaborators_t) (s : State) (ue_id : Nat) :
    service_reject_fill_and_send env s ue_id none = .error .null_dereference := rfl

/-- Whenever the lookup of `emm_proc_service_reject` finds the device, the call
does not return: it stops at a fault, at the latest at the first write through
the outer `sr_proc`. -/
theorem service_reject_never_returns (env : collaborators_t) (s : State)
    (ue_id enb_ue_s1ap_id : Nat) (emm_cause : emm_cause_t)
    (hfound : env.mme_ue_context_exists_enb_ue_s1ap_id
      (if ue_id = INVALID_MME_UE_S1AP_ID then enb_ue_s1ap_id else ue_id) = true) :
    ∃ f, emm_proc_service_reject env s ue_id enb_ue_s1ap_id emm_cause = .error f := by
  by_cases h : ue_id = INVALID_MME_UE_S1AP_ID
  · rw [if_pos h] at hfound
    simp only [emm_proc_service_reject, h, hfound, if_true, bind, Except.bind]
    split
    · exact ⟨_, rfl⟩
    · exact ⟨_, rfl⟩
  · rw [if_neg h] at hfound
    simp only [emm_proc_service_reject, h, hfound, if_true, if_false, bind, Except.bind]
    split
    · exact ⟨_, rfl⟩
    · exact ⟨_, rfl⟩

/-- C24 (evaluation at the failing inputs): the device is found, the identifier is
valid.  Whether the registry already holds a service-request procedure or is
empty (a new procedure is created in the block of the lookup), the call stops
at the write `sr_proc->ue_id = ue_id` through the outer variable `sr_proc`,
which is NULL: no event is sent and nothing is returned.  With an absent
registry the run already stops in the constructor. -/
theorem C24_service_reject_null_sr_proc :
    emm_proc_service_reject env_found (service_request_state 0) 3 4 9
      = .error .null_dereference ∧
    emm_proc_service_reject env_found (mk_state .EMM_REGISTERED (some {})) 3 4 9
      = .error .null_dereference ∧
    emm_proc_service_reject env_found (mk_state .EMM_REGISTERED none) 3 4 9
      = .error .null_dereference ∧
    (∃ s', service_reject_set_cause (mk_state .EMM_REGISTERED (some {})) 9 = .ok s' ∧
      s'.emm_context.emm_procedures = some { emm_con_mngt_proc := some 100 } ∧
      (∃ o, s'.procs 100 = some o ∧ o.emm_cause = 9)) :=
  ⟨rfl, rfl, rfl, _, rfl, rfl, _, rfl, rfl⟩

/-- C25 (amended): for a present context and an allocated procedure with cause
`c`, `_emm_service_reject` sends exactly one message, the establishment-rejected
primitive with the identifier of the device, the NAS-info discriminator of the
service request, a snapshot of the security context and the cause `c`, or
`EMM_CAUSE_IMPLICITLY_DETACHED` if `c` is `EMM_CAUSE_SUCCESS` (the replacement
is also stored in the procedure); it returns the result of the send; nothing
else changes.  Without context or without procedure it returns RETURNerror with
the state as it was. -/
theorem C25_service_reject_primitive (env : collaborators_t) (s : State) :
    (∀ a o, s.procs a = some o →
      ∃ s', _emm_service_reject env s true (some a)
          = .ok (env.emm_as_send (service_reject_primitive s o.emm_cause), s') ∧
        s'.trace = s.trace ++
          [Action.emm_sap_send (.EMMAS_ESTABLISH_REJ (service_reject_primitive s o.emm_cause))] ∧
        s'.procs a = some { o with emm_cause := (service_reject_primitive s o.emm_cause).emm_cause } ∧
        (∀ x, x ≠ a → s'.procs x = s.procs x) ∧
        s'.emm_context = s.emm_context) ∧
    (∀ p, _emm_service_reject env s false p = .ok (RETURNerror, s)) ∧
    (∀ c, _emm_service_reject env s c none = .ok (RETURNerror, s)) := by
  refine ⟨?_, ?_, ?_⟩
  · intro a o ho
    by_cases hc : o.emm_cause = EMM_CAUSE_SUCCESS
    · refine ⟨{ store s a { o with emm_cause := EMM_CAUSE_IMPLICITLY_DETACHED } with
          trace := s.trace ++ [Action.emm_sap_send
            (.EMMAS_ESTABLISH_REJ (service_reject_primitive s o.emm_cause))] }, ?_, rfl, ?_, ?_, rfl⟩
      · simp [_emm_service_reject, deref, ho, hc, store, emm_sap_send, service_reject_primitive,
          emm_as_set_security_data, bind, Except.bind]
      · simp [store, service_reject_primitive, hc]
      · intro x hx
        simp [store, hx]
    · refine ⟨{ s with trace := s.trace ++ [Action.emm_sap_send
            (.EMMAS_ESTABLISH_REJ (service_reject_primitive s o.emm_cause))] }, ?_, rfl, ?_, ?_, rfl⟩
      · simp [_emm_service_reject, deref, ho, hc, emm_sap_send, service_reject_primitive,
          emm_as_set_security_data, bind, Except.bind]
      · simp [service_reject_primitive, hc, ho]
      · intro x _
        rfl
  · intro p
    cases p <;> simp [_emm_service_reject]
  · intro c
    simp [_emm_service_reject]

/-- Witness of C25 (amended): a service-request procedure with cause 9. -/
theorem C25_service_reject_primitive_witness :
    ∃ s', _emm_service_reject env_found (service_request_state 9) true (some 1)
        = .ok (env_found.emm_as_send (service_reject_primitive (service_request_state 9) 9), s') ∧
      s'.trace = (service_request_state 9).trace ++
        [Action.emm_sap_send
          (.EMMAS_ESTABLISH_REJ (service_reject_primitive (service_request_state 9) 9))] ∧
      s'.procs 1 = some
        { base_type := .NAS_PROC_TYPE_EMM, emm_type := .NAS_EMM_PROC_TYPE_CONN_MNGT,
          con_mngt_type := .EMM_CON_MNGT_PROC_SERVICE_REQUEST,
          emm_cause := (service_reject_primitive (service_request_state 9) 9).emm_cause } ∧
      (∀ x, x ≠ 1 → s'.procs x = (service_request_state 9).procs x) ∧
      s'.emm_context = (service_request_state 9).emm_context :=
  (C25_service_reject_primitive env_found (service_request_state 9)).1 1
    { base_type := .NAS_PROC_TYPE_EMM, emm_type := .NAS_EMM_PROC_TYPE_CONN_MNGT,
      con_mngt_type := .EMM_CON_MNGT_PROC_SERVICE_REQUEST, emm_cause := 9 } rfl

/-- C25 (counterexample): for a service-request procedure whose cause is
`EMM_CAUSE_SUCCESS`, the primitive that `_emm_service_reject` sends does not
carry the cause of the procedure it was called with: it carries
`EMM_CAUSE_IMPLICITLY_DETACHED`. -/
theorem C25_counterexample_cause_success :
    ∃ o rc s' m, (service_request_state EMM_CAUSE_SUCCESS).procs 1 = some o ∧
      o.emm_cause = EMM_CAUSE_SUCCESS ∧
      _emm_service_reject env_found (service_request_state EMM_CAUSE_SUCCESS) true (some 1)
        = .ok (rc, s') ∧
      s'.trace = [Action.emm_sap_send (.EMMAS_ESTABLISH_REJ m)] ∧
      m.emm_cause = EMM_CAUSE_IMPLICITLY_DETACHED ∧ m.emm_cause ≠ o.emm_cause :=
  ⟨_, _, _, _, rfl, rfl, rfl, rfl, rfl, by decide⟩

/-- The state in which the TAU confirm and reject branches of `EmmRegistered`
reach the test of the free flag, and the result so far. -/
theorem tau_cnf_rej_calls (s : State) (evt : emm_reg_t) (a : Addr) (o : nas_proc_t)
    (fo fn : callback_t) (rc : Int)
    (hctx : evt.ctx = true) (hn : evt.notify = true) (ho : s.procs a = some o)
    (hfo : o.fail_out = some fo) (hfn : o.failure_notif = some fn) :
    tau_cnf_rej s evt a rc =
      (if evt.free_proc = true then do
        let s3 ← nas_delete_tau_procedure { s with trace := s.trace ++ tau_callbacks s a fo fn } true
        pure (if s.callback_rc fo ≠ RETURNerror then s.callback_rc fn else s.callback_rc fo, s3)
      else
        .ok (if s.callback_rc fo ≠ RETURNerror then s.callback_rc fn else s.callback_rc fo,
          { s with trace := s.trace ++ tau_callbacks s a fo fn })) := by
  by_cases hrc : s.callback_rc fo = RETURNerror
  · by_cases hf : evt.free_proc = true <;>
      simp [tau_cnf_rej, deref, ho, hctx, hn, hfo, hfn, call_callback, tau_callbacks, hrc, hf, bind,
        Except.bind, pure, Except.pure]
  · by_cases hf : evt.free_proc = true <;>
      simp [tau_cnf_rej, deref, ho, hctx, hn, hfo, hfn, call_callback, tau_callbacks, hrc, hf, bind,
        Except.bind, pure, Except.pure]

/-- The TAU lookup returns NULL on a state whose registry is absent or has an
empty specific field. -/
theorem get_tau_none (s : State)
    (h : ∀ r, s.emm_context.emm_procedures = some r → r.emm_specific_proc = none) :
    get_nas_specific_procedure_tau s true = .ok none := by
  cases hr : s.emm_context.emm_procedures with
  | none => simp [get_nas_specific_procedure_tau, get_nas_specific_procedure, hr]
  | some r => simp [get_nas_specific_procedure_tau, get_nas_specific_procedure, hr, h r hr]

/-- `nas_delete_tau_procedure` on a device whose specific procedure, if there is
one, is allocated and, if it is a TAU procedure, is not the parent of a common
or connection-management procedure of the registry: the call returns, the FSM
state is kept, the TAU lookup returns NULL afterwards; a TAU procedure that the
lookup returned before is freed after the stop of its T3450, and without one
nothing changes. -/
theorem delete_tau_outcome (s : State)
    (hreg : ∀ r b, s.emm_context.emm_procedures = some r → r.emm_specific_proc = some b →
      ∃ ob, s.procs b = some ob ∧
        (ob.spec_type = .EMM_SPEC_PROC_TYPE_TAU → no_child_in_registry s r b = true)) :
    ∃ s', nas_delete_tau_procedure s true = .ok s' ∧
      s'.emm_context._emm_fsm_state = s.emm_context._emm_fsm_state ∧
      s'.trace = s.trace ++ tau_deletion_calls s ∧
      get_nas_specific_procedure_tau s' true = .ok none ∧
      (∀ b, get_nas_specific_procedure_tau s true = .ok (some b) → s'.procs b = none) ∧
      (get_nas_specific_procedure_tau s true = .ok none → s' = s) := by
  have hkeep : get_nas_specific_procedure_tau s true = .ok none →
      ∃ s', nas_delete_tau_procedure s true = .ok s' ∧
        s'.emm_context._emm_fsm_state = s.emm_context._emm_fsm_state ∧
        s'.trace = s.trace ++ tau_deletion_calls s ∧
        get_nas_specific_procedure_tau s' true = .ok none ∧
        (∀ b, get_nas_specific_procedure_tau s true = .ok (some b) → s'.procs b = none) ∧
        (get_nas_specific_procedure_tau s true = .ok none → s' = s) := by
    intro hg
    refine ⟨s, ?_, rfl, ?_, hg, ?_, fun _ => rfl⟩
    · simp [nas_delete_tau_procedure, hg, bind, Except.bind, pure, Except.pure]
    · simp [tau_deletion_calls, hg]
    · intro b hb
      rw [hg] at hb
      cases hb
  cases hr : s.emm_context.emm_procedures with
  | none =>
    exact hkeep (get_tau_none s (fun r h => by rw [hr] at h; cases h))
  | some r =>
    cases ha : r.emm_specific_proc with
    | none =>
      refine hkeep (get_tau_none s (fun r' h => ?_))
      rw [hr] at h
      cases h
      exact ha
    | some a =>
      obtain ⟨o, ho, hn⟩ := hreg r a hr ha
      have hg := get_specific_eq s r a o .EMM_SPEC_PROC_TYPE_TAU hr ha ho
      by_cases hk : o.spec_type = .EMM_SPEC_PROC_TYPE_TAU
      · obtain ⟨s', h1, h2, h3, s'', hs'', hfree, _, h5⟩ :=
          delete_t3450_without_children s r a o hr ha ho (hn hk)
        cases hs''
        simp only [hk, if_true] at hg
        have hg' : get_nas_specific_procedure_tau s true = .ok (some a) := hg
        refine ⟨s', ?_, h2, ?_, get_tau_none s' (fun r' h => (h5 r' h).1), ?_, ?_⟩
        · simpa [nas_delete_tau_procedure, hg', bind, Except.bind] using h1
        · rw [h3]
          simp [tau_deletion_calls, hg', ho]
        · intro b hb
          rw [hg'] at hb
          cases hb
          exact hfree
        · intro hb
          rw [hg'] at hb
          cases hb
      · have hk' : ¬ (emm_specific_proc_type_t.EMM_SPEC_PROC_TYPE_TAU = o.spec_type) :=
          fun h => hk h.symm
        simp only [hk', if_false] at hg
        exact hkeep hg

/-- The TAU confirm and reject branches of `EmmRegistered` from the callbacks on,
for an event procedure with both callbacks set; with the free flag set, the
specific procedure of the registry, if there is one, is allocated and, if it is
a TAU procedure, has no children. -/
theorem tau_cnf_rej_result (s : State) (evt : emm_reg_t) (a : Addr) (o : nas_proc_t)
    (fo fn : callback_t) (rc : Int)
    (hctx : evt.ctx = true) (hn : evt.notify = true) (ho : s.procs a = some o)
    (hfo : o.fail_out = some fo) (hfn : o.failure_notif = some fn)
    (hreg : evt.free_proc = true →
      ∀ r b, s.emm_context.emm_procedures = some r → r.emm_specific_proc = some b →
        ∃ ob, s.procs b = some ob ∧
          (ob.spec_type = .EMM_SPEC_PROC_TYPE_TAU → no_child_in_registry s r b = true)) :
    ∃ s', tau_cnf_rej s evt a rc
        = .ok (if s.callback_rc fo ≠ RETURNerror then s.callback_rc fn else s.callback_rc fo, s') ∧
      s'.emm_context._emm_fsm_state = s.emm_context._emm_fsm_state ∧
      s'.trace = s.trace ++ tau_callbacks s a fo fn ++
        (if evt.free_proc = true then tau_deletion_calls s else []) ∧
      (evt.free_proc = true →
        get_nas_specific_procedure_tau s' true = .ok none ∧
        ∀ b, get_nas_specific_procedure_tau s true = .ok (some b) → s'.procs b = none) ∧
      (evt.free_proc = false →
        s'.procs = s.procs ∧ s'.emm_context.emm_procedures = s.emm_context.emm_procedures) := by
  rw [tau_cnf_rej_calls s evt a o fo fn rc hctx hn ho hfo hfn]
  obtain ⟨s2, hs2⟩ : ∃ s2 : State, s2 = { s with trace := s.trace ++ tau_callbacks s a fo fn } :=
    ⟨_, rfl⟩
  by_cases hf : evt.free_proc = true
  · have hreg2 : ∀ r b, s2.emm_context.emm_procedures = some r → r.emm_specific_proc = some b →
        ∃ ob, s2.procs b = some ob ∧
          (ob.spec_type = .EMM_SPEC_PROC_TYPE_TAU → no_child_in_registry s2 r b = true) := by
      rw [hs2]
      exact hreg hf
    have hget : get_nas_specific_procedure_tau s2 true = get_nas_specific_procedure_tau s true := by
      rw [hs2]
      rfl
    have hcalls : tau_deletion_calls s2 = tau_deletion_calls s := by
      rw [hs2]
      rfl
    obtain ⟨s', hdel, h2, h3, h4, h5, _⟩ := delete_tau_outcome s2 hreg2
    refine ⟨s', ?_, ?_, ?_, ?_, ?_⟩
    · rw [← hs2]
      simp [hf, hdel, bind, Except.bind, pure, Except.pure]
    · rw [h2, hs2]
    · rw [h3, hcalls, hs2]
      simp [hf]
    · intro _
      refine ⟨h4, fun b hb => h5 b ?_⟩
      rw [hget]
      exact hb
    · intro hff
      rw [hf] at hff
      cases hff
  · refine ⟨s2, ?_, ?_, ?_, ?_, ?_⟩
    · rw [← hs2]
      simp [hf]
    · rw [hs2]
    · rw [hs2]
      simp [hf]
    · intro hff
      exact absurd hff hf
    · intro _
      rw [hs2]
      exact ⟨rfl, rfl⟩

/-- C29 (amended): in `EmmRegistered`, for a TAU confirm or TAU reject event with
notify set on a registered device, carrying an allocated procedure with
nested-failure callback `fo` and failure notification `fn`, where the free flag
is clear or the specific procedure of the registry, if there is one, is
allocated and, if it is a TAU procedure, is not the parent of a common or
connection-management procedure of the registry: the handler returns; TAU
reject first sets the FSM state to `EMM_DEREGISTERED`, TAU confirm sets no
state; then `fo` is called once with the procedure, and `fn` is called once
after it unless `fo` returned RETURNerror, in which case `fn` is not called; the
result is the one of the last callback called.  With the free flag set the TAU
procedure of the device is deleted: its T3450 is stopped, it is freed and the
TAU lookup returns NULL.  With the free flag clear no procedure is freed and
the registry is as before, so the TAU lookup returns what it returned
before. -/
theorem C29_tau_cnf_rej (s : State) (evt : emm_reg_t) (a : Addr) (o : nas_proc_t)
    (fo fn : callback_t)
    (hst : emm_fsm_get_state s evt.ctx = .EMM_REGISTERED)
    (hprim : evt.primitive = ._EMMREG_TAU_CNF ∨ evt.primitive = ._EMMREG_TAU_REJ)
    (hn : evt.notify = true) (hp : evt.tau_proc = some a) (ho : s.procs a = some o)
    (hfo : o.fail_out = some fo) (hfn : o.failure_notif = some fn)
    (hreg : evt.free_proc = true →
      ∀ r b, s.emm_context.emm_procedures = some r → r.emm_specific_proc = some b →
        ∃ ob, s.procs b = some ob ∧
          (ob.spec_type = .EMM_SPEC_PROC_TYPE_TAU → no_child_in_registry s r b = true)) :
    ∃ s', EmmRegistered s evt
        = .ok (if s.callback_rc fo ≠ RETURNerror then s.callback_rc fn else s.callback_rc fo, s') ∧
      s'.emm_context._emm_fsm_state =
        (if evt.primitive = ._EMMREG_TAU_REJ then .EMM_DEREGISTERED else .EMM_REGISTERED) ∧
      s'.trace = s.trace ++
        (if evt.primitive = ._EMMREG_TAU_REJ then
          [Action.emm_fsm_set_state evt.ue_id .EMM_DEREGISTERED] else []) ++
        tau_callbacks s a fo fn ++
        (if evt.free_proc = true then tau_deletion_calls s else []) ∧
      (evt.free_proc = true →
        get_nas_specific_procedure_tau s' true = .ok none ∧
        ∀ b, get_nas_specific_procedure_tau s true = .ok (some b) → s'.procs b = none) ∧
      (evt.free_proc = false →
        s'.procs = s.procs ∧ s'.emm_context.emm_procedures = s.emm_context.emm_procedures ∧
        get_nas_specific_procedure_tau s' true = get_nas_specific_procedure_tau s true) := by
  have hctx : evt.ctx = true := ctx_of_state s evt.ctx _ hst (by decide)
  have hst' : emm_fsm_get_state s true = .EMM_REGISTERED := by
    rw [hctx] at hst
    exact hst
  have hstate : s.emm_context._emm_fsm_state = .EMM_REGISTERED := by
    simpa [emm_fsm_get_state] using hst'
  have hlookup : ∀ s' : State, s'.procs = s.procs →
      s'.emm_context.emm_procedures = s.emm_context.emm_procedures →
      get_nas_specific_procedure_tau s' true = get_nas_specific_procedure_tau s true := by
    intro s' h1 h2
    simp only [get_nas_specific_procedure_tau, get_nas_specific_procedure, deref, h1, h2]
  rcases hprim with h | h
  · obtain ⟨s', h1, h2, h3, h4, h5⟩ :=
      tau_cnf_rej_result s evt a o fo fn RETURNerror hctx hn ho hfo hfn hreg
    refine ⟨s', ?_, ?_, ?_, h4, fun hf => ⟨(h5 hf).1, (h5 hf).2, hlookup s' (h5 hf).1 (h5 hf).2⟩⟩
    · simp only [EmmRegistered, hst, h, hp]
      simpa using h1
    · rw [h2, hstate]
      simp [h]
    · rw [h3]
      simp [h]
  · obtain ⟨s', h1, h2, h3, h4, h5⟩ :=
      tau_cnf_rej_result
        { s with emm_context := { s.emm_context with _emm_fsm_state := .EMM_DEREGISTERED },
                 trace := s.trace ++ [Action.emm_fsm_set_state evt.ue_id .EMM_DEREGISTERED] }
        evt a o fo fn RETURNok hctx hn ho hfo hfn hreg
    refine ⟨s', ?_, ?_, ?_, h4, fun hf => ⟨(h5 hf).1, (h5 hf).2, hlookup s' (h5 hf).1 (h5 hf).2⟩⟩
    · simp only [EmmRegistered, hst, h, hp, emm_fsm_set_state, hctx]
      simpa [hst'] using h1
    · rw [h2]
      simp [h]
    · rw [h3]
      have hc : tau_deletion_calls
          { s with emm_context := { s.emm_context with _emm_fsm_state := .EMM_DEREGISTERED },
                   trace := s.trace ++ [Action.emm_fsm_set_state evt.ue_id .EMM_DEREGISTERED] }
          = tau_deletion_calls s := rfl
      rw [hc]
      simp [h, tau_callbacks]

/-- Witness of C29 (amended): a TAU reject with notify and the free flag set for
the TAU procedure of a registered device, which has no children; both callbacks
report success. -/
theorem C29_tau_cnf_rej_witness :
    ∃ s', EmmRegistered (tau_state RETURNok)
        { primitive := ._EMMREG_TAU_REJ, notify := true, free_proc := true, tau_proc := some 1 }
        = .ok (RETURNok, s') ∧
      s'.emm_context._emm_fsm_state = .EMM_DEREGISTERED ∧
      s'.trace = [Action.emm_fsm_set_state 0 .EMM_DEREGISTERED,
        Action.callback .fail_out (.other_fn 3) (some 1),
        Action.callback .failure_notif (.other_fn 2) none,
        Action.nas_stop_T3450 1 {}] ∧
      s'.procs 1 = none ∧ get_nas_specific_procedure_tau s' true = .ok none := by
  obtain ⟨s', h1, h2, h3, h4, _⟩ := C29_tau_cnf_rej (tau_state RETURNok)
    { primitive := ._EMMREG_TAU_REJ, notify := true, free_proc := true, tau_proc := some 1 } 1
    { base_type := .NAS_PROC_TYPE_EMM, emm_type := .NAS_EMM_PROC_TYPE_SPECIFIC,
      spec_type := .EMM_SPEC_PROC_TYPE_TAU, fail_out := some (.other_fn 3),
      failure_notif := some (.other_fn 2) }
    (.other_fn 3) (.other_fn 2)
    rfl (Or.inr rfl) rfl rfl rfl rfl rfl
    (fun _ r b hr hb => by
      have hr' : r = { emm_specific_proc := some 1 } := (Option.some.inj hr).symm
      subst hr'
      have hb' : b = 1 := (Option.some.inj hb).symm
      subst hb'
      exact ⟨_, rfl, fun _ => rfl⟩)
  exact ⟨s', h1, h2, h3, (h4 rfl).2 1 rfl, (h4 rfl).1⟩

/-- C29 (counterexample): the nested-failure callback of the TAU procedure returns
RETURNerror.  For a TAU confirm with notify set and both callbacks set, the
handler calls the nested-failure callback and nothing else: the failure
notification is not called. -/
theorem C29_counterexample_fail_out_error :
    (tau_state RETURNerror).callback_rc (.other_fn 3) = RETURNerror ∧
    ∃ s', EmmRegistered (tau_state RETURNerror)
        { primitive := ._EMMREG_TAU_CNF, notify := true, tau_proc := some 1 }
        = .ok (RETURNerror, s') ∧
      s'.trace = [Action.callback .fail_out (.other_fn 3) (some 1)] ∧
      Action.callback .failure_notif (.other_fn 2) none ∉ s'.trace :=
  ⟨rfl, _, rfl, rfl, by decide⟩

/-- The common-procedure abort branch after the unlink step, as one expression:
the calls are recorded, the FSM state is the saved previous state, and the
procedure is handed to `nas_free_procedure`. -/
theorem common_proc_abort_eq (s s1 : State) (evt : emm_reg_t) (a : Addr) (o : nas_proc_t)
    (rc1 : Int) (p' c' : Ptr)
    (hctx : evt.ctx = true) (hproc : evt.common_proc = some a) (ho : s.procs a = some o)
    (hstep : unlink_from_parent s a o = .ok (rc1, s1))
    (ho1 : s1.procs a = some { o with parent := p', child := c' }) :
    common_proc_abort s evt = (do
      let (s5, _) ← nas_free_procedure
        { s1 with
          emm_context := { s1.emm_context with _emm_fsm_state := o.previous_emm_fsm_state },
          trace := s1.trace ++ common_proc_abort_calls evt o } true (some a)
      pure (RETURNok, s5)) := by
  cases hab : o.abort with
  | none =>
    by_cases hn : evt.notify = true
    · cases hfn : o.failure_notif with
      | none =>
        simp [common_proc_abort, hproc, deref, ho, hstep, ho1, hab, hctx, hn, hfn,
          emm_fsm_set_state, common_proc_abort_calls, bind, Except.bind, pure, Except.pure]
      | some fn =>
        simp [common_proc_abort, hproc, deref, ho, hstep, ho1, hab, hctx, hn, hfn,
          emm_fsm_set_state, common_proc_abort_calls, call_callback, RETURNok, RETURNerror, bind,
          Except.bind, pure, Except.pure]
    · simp [common_proc_abort, hproc, deref, ho, hstep, ho1, hab, hctx, hn,
        emm_fsm_set_state, common_proc_abort_calls, bind, Except.bind, pure, Except.pure]
  | some f =>
    by_cases hn : evt.notify = true
    · cases hfn : o.failure_notif with
      | none =>
        simp [common_proc_abort, hproc, deref, ho, hstep, ho1, hab, hctx, hn, hfn,
          emm_fsm_set_state, common_proc_abort_calls, call_callback, bind, Except.bind, pure,
          Except.pure]
      | some fn =>
        simp [common_proc_abort, hproc, deref, ho, hstep, ho1, hab, hctx, hn, hfn,
          emm_fsm_set_state, common_proc_abort_calls, call_callback, RETURNok, RETURNerror, bind,
          Except.bind, pure, Except.pure]
    · simp [common_proc_abort, hproc, deref, ho, hstep, ho1, hab, hctx, hn,
        emm_fsm_set_state, common_proc_abort_calls, call_callback, bind, Except.bind, pure,
        Except.pure]

/-- The common-procedure abort branch of `EmmCommonProcedureInitiated`, for a
CommonProcAbort event carrying an allocated common procedure `o` at address
`a`, on a device in `EMM_COMMON_PROCEDURE_INITIATED` (its context exists, so
the state set succeeds): the unlink step returns RETURNerror and writes
nothing; the handler returns RETURNok, the result of the state set; the calls
to collaborators are, in this order, the abort callback if it is set, the state
set to the saved previous state, and the failure notification if and only if
notify is set and the callback is set; afterwards the FSM state is the saved
previous state, the procedure is freed and removed from the common list, and
every other procedure, a parent included, is as before. -/
theorem common_proc_abort_run (s : State) (evt : emm_reg_t) (a : Addr) (o : nas_proc_t)
    (hst : emm_fsm_get_state s evt.ctx = .EMM_COMMON_PROCEDURE_INITIATED)
    (hprim : evt.primitive = ._EMMREG_COMMON_PROC_ABORT)
    (hproc : evt.common_proc = some a) (ho : s.procs a = some o)
    (hb : o.base_type = .NAS_PROC_TYPE_EMM) (he : o.emm_type = .NAS_EMM_PROC_TYPE_COMMON) :
    unlink_from_parent s a o = .ok (RETURNerror, s) ∧
    ∃ s', EmmCommonProcedureInitiated s evt = .ok (RETURNok, s') ∧
      s'.emm_context._emm_fsm_state = o.previous_emm_fsm_state ∧
      s'.trace = s.trace ++ common_proc_abort_calls evt o ∧
      s'.procs a = none ∧
      s'.emm_context.emm_procedures =
        (match s.emm_context.emm_procedures with
         | none => none
         | some r => registry_after_delete_common r a) ∧
      (∀ x, x ≠ a → s'.procs x = s.procs x) := by
  have hctx : evt.ctx = true := ctx_of_state s evt.ctx _ hst (by decide)
  have hstep := unlink_from_parent_eq s a o ho
  refine ⟨hstep, ?_⟩
  have ho4 : ({ s with
      emm_context := { s.emm_context with _emm_fsm_state := o.previous_emm_fsm_state },
      trace := s.trace ++ common_proc_abort_calls evt o } : State).procs a
      = some o := ho
  obtain ⟨s5, hdel, hfree, hothers, hst5, htr5, hreg5⟩ := delete_common_ok _ a _ ho4
  rw [← free_procedure_common _ a _ ho4 hb he] at hdel
  refine ⟨s5, ?_, ?_, ?_, hfree, ?_, ?_⟩
  · simp only [EmmCommonProcedureInitiated, hst, hprim]
    rw [common_proc_abort_eq s s evt a o RETURNerror o.parent o.child hctx hproc ho hstep ho]
    simp [hdel, bind, Except.bind, pure, Except.pure]
  · rw [hst5]
  · rw [htr5]
  · rw [hreg5]
  · intro x hxa
    rw [hothers x hxa]

/-- C28 (evaluation at the failing input): the device is in
`EMM_COMMON_PROCEDURE_INITIATED`; its attach procedure at address 1 is the
parent of the authentication procedure at address 2, linked on both sides.  On
a CommonProcAbort event for the authentication procedure the unlink step
returns RETURNerror and writes nothing; the handler then calls the abort
callback, sets the state, calls the failure notification, deletes the
procedure and returns RETURNok.  Afterwards the authentication procedure is
freed, and the attach procedure still names it as its child: the former parent
has a child link, to a freed procedure. -/
theorem C28_common_proc_abort_keeps_parent_link :
    unlink_from_parent abort_state 2
        { auth_proc_obj with parent := some 1, abort := some (.other_fn 4) }
      = .ok (RETURNerror, abort_state) ∧
    ∃ s', EmmCommonProcedureInitiated abort_state
        { primitive := ._EMMREG_COMMON_PROC_ABORT, notify := true, common_proc := some 2 }
        = .ok (RETURNok, s') ∧
      s'.emm_context._emm_fsm_state = .EMM_REGISTERED ∧
      s'.trace = [Action.callback .abort (.other_fn 4) none,
        Action.emm_fsm_set_state 0 .EMM_REGISTERED,
        Action.callback .failure_notif (.other_fn 2) none] ∧
      s'.procs 2 = none ∧
      s'.emm_context.emm_procedures = some { emm_specific_proc := some 1 } ∧
      s'.procs 1 = some
        { base_type := .NAS_PROC_TYPE_EMM, emm_type := .NAS_EMM_PROC_TYPE_SPECIFIC,
          spec_type := .EMM_SPEC_PROC_TYPE_ATTACH, child := some 2 } ∧
      ¬ (∃ o1, s'.procs 1 = some o1 ∧ o1.child = none) := by
  refine ⟨rfl, _, rfl, rfl, rfl, rfl, rfl, rfl, ?_⟩
  rintro ⟨o1, h1, h2⟩
  have h3 := h1.symm.trans (rfl : _ = some
    ({ base_type := .NAS_PROC_TYPE_EMM, emm_type := .NAS_EMM_PROC_TYPE_SPECIFIC,
       spec_type := .EMM_SPEC_PROC_TYPE_ATTACH, child := some 2 } : nas_proc_t))
  cases h3
  cases h2

/-! ### Calls recorded by a run

The lemmas below follow the trace through the registry functions and the
branches of the two handlers: the deletions add at most the stop of T3450, the
state set and the callbacks add one call each, and with notify not set no
branch adds a call through the success or the failure-notification slot. -/

theorem no_notification_refl (s : State) : no_notification s s :=
  ⟨[], by simp, by simp⟩

theorem no_notification_of_eq (s s' : State) (h : s'.trace = s.trace) : no_notification s s' :=
  ⟨[], by simp [h], by simp⟩

theorem no_notification_trans (s s1 s2 : State) (h1 : no_notification s s1)
    (h2 : no_notification s1 s2) : no_notification s s2 := by
  obtain ⟨l1, e1, q1⟩ := h1
  obtain ⟨l2, e2, q2⟩ := h2
  refine ⟨l1 ++ l2, by rw [e2, e1, List.append_assoc], ?_⟩
  intro act hact
  rcases List.mem_append.mp hact with h | h
  · exact q1 act h
  · exact q2 act h

theorem free_wrapper_trace (s s' : State) (p : Ptr) (h : free_wrapper s p = .ok s') :
    s'.trace = s.trace := by
  cases p with
  | none =>
    simp [free_wrapper] at h
    rw [← h]
  | some a =>
    cases ho : s.procs a with
    | none => simp [free_wrapper, ho] at h
    | some o =>
      simp [free_wrapper, ho] at h
      rw [← h]

theorem gc_trace (s s' : State) (h : nas_emm_procedure_gc s = .ok s') : s'.trace = s.trace := by
  unfold nas_emm_procedure_gc at h
  split at h
  · cases h
  · split at h <;>
    · cases h
      rfl

theorem delete_common_trace (s s' : State) (c : Bool) (p p' : Ptr)
    (h : nas_delete_common_procedure s c p = .ok (s', p')) : s'.trace = s.trace := by
  cases p with
  | none =>
    simp [nas_delete_common_procedure] at h
    rw [← h.1]
  | some a =>
    cases ho : s.procs a with
    | none => simp [nas_delete_common_procedure, deref, ho, bind, Except.bind] at h
    | some o =>
      cases c with
      | false =>
        simp [nas_delete_common_procedure, deref, ho, bind, Except.bind, throw, throwThe,
          MonadExceptOf.throw] at h
      | true =>
        obtain ⟨s1, hs1, htr1⟩ : ∃ s1,
            (if o.comm_type = .EMM_COMM_PROC_AUTH ∧ o.unchecked_imsi = true then
              store s a { o with unchecked_imsi := false } else s) = s1 ∧ s1.trace = s.trace := by
          by_cases hc : o.comm_type = .EMM_COMM_PROC_AUTH ∧ o.unchecked_imsi = true
          · exact ⟨_, rfl, by simp [hc, store]⟩
          · exact ⟨_, rfl, by simp [hc]⟩
        simp only [nas_delete_common_procedure, deref, ho, bind, Except.bind, hs1] at h
        simp only [Bool.true_eq_false, if_false, pure, Except.pure] at h
        cases hr : s1.emm_context.emm_procedures with
        | none =>
          simp only [hr] at h
          cases hf : free_wrapper s1 (some a) with
          | error e => simp [hf] at h
          | ok s3 =>
            simp [hf, pure, Except.pure] at h
            rw [← h.1, free_wrapper_trace _ _ _ hf, htr1]
        | some r =>
          simp only [hr] at h
          cases hfd : r.emm_common_procs.find? (fun p1 => p1.proc = some a) with
          | some p1 =>
            simp only [hfd] at h
            cases hf : free_wrapper
                (set_emm_procedures s1
                  (some { r with emm_common_procs := r.emm_common_procs.erase p1 })) p1.proc with
            | error e => simp [hf] at h
            | ok s3 =>
              simp [hf, pure, Except.pure] at h
              rw [← h.1, free_wrapper_trace _ _ _ hf]
              simpa using htr1
          | none =>
            simp only [hfd] at h
            cases hg : nas_emm_procedure_gc s1 with
            | error e => simp [hg] at h
            | ok s2 =>
              simp only [hg] at h
              cases hf : free_wrapper s2 (some a) with
              | error e => simp [hf] at h
              | ok s3 =>
                simp [hf, pure, Except.pure] at h
                rw [← h.1, free_wrapper_trace _ _ _ hf, gc_trace _ _ hg, htr1]

theorem list_remove_common_trace (s s' : State) (p1 : nas_emm_common_procedure_t)
    (h : list_remove_common s p1 = .ok s') : s'.trace = s.trace := by
  unfold list_remove_common at h
  split at h
  · cases h
  · split at h
    · cases h
      rfl
    · cases h

theorem list_remove_cn_trace (s s' : State) (p1 : nas_cn_procedure_t)
    (h : list_remove_cn s p1 = .ok s') : s'.trace = s.trace := by
  unfold list_remove_cn at h
  split at h
  · cases h
  · split at h
    · cases h
      rfl
    · cases h

theorem child_loop_trace (parent_proc : Ptr) (l : List nas_emm_common_procedure_t) :
    ∀ s s', nas_delete_child_procedures_loop parent_proc l s = .ok s' → s'.trace = s.trace := by
  induction l with
  | nil =>
    intro s s' h
    simp [nas_delete_child_procedures_loop] at h
    rw [← h]
  | cons p1 p2 ih =>
    intro s s' h
    rw [nas_delete_child_procedures_loop] at h
    cases hd : deref s p1.proc with
    | error e => simp [hd, bind, Except.bind] at h
    | ok o =>
      simp only [hd, bind, Except.bind] at h
      by_cases hpar : o.parent = parent_proc
      · simp only [hpar, if_true] at h
        cases hdel : nas_delete_common_procedure s true p1.proc with
        | error e => simp [hdel] at h
        | ok res =>
          obtain ⟨s1, p'⟩ := res
          simp only [hdel] at h
          cases hrm : list_remove_common s1 p1 with
          | error e => simp [hrm] at h
          | ok s2 =>
            simp only [hrm] at h
            rw [ih s2 s' h, list_remove_common_trace _ _ _ hrm, delete_common_trace _ _ _ _ _ hdel]
      · simp only [hpar, if_false] at h
        exact ih s s' h

theorem delete_child_trace (s s' : State) (parent_proc : Ptr)
    (h : nas_delete_child_procedures s parent_proc = .ok s') : s'.trace = s.trace := by
  unfold nas_delete_child_procedures at h
  cases hr : s.emm_context.emm_procedures with
  | none =>
    simp only [hr] at h
    cases h
    rfl
  | some r =>
    simp only [hr, bind, Except.bind] at h
    cases hl : nas_delete_child_procedures_loop parent_proc r.emm_common_procs s with
    | error e => simp [hl] at h
    | ok s1 =>
      have htr1 := child_loop_trace parent_proc _ s s1 hl
      simp only [hl] at h
      cases hr1 : s1.emm_context.emm_procedures with
      | none => simp [hr1, throw, throwThe, MonadExceptOf.throw] at h
      | some r1 =>
        simp only [hr1] at h
        cases hc : r1.emm_con_mngt_proc with
        | none =>
          simp [hc, pure, Except.pure] at h
          rw [← h, htr1]
        | some c =>
          simp only [hc] at h
          cases hd : deref s1 (some c) with
          | error e => simp [hd] at h
          | ok o =>
            simp only [hd] at h
            by_cases hpar : o.parent = parent_proc
            · simp [hpar, nas_delete_con_mngt_procedure] at h
            · simp [hpar, pure, Except.pure] at h
              rw [← h, htr1]

theorem free_specific_trace (s s' : State) (h : free_specific_proc s = .ok s') :
    s'.trace = s.trace := by
  unfold free_specific_proc at h
  cases hr : s.emm_context.emm_procedures with
  | none => simp [hr] at h
  | some r =>
    simp only [hr, bind, Except.bind] at h
    cases hf : free_wrapper s r.emm_specific_proc with
    | error e => simp [hf] at h
    | ok s1 =>
      simp only [hf] at h
      rw [gc_trace _ _ h]
      simpa using free_wrapper_trace _ _ _ hf

theorem delete_t3450_no_notification (s s' : State) (a : Addr)
    (h : nas_delete_t3450_procedure s a = .ok s') : no_notification s s' := by
  unfold nas_delete_t3450_procedure at h
  cases hd : deref s (some a) with
  | error e => simp [hd, bind, Except.bind] at h
  | ok o =>
    simp only [hd, bind, Except.bind] at h
    cases hc : nas_delete_child_procedures
        (store { s with trace := s.trace ++ [Action.nas_stop_T3450 s.mme_ue_s1ap_id o.T3450] } a
          { o with ies := false, esm_msg_out := false }) (some a) with
    | error e => simp [hc] at h
    | ok s3 =>
      simp only [hc] at h
      refine ⟨[Action.nas_stop_T3450 s.mme_ue_s1ap_id o.T3450], ?_, ?_⟩
      · rw [free_specific_trace _ _ h, delete_child_trace _ _ _ hc]
        rfl
      · intro act hact
        simp at hact
        subst hact
        rfl

theorem delete_attach_no_notification (s s' : State) (c : Bool)
    (h : nas_delete_attach_procedure s c = .ok s') : no_notification s s' := by
  unfold nas_delete_attach_procedure at h
  cases hg : get_nas_specific_procedure_attach s c with
  | error e => simp [hg, bind, Except.bind] at h
  | ok p =>
    cases p with
    | none =>
      simp [hg, bind, Except.bind, pure, Except.pure] at h
      rw [← h]
      exact no_notification_refl s
    | some a =>
      simp only [hg, bind, Except.bind] at h
      exact delete_t3450_no_notification s s' a h

theorem delete_tau_no_notification (s s' : State) (c : Bool)
    (h : nas_delete_tau_procedure s c = .ok s') : no_notification s s' := by
  unfold nas_delete_tau_procedure at h
  cases hg : get_nas_specific_procedure_tau s c with
  | error e => simp [hg, bind, Except.bind] at h
  | ok p =>
    cases p with
    | none =>
      simp [hg, bind, Except.bind, pure, Except.pure] at h
      rw [← h]
      exact no_notification_refl s
    | some a =>
      simp only [hg, bind, Except.bind] at h
      exact delete_t3450_no_notification s s' a h

theorem delete_detach_trace (s s' : State) (c : Bool)
    (h : nas_delete_detach_procedure s c = .ok s') : s'.trace = s.trace := by
  unfold nas_delete_detach_procedure at h
  cases hg : get_nas_specific_procedure_detach s c with
  | error e => simp [hg, bind, Except.bind] at h
  | ok p =>
    cases p with
    | none =>
      simp [hg, bind, Except.bind, pure, Except.pure] at h
      rw [← h]
    | some a =>
      simp only [hg, bind, Except.bind] at h
      cases hd : deref s (some a) with
      | error e => simp [hd] at h
      | ok o =>
        simp only [hd] at h
        cases hc : nas_delete_child_procedures (store s a { o with ies := false }) (some a) with
        | error e => simp [hc] at h
        | ok s3 =>
          simp only [hc] at h
          rw [free_specific_trace _ _ h, delete_child_trace _ _ _ hc]
          rfl

theorem delete_auth_info_trace (s s' : State) (p p' : Ptr)
    (h : nas_delete_auth_info_procedure s p = .ok (s', p')) : s'.trace = s.trace := by
  cases p with
  | none =>
    simp [nas_delete_auth_info_procedure] at h
    rw [← h.1]
  | some a =>
    unfold nas_delete_auth_info_procedure at h
    cases hd : deref s (some a) with
    | error e => simp [hd, bind, Except.bind] at h
    | ok o =>
      simp only [hd, bind, Except.bind] at h
      cases hp : o.parent with
      | none =>
        simp only [hp, pure, Except.pure] at h
        cases hf : free_wrapper s (some a) with
        | error e => simp [hf] at h
        | ok s2 =>
          simp [hf] at h
          rw [← h.1, free_wrapper_trace _ _ _ hf]
      | some q =>
        simp only [hp] at h
        cases hq : deref s (some q) with
        | error e => simp [hq] at h
        | ok po =>
          simp only [hq, pure, Except.pure] at h
          cases hf : free_wrapper (store s q { po with child := none }) (some a) with
          | error e => simp [hf] at h
          | ok s2 =>
            simp [hf] at h
            rw [← h.1, free_wrapper_trace _ _ _ hf]
            rfl

theorem delete_cn_trace (s s' : State) (c : Bool) (p : Ptr)
    (h : nas_delete_cn_procedure s c p = .ok s') : s'.trace = s.trace := by
  unfold nas_delete_cn_procedure at h
  cases c with
  | false => simp at h
  | true =>
    simp only [Bool.true_eq_false, if_false] at h
    cases hr : s.emm_context.emm_procedures with
    | none =>
      simp [hr] at h
      rw [← h]
    | some r =>
      simp only [hr] at h
      cases hfd : r.cn_procs.find? (fun p1 => p1.proc = p) with
      | none =>
        simp only [hfd] at h
        exact gc_trace _ _ h
      | some p1 =>
        simp only [hfd, bind, Except.bind] at h
        cases hd : deref s p with
        | error e => simp [hd] at h
        | ok o =>
          simp only [hd] at h
          cases hk : o.cn_type with
          | CN_PROC_NONE =>
            simp only [hk] at h
            cases hf : free_wrapper s p with
            | error e => simp [hf] at h
            | ok s1 =>
              simp only [hf] at h
              rw [list_remove_cn_trace _ _ _ h, free_wrapper_trace _ _ _ hf]
          | CN_PROC_AUTH_INFO =>
            simp only [hk] at h
            cases hf : nas_delete_auth_info_procedure s p with
            | error e => simp [hf] at h
            | ok res =>
              obtain ⟨s1, p'⟩ := res
              simp only [hf, pure, Except.pure] at h
              rw [list_remove_cn_trace _ _ _ h, delete_auth_info_trace _ _ _ _ hf]

theorem unlink_trace (s s' : State) (p c : Ptr) (rc : Int)
    (h : nas_unlink_procedures s p c = .ok (rc, s')) : s'.trace = s.trace := by
  cases p with
  | none =>
    cases c <;>
    · simp [nas_unlink_procedures, pure, Except.pure] at h
      rw [← h.2]
  | some q =>
    cases c with
    | none =>
      simp [nas_unlink_procedures, pure, Except.pure] at h
      rw [← h.2]
    | some a =>
      unfold nas_unlink_procedures at h
      cases hq : deref s (some q) with
      | error e => simp [hq, bind, Except.bind] at h
      | ok pp =>
        simp only [hq, bind, Except.bind] at h
        by_cases hl : pp.child = some a
        · simp only [hl, if_true] at h
          cases ha : deref s (some a) with
          | error e => simp [ha] at h
          | ok cc =>
            simp only [ha] at h
            by_cases hcp : cc.parent = some q
            · simp only [hcp, if_true] at h
              cases hq1 : deref (store s a { cc with parent := none }) (some q) with
              | error e => simp [hq1] at h
              | ok pp1 =>
                simp [hq1, pure, Except.pure] at h
                rw [← h.2]
                rfl
            · simp [hcp, pure, Except.pure] at h
              rw [← h.2]
        · simp [hl, pure, Except.pure] at h
          rw [← h.2]

theorem unlink_from_parent_trace (s s' : State) (a : Addr) (o : nas_proc_t) (rc : Int)
    (h : unlink_from_parent s a o = .ok (rc, s')) : s'.trace = s.trace := by
  unfold unlink_from_parent at h
  split at h
  · unfold nas_unlink_procedures_by_address at h
    cases hd : deref s (some a) with
    | error e => simp [hd, bind, Except.bind] at h
    | ok v =>
      simp [hd, bind, Except.bind, pure, Except.pure] at h
      rw [← h.2]
  · simp [pure, Except.pure] at h
    rw [← h.2]

theorem set_state_no_notification (s : State) (ue_id : Nat) (c : Bool) (st : emm_fsm_state_t) :
    no_notification s (emm_fsm_set_state s ue_id c st).2 := by
  cases c with
  | false => exact no_notification_refl s
  | true =>
    refine ⟨[Action.emm_fsm_set_state ue_id st], rfl, ?_⟩
    intro act hact
    simp at hact
    subst hact
    rfl

theorem callback_no_notification (s s' : State) (slot : cb_slot) (f : Option callback_t)
    (p : Ptr) (rc : Int) (h1 : slot ≠ .success_notif) (h2 : slot ≠ .failure_notif)
    (h : call_callback s slot f p = .ok (rc, s')) : no_notification s s' := by
  cases f with
  | none => simp [call_callback] at h
  | some g =>
    simp [call_callback] at h
    refine ⟨[Action.callback slot g p], by rw [← h.2], ?_⟩
    intro act hact
    simp at hact
    subst hact
    cases slot <;> first | rfl | exact absurd rfl h1 | exact absurd rfl h2

theorem free_procedure_no_notification (s s' : State) (c : Bool) (p p' : Ptr)
    (h : nas_free_procedure s c p = .ok (s', p')) : no_notification s s' := by
  cases p with
  | none =>
    simp [nas_free_procedure] at h
    rw [← h.1]
    exact no_notification_refl s
  | some a =>
    unfold nas_free_procedure at h
    cases hd : deref s (some a) with
    | error e => simp [hd, bind, Except.bind] at h
    | ok o =>
      simp only [hd, bind, Except.bind] at h
      cases hb : o.base_type <;> simp only [hb] at h
      · simp [pure, Except.pure] at h
        rw [← h.1]
        exact no_notification_refl s
      · cases he : o.emm_type <;> simp only [he] at h
        · simp [pure, Except.pure] at h
          rw [← h.1]
          exact no_notification_refl s
        · cases hs : o.spec_type <;> simp only [hs] at h
          · simp [pure, Except.pure] at h
            rw [← h.1]
            exact no_notification_refl s
          · cases hx : nas_delete_attach_procedure s c with
            | error e => simp [hx] at h
            | ok s1 =>
              simp [hx, pure, Except.pure] at h
              rw [← h.1]
              exact delete_attach_no_notification _ _ _ hx
          · cases hx : nas_delete_detach_procedure s c with
            | error e => simp [hx] at h
            | ok s1 =>
              simp [hx, pure, Except.pure] at h
              rw [← h.1]
              exact no_notification_of_eq _ _ (delete_detach_trace _ _ _ hx)
          · cases hx : nas_delete_tau_procedure s c with
            | error e => simp [hx] at h
            | ok s1 =>
              simp [hx, pure, Except.pure] at h
              rw [← h.1]
              exact delete_tau_no_notification _ _ _ hx
        · exact no_notification_of_eq _ _ (delete_common_trace _ _ _ _ _ h)
        · simp [nas_delete_con_mngt_procedure] at h
      · simp [pure, Except.pure] at h
        rw [← h.1]
        exact no_notification_refl s
      · cases hx : nas_delete_cn_procedure s c (some a) with
        | error e => simp [hx] at h
        | ok s1 =>
          simp [hx, pure, Except.pure] at h
          rw [← h.1]
          exact no_notification_of_eq _ _ (delete_cn_trace _ _ _ _ hx)

theorem common_proc_abort_quiet (s s' : State) (evt : emm_reg_t) (rc : Int)
    (hn : evt.notify = false) (h : common_proc_abort s evt = .ok (rc, s')) :
    no_notification s s' := by
  unfold common_proc_abort at h
  cases hp : evt.common_proc with
  | none =>
    simp [hp] at h
    rw [← h.2]
    exact no_notification_refl s
  | some a =>
    simp only [hp, bind, Except.bind] at h
    cases hd : deref s (some a) with
    | error e => simp [hd] at h
    | ok o =>
      simp only [hd] at h
      cases hu : unlink_from_parent s a o with
      | error e => simp [hu] at h
      | ok res =>
        obtain ⟨rc1, s1⟩ := res
        have q1 := no_notification_of_eq _ _ (unlink_from_parent_trace _ _ _ _ _ hu)
        simp only [hu] at h
        cases hd1 : deref s1 (some a) with
        | error e => simp [hd1] at h
        | ok o1 =>
          simp only [hd1] at h
          have tail : ∀ s2 : State, no_notification s1 s2 →
              (deref s2 (some a) >>= fun o2 =>
                deref (emm_fsm_set_state s2 evt.ue_id evt.ctx o2.previous_emm_fsm_state).2
                    (some a) >>= fun _ =>
                nas_free_procedure
                    (emm_fsm_set_state s2 evt.ue_id evt.ctx o2.previous_emm_fsm_state).2 evt.ctx
                    (some a) >>= fun v =>
                (Except.ok
                  ((emm_fsm_set_state s2 evt.ue_id evt.ctx o2.previous_emm_fsm_state).1, v.1)
                  : Except Fault (Int × State))) = .ok (rc, s') →
              no_notification s s' := by
            intro s2 q2 h2
            simp only [bind, Except.bind] at h2
            cases hd2 : deref s2 (some a) with
            | error e => simp [hd2] at h2
            | ok o2 =>
              simp only [hd2] at h2
              have q3 := set_state_no_notification s2 evt.ue_id evt.ctx o2.previous_emm_fsm_state
              cases hd3 : deref
                  (emm_fsm_set_state s2 evt.ue_id evt.ctx o2.previous_emm_fsm_state).2 (some a) with
              | error e => simp [hd3] at h2
              | ok o3 =>
                simp only [hd3] at h2
                cases hf : nas_free_procedure
                    (emm_fsm_set_state s2 evt.ue_id evt.ctx o2.previous_emm_fsm_state).2 evt.ctx
                    (some a) with
                | error e => simp [hf] at h2
                | ok res2 =>
                  simp [hf] at h2
                  rw [← h2.2]
                  exact no_notification_trans _ _ _ q1 (no_notification_trans _ _ _ q2
                    (no_notification_trans _ _ _ q3
                      (free_procedure_no_notification _ _ _ _ _ hf)))
          cases hab : o1.abort with
          | none =>
            simp only [hab, hn, pure, Except.pure, Bool.false_eq_true, false_and, and_false,
              if_false] at h
            refine tail s1 (no_notification_refl s1) ?_
            simp only [bind, Except.bind]
            exact h
          | some f =>
            simp only [hab, hn, call_callback, pure, Except.pure, Bool.false_eq_true, false_and,
              and_false, if_false] at h
            refine tail _
              (callback_no_notification s1 _ .abort (some f) none _ (by decide) (by decide) rfl) ?_
            simp only [bind, Except.bind]
            exact h

theorem common_proc_cnf_quiet (s s' : State) (evt : emm_reg_t) (rc : Int)
    (hn : evt.notify = false) (h : common_proc_cnf s evt = .ok (rc, s')) :
    no_notification s s' := by
  unfold common_proc_cnf at h
  cases hp : evt.common_proc with
  | none =>
    simp [hp] at h
    rw [← h.2]
    exact no_notification_refl s
  | some a =>
    simp only [hp, bind, Except.bind] at h
    cases hd : deref s (some a) with
    | error e => simp [hd] at h
    | ok o =>
      simp only [hd] at h
      cases hu : unlink_from_parent s a o with
      | error e => simp [hu] at h
      | ok res =>
        obtain ⟨rc1, s1⟩ := res
        have q1 := no_notification_of_eq _ _ (unlink_from_parent_trace _ _ _ _ _ hu)
        simp only [hu] at h
        cases hd1 : deref s1 (some a) with
        | error e => simp [hd1] at h
        | ok o1 =>
          simp only [hd1, hn, Bool.false_eq_true, false_and, and_false, if_false, pure,
            Except.pure] at h
          have q2 := set_state_no_notification s1 evt.ue_id evt.ctx o1.previous_emm_fsm_state
          cases hf : nas_free_procedure
              (emm_fsm_set_state s1 evt.ue_id evt.ctx o1.previous_emm_fsm_state).2 evt.ctx
              (some a) with
          | error e => simp [hf] at h
          | ok res2 =>
            simp [hf] at h
            rw [← h.2]
            exact no_notification_trans _ _ _ q1 (no_notification_trans _ _ _ q2
              (free_procedure_no_notification _ _ _ _ _ hf))

theorem common_proc_rej_quiet (s s' : State) (evt : emm_reg_t) (rc : Int)
    (hn : evt.notify = false) (h : common_proc_rej s evt = .ok (rc, s')) :
    no_notification s s' := by
  unfold common_proc_rej at h
  have q1 := set_state_no_notification s evt.ue_id evt.ctx .EMM_DEREGISTERED
  simp only [hn, Bool.false_eq_true, false_and, and_false, if_false, pure, Except.pure, bind,
    Except.bind] at h
  by_cases hfp : evt.free_proc = true
  · simp only [hfp, if_true] at h
    cases hf : nas_free_procedure (emm_fsm_set_state s evt.ue_id evt.ctx .EMM_DEREGISTERED).2
        evt.ctx evt.common_proc with
    | error e => simp [hf] at h
    | ok res2 =>
      simp [hf] at h
      rw [← h.2]
      exact no_notification_trans _ _ _ q1 (free_procedure_no_notification _ _ _ _ _ hf)
  · simp [hfp] at h
    rw [h] at q1
    exact q1

theorem common_procedure_initiated_quiet (s s' : State) (evt : emm_reg_t) (rc : Int)
    (hn : evt.notify = false) (h : EmmCommonProcedureInitiated s evt = .ok (rc, s')) :
    no_notification s s' := by
  unfold EmmCommonProcedureInitiated at h
  split at h
  · cases h
  · have hset : ∀ st, no_notification s (emm_fsm_set_state s evt.ue_id evt.ctx st).2 :=
      fun st => set_state_no_notification s evt.ue_id evt.ctx st
    split at h
    · exact common_proc_abort_quiet s s' evt rc hn h
    · cases h
    · exact common_proc_cnf_quiet s s' evt rc hn h
    · exact common_proc_rej_quiet s s' evt rc hn h
    · simp at h
      have q := hset .EMM_REGISTERED
      rw [h] at q
      exact q
    · simp only [bind, Except.bind] at h
      cases hf : nas_free_procedure (emm_fsm_set_state s evt.ue_id evt.ctx .EMM_DEREGISTERED).2
          evt.ctx evt.attach_proc with
      | error e => simp [hf] at h
      | ok res2 =>
        simp [hf, pure, Except.pure] at h
        rw [← h.2]
        exact no_notification_trans _ _ _ (hset _) (free_procedure_no_notification _ _ _ _ _ hf)
    · simp at h
      rw [← h.2]
      exact no_notification_refl s
    · simp [hn, pure, Except.pure, bind, Except.bind] at h
      have q := hset .EMM_DEREGISTERED
      rw [h] at q
      exact q
    · simp [hn, pure, Except.pure, bind, Except.bind] at h
      have q := hset .EMM_DEREGISTERED
      rw [h] at q
      exact q
    · simp [hn, pure, Except.pure, bind, Except.bind, RETURNok, RETURNerror] at h
      have q := hset .EMM_DEREGISTERED
      rw [h] at q
      exact q
    · simp at h
      rw [← h.2]
      exact no_notification_refl s

theorem tau_cnf_rej_quiet (s s' : State) (evt : emm_reg_t) (a : Addr) (rc0 rc : Int)
    (hn : evt.notify = false) (h : tau_cnf_rej s evt a rc0 = .ok (rc, s')) :
    no_notification s s' := by
  unfold tau_cnf_rej at h
  simp only [bind, Except.bind] at h
  cases hd : deref s (some a) with
  | error e => simp [hd] at h
  | ok o =>
    simp only [hd] at h
    have tail : ∀ (s1 : State) (rc1 : Int), no_notification s s1 →
        (deref s1 (some a) >>= fun _ =>
          (if evt.free_proc = true then
            nas_delete_tau_procedure s1 evt.ctx >>= fun s3 => Except.ok (rc1, s3)
           else Except.ok (rc1, s1) : Except Fault (Int × State))) = .ok (rc, s') →
        no_notification s s' := by
      intro s1 rc1 q1 h1
      simp only [bind, Except.bind] at h1
      cases hd1 : deref s1 (some a) with
      | error e => simp [hd1] at h1
      | ok o1 =>
        simp only [hd1] at h1
        by_cases hfp : evt.free_proc = true
        · simp only [hfp, if_true] at h1
          cases hx : nas_delete_tau_procedure s1 evt.ctx with
          | error e => simp [hx] at h1
          | ok s3 =>
            simp [hx] at h1
            rw [← h1.2]
            exact no_notification_trans _ _ _ q1 (delete_tau_no_notification _ _ _ hx)
        · simp [hfp] at h1
          rw [← h1.2]
          exact q1
    by_cases hc : evt.ctx = true ∧ o.fail_out ≠ none
    · obtain ⟨hctx, hfo⟩ := hc
      obtain ⟨fo, hfo'⟩ := Option.ne_none_iff_exists'.mp hfo
      simp only [hctx, hfo', call_callback, hn, Bool.false_eq_true, false_and, and_false,
        if_false, ne_eq, reduceCtorEq, not_false_eq_true, and_self, if_true, pure,
        Except.pure] at h
      refine tail { s with trace := s.trace ++ [Action.callback .fail_out fo (some a)] }
        (s.callback_rc fo) ?_ ?_
      · refine ⟨[Action.callback .fail_out fo (some a)], rfl, ?_⟩
        intro act hact
        simp at hact
        subst hact
        rfl
      · simp only [bind, Except.bind, hctx]
        exact h
    · simp only [hc, if_false, hn, Bool.false_eq_true, false_and, and_false, pure,
        Except.pure] at h
      refine tail s rc0 (no_notification_refl s) ?_
      simp only [bind, Except.bind]
      exact h

theorem registered_ll_notify_quiet (s s' : State) (evt : emm_reg_t) (p : Ptr) (rc0 rc : Int)
    (hn : evt.notify = false) (h : registered_ll_notify s evt p rc0 = .ok (rc, s')) :
    no_notification s s' := by
  simp [registered_ll_notify, hn, pure, Except.pure] at h
  rw [← h.2]
  exact no_notification_refl s

theorem registered_quiet (s s' : State) (evt : emm_reg_t) (rc : Int)
    (hn : evt.notify = false) (h : EmmRegistered s evt = .ok (rc, s')) :
    no_notification s s' := by
  unfold EmmRegistered at h
  split at h
  · cases h
  · have hset : ∀ st, no_notification s (emm_fsm_set_state s evt.ue_id evt.ctx st).2 :=
      fun st => set_state_no_notification s evt.ue_id evt.ctx st
    split at h
    · simp at h
      have q := hset .EMM_COMMON_PROCEDURE_INITIATED
      rw [h] at q
      exact q
    · simp at h
      have q := hset .EMM_REGISTERED
      rw [h] at q
      exact q
    · simp only [bind, Except.bind] at h
      cases hx : nas_delete_attach_procedure
          (emm_fsm_set_state s evt.ue_id evt.ctx .EMM_DEREGISTERED).2 evt.ctx with
      | error e => simp [hx] at h
      | ok s2 =>
        simp [hx, pure, Except.pure] at h
        rw [← h.2]
        exact no_notification_trans _ _ _ (hset _) (delete_attach_no_notification _ _ _ hx)
    · split at h
      · exact tau_cnf_rej_quiet _ _ _ _ _ _ hn h
      · simp at h
        rw [← h.2]
        exact no_notification_refl s
    · split at h
      · exact no_notification_trans _ _ _ (hset .EMM_DEREGISTERED)
          (tau_cnf_rej_quiet _ _ _ _ _ _ hn h)
      · simp at h
        rw [← h.2]
        exact no_notification_refl s
    · simp at h
      rw [← h.2]
      exact no_notification_refl s
    · exact registered_ll_notify_quiet _ _ _ _ _ _ hn h
    · exact registered_ll_notify_quiet _ _ _ _ _ _ hn h
    · exact registered_ll_notify_quiet _ _ _ _ _ _ hn h
    · simp at h
      rw [← h.2]
      exact no_notification_refl s

/-- C23: for an event with notify not set, whatever its primitive, every run of
`EmmCommonProcedureInitiated` and of `EmmRegistered` that returns has only
added to the trace calls that are not calls through the success or the
failure-notification slot of a procedure: neither callback is called in any
branch. -/
theorem C23_notify_false_no_notification (s s' : State) (evt : emm_reg_t) (rc : Int)
    (hn : evt.notify = false) :
    (EmmCommonProcedureInitiated s evt = .ok (rc, s') → no_notification s s') ∧
    (EmmRegistered s evt = .ok (rc, s') → no_notification s s') :=
  ⟨common_procedure_initiated_quiet s s' evt rc hn, registered_quiet s s' evt rc hn⟩

/-- Witness of C23: a common-procedure confirm for a procedure whose success
callback is set and a TAU reject for a procedure whose failure notification is
set, both with notify not set; the handlers return and the calls they make are
the state set and, for the TAU reject, the nested-failure callback. -/
theorem C23_notify_false_no_notification_witness :
    (∃ s', EmmCommonProcedureInitiated (common_proc_state auth_proc_obj)
          { primitive := ._EMMREG_COMMON_PROC_CNF, notify := false, common_proc := some 1 }
          = .ok (RETURNok, s') ∧
        s'.trace = [Action.emm_fsm_set_state 0 .EMM_REGISTERED] ∧
        no_notification (common_proc_state auth_proc_obj) s') ∧
    (∃ s', EmmRegistered (tau_state RETURNok)
          { primitive := ._EMMREG_TAU_REJ, notify := false, tau_proc := some 1 }
          = .ok (RETURNok, s') ∧
        s'.trace = [Action.emm_fsm_set_state 0 .EMM_DEREGISTERED,
          Action.callback .fail_out (.other_fn 3) (some 1)] ∧
        no_notification (tau_state RETURNok) s') :=
  ⟨⟨_, rfl, rfl,
    (C23_notify_false_no_notification (common_proc_state auth_proc_obj) _
      { primitive := ._EMMREG_COMMON_PROC_CNF, notify := false, common_proc := some 1 }
      RETURNok rfl).1 rfl⟩,
   ⟨_, rfl, rfl,
    (C23_notify_false_no_notification (tau_state RETURNok) _
      { primitive := ._EMMREG_TAU_REJ, notify := false, tau_proc := some 1 }
      RETURNok rfl).2 rfl⟩⟩

/-- The running test and the lookup of a kind agree: on a specific pointer that is
NULL or allocated both return, and the test is true exactly when the lookup
finds a procedure. -/
theorem running_iff_get (s : State) (ctxt : Bool) (k : emm_specific_proc_type_t)
    (hvalid : ∀ r, s.emm_context.emm_procedures = some r → valid_ptr s r.emm_specific_proc = true) :
    ∃ b p, is_nas_specific_procedure_running s ctxt k = .ok b ∧
      get_nas_specific_procedure s ctxt k = .ok p ∧
      (b = true ↔ p ≠ none) ∧
      (b = true ↔ ctxt = true ∧ ∃ r a o, s.emm_context.emm_procedures = some r ∧
        r.emm_specific_proc = some a ∧ s.procs a = some o ∧ o.spec_type = k) := by
  cases ctxt with
  | false =>
    exact ⟨false, none, by simp [is_nas_specific_procedure_running],
      by simp [get_nas_specific_procedure], by simp, by simp⟩
  | true =>
    cases hr : s.emm_context.emm_procedures with
    | none =>
      exact ⟨false, none, by simp [is_nas_specific_procedure_running, hr],
        by simp [get_nas_specific_procedure, hr], by simp, by simp⟩
    | some r =>
      cases ha : r.emm_specific_proc with
      | none =>
        exact ⟨false, none, by simp [is_nas_specific_procedure_running, hr, ha],
          by simp [get_nas_specific_procedure, hr, ha], by simp, by simp [ha]⟩
      | some a =>
        obtain ⟨o, ho⟩ : ∃ o, s.procs a = some o := by
          have := hvalid r hr
          rw [ha] at this
          exact Option.isSome_iff_exists.mp this
        by_cases hk : k = o.spec_type
        · refine ⟨true, some a, ?_, ?_, by simp, ?_⟩
          · simp [is_nas_specific_procedure_running, hr, ha, deref, ho, hk, bind, Except.bind, pure,
              Except.pure]
          · simp [get_nas_specific_procedure, hr, ha, deref, ho, hk, bind, Except.bind, pure,
              Except.pure]
          · simp [ha, ho, hk]
        · refine ⟨false, none, ?_, ?_, by simp, ?_⟩
          · simp [is_nas_specific_procedure_running, hr, ha, deref, ho, hk, bind, Except.bind, pure,
              Except.pure]
          · simp [get_nas_specific_procedure, hr, ha, deref, ho, hk, bind, Except.bind, pure,
              Except.pure]
          · simp only [Bool.false_eq_true, true_and, false_iff, not_exists, not_and]
            intro r' a' o' hr' ha' ho' hk'
            cases hr'
            rw [ha] at ha'
            cases ha'
            rw [ho] at ho'
            cases ho'
            exact hk hk'.symm

/-- C40: for every context (absent, without registry, or with a registry whose
specific pointer is NULL or allocated) the three running tests return; at most
one of them is true; each is true if and only if the lookup of the same kind
returns a procedure; and all three are false exactly when there is no specific
procedure of kind Attach, Detach or TAU. -/
theorem C40_running_tests (s : State) (ctxt : Bool)
    (hvalid : ∀ r, s.emm_context.emm_procedures = some r → valid_ptr s r.emm_specific_proc = true) :
    ∃ ba bd bt pa pd pt,
      is_nas_specific_procedure_attach_running s ctxt = .ok ba ∧
      is_nas_specific_procedure_detach_running s ctxt = .ok bd ∧
      is_nas_specific_procedure_tau_running s ctxt = .ok bt ∧
      get_nas_specific_procedure_attach s ctxt = .ok pa ∧
      get_nas_specific_procedure_detach s ctxt = .ok pd ∧
      get_nas_specific_procedure_tau s ctxt = .ok pt ∧
      ¬ (ba = true ∧ bd = true) ∧ ¬ (ba = true ∧ bt = true) ∧ ¬ (bd = true ∧ bt = true) ∧
      (ba = true ↔ pa ≠ none) ∧ (bd = true ↔ pd ≠ none) ∧ (bt = true ↔ pt ≠ none) ∧
      ((ba = false ∧ bd = false ∧ bt = false) ↔ no_specific_of_kind s ctxt) := by
  obtain ⟨ba, pa, h1, h2, h3, h4⟩ := running_iff_get s ctxt .EMM_SPEC_PROC_TYPE_ATTACH hvalid
  obtain ⟨bd, pd, h5, h6, h7, h8⟩ := running_iff_get s ctxt .EMM_SPEC_PROC_TYPE_DETACH hvalid
  obtain ⟨bt, pt, h9, h10, h11, h12⟩ := running_iff_get s ctxt .EMM_SPEC_PROC_TYPE_TAU hvalid
  have huniq : ∀ k1 k2 : emm_specific_proc_type_t, k1 ≠ k2 →
      (ctxt = true ∧ ∃ r a o, s.emm_context.emm_procedures = some r ∧
        r.emm_specific_proc = some a ∧ s.procs a = some o ∧ o.spec_type = k1) →
      (ctxt = true ∧ ∃ r a o, s.emm_context.emm_procedures = some r ∧
        r.emm_specific_proc = some a ∧ s.procs a = some o ∧ o.spec_type = k2) → False := by
    rintro k1 k2 hne ⟨_, r, a, o, hr, ha, ho, hk⟩ ⟨_, r', a', o', hr', ha', ho', hk'⟩
    rw [hr] at hr'
    cases hr'
    rw [ha] at ha'
    cases ha'
    rw [ho] at ho'
    cases ho'
    exact hne (hk.symm.trans hk')
  refine ⟨ba, bd, bt, pa, pd, pt, h1, h5, h9, h2, h6, h10, ?_, ?_, ?_, h3, h7, h11, ?_⟩
  · rintro ⟨ha, hd⟩
    exact huniq _ _ (by decide) (h4.mp ha) (h8.mp hd)
  · rintro ⟨ha, ht⟩
    exact huniq _ _ (by decide) (h4.mp ha) (h12.mp ht)
  · rintro ⟨hd, ht⟩
    exact huniq _ _ (by decide) (h8.mp hd) (h12.mp ht)
  · constructor
    · rintro ⟨ha, hd, ht⟩
      cases hc : ctxt with
      | false => exact Or.inl rfl
      | true =>
        cases hr : s.emm_context.emm_procedures with
        | none => exact Or.inr (Or.inl hr)
        | some r =>
          refine Or.inr (Or.inr ⟨r, hr, ?_⟩)
          cases hp : r.emm_specific_proc with
          | none => exact Or.inl rfl
          | some a =>
            obtain ⟨o, ho⟩ : ∃ o, s.procs a = some o := by
              have := hvalid r hr
              rw [hp] at this
              exact Option.isSome_iff_exists.mp this
            refine Or.inr ⟨a, o, rfl, ho, ?_⟩
            cases hk : o.spec_type with
            | EMM_SPEC_PROC_TYPE_NONE => rfl
            | EMM_SPEC_PROC_TYPE_ATTACH =>
              have := h4.mpr ⟨hc, r, a, o, hr, hp, ho, hk⟩
              rw [ha] at this
              cases this
            | EMM_SPEC_PROC_TYPE_DETACH =>
              have := h8.mpr ⟨hc, r, a, o, hr, hp, ho, hk⟩
              rw [hd] at this
              cases this
            | EMM_SPEC_PROC_TYPE_TAU =>
              have := h12.mpr ⟨hc, r, a, o, hr, hp, ho, hk⟩
              rw [ht] at this
              cases this
    · intro hno
      have key : ∀ k : emm_specific_proc_type_t, k ≠ .EMM_SPEC_PROC_TYPE_NONE →
          ¬ (ctxt = true ∧ ∃ r a o, s.emm_context.emm_procedures = some r ∧
            r.emm_specific_proc = some a ∧ s.procs a = some o ∧ o.spec_type = k) := by
        rintro k hk ⟨hc, r, a, o, hr, ha, ho, hko⟩
        rcases hno with h | h | ⟨r', hr', h | ⟨a', o', ha', ho', hk'⟩⟩
        · rw [hc] at h
          cases h
        · rw [hr] at h
          cases h
        · rw [hr] at hr'
          cases hr'
          rw [ha] at h
          cases h
        · rw [hr] at hr'
          cases hr'
          rw [ha] at ha'
          cases ha'
          rw [ho] at ho'
          cases ho'
          exact hk (hko.symm.trans hk')
      refine ⟨?_, ?_, ?_⟩
      · cases hb : ba with
        | false => rfl
        | true => exact absurd (h4.mp hb) (key _ (by decide))
      · cases hb : bd with
        | false => rfl
        | true => exact absurd (h8.mp hb) (key _ (by decide))
      · cases hb : bt with
        | false => rfl
        | true => exact absurd (h12.mp hb) (key _ (by decide))

/-- Witness of C40: a registered device with an attach procedure; only the attach
test is true. -/
theorem C40_running_tests_witness :
    ∃ ba bd bt pa pd pt,
      is_nas_specific_procedure_attach_running (attach_state .EMM_REGISTERED) true = .ok ba ∧
      is_nas_specific_procedure_detach_running (attach_state .EMM_REGISTERED) true = .ok bd ∧
      is_nas_specific_procedure_tau_running (attach_state .EMM_REGISTERED) true = .ok bt ∧
      get_nas_specific_procedure_attach (attach_state .EMM_REGISTERED) true = .ok pa ∧
      get_nas_specific_procedure_detach (attach_state .EMM_REGISTERED) true = .ok pd ∧
      get_nas_specific_procedure_tau (attach_state .EMM_REGISTERED) true = .ok pt ∧
      ¬ (ba = true ∧ bd = true) ∧ ¬ (ba = true ∧ bt = true) ∧ ¬ (bd = true ∧ bt = true) ∧
      (ba = true ↔ pa ≠ none) ∧ (bd = true ↔ pd ≠ none) ∧ (bt = true ↔ pt ≠ none) ∧
      ((ba = false ∧ bd = false ∧ bt = false) ↔
        no_specific_of_kind (attach_state .EMM_REGISTERED) true) :=
  C40_running_tests (attach_state .EMM_REGISTERED) true (fun r hr => by
    have hr' : r = { emm_specific_proc := some 1 } := (Option.some.inj hr).symm
    subst hr'
    rfl)

/-- The run of `_emm_service_reject` on a present context and an allocated
procedure, as one equation. -/
theorem service_reject_run (env : collaborators_t) (s : State) (a : Addr) (o : nas_proc_t)
    (ho : s.procs a = some o) :
    _emm_service_reject env s true (some a)
      = .ok (env.emm_as_send (service_reject_primitive s o.emm_cause),
          { (if o.emm_cause = EMM_CAUSE_SUCCESS then
              store s a { o with emm_cause := EMM_CAUSE_IMPLICITLY_DETACHED } else s) with
            trace := s.trace ++ [Action.emm_sap_send
              (.EMMAS_ESTABLISH_REJ (service_reject_primitive s o.emm_cause))] }) := by
  by_cases hc : o.emm_cause = EMM_CAUSE_SUCCESS
  · simp [_emm_service_reject, deref, ho, hc, store, emm_sap_send, service_reject_primitive,
      emm_as_set_security_data, bind, Except.bind]
  · simp [_emm_service_reject, deref, ho, hc, emm_sap_send, service_reject_primitive,
      emm_as_set_security_data, bind, Except.bind]

/-- C39: for every present context and every allocated service-request
procedure, `_emm_service_reject` returns after one send of an
establishment-rejected primitive whose cause is never `EMM_CAUSE_SUCCESS`: a
procedure cause `EMM_CAUSE_SUCCESS` is sent as `EMM_CAUSE_IMPLICITLY_DETACHED`
and stored back in the procedure, any other cause is sent as it is and the
procedure is left as it was.  Without context or without procedure nothing is
sent. -/
theorem C39_never_cause_success (env : collaborators_t) (s : State) :
    (∀ a o, s.procs a = some o →
      ∃ rc s' m, _emm_service_reject env s true (some a) = .ok (rc, s') ∧
        s'.trace = s.trace ++ [Action.emm_sap_send (.EMMAS_ESTABLISH_REJ m)] ∧
        m.emm_cause ≠ EMM_CAUSE_SUCCESS ∧
        (o.emm_cause = EMM_CAUSE_SUCCESS →
          m.emm_cause = EMM_CAUSE_IMPLICITLY_DETACHED ∧
          s'.procs a = some { o with emm_cause := EMM_CAUSE_IMPLICITLY_DETACHED }) ∧
        (o.emm_cause ≠ EMM_CAUSE_SUCCESS →
          m.emm_cause = o.emm_cause ∧ s'.procs a = some o)) ∧
    (∀ c p rc s', (c = false ∨ p = none) →
      _emm_service_reject env s c p = .ok (rc, s') → s'.trace = s.trace) := by
  constructor
  · intro a o ho
    refine ⟨_, _, service_reject_primitive s o.emm_cause, service_reject_run env s a o ho, rfl,
      ?_, ?_, ?_⟩
    · by_cases hc : o.emm_cause = EMM_CAUSE_SUCCESS
      · simp [service_reject_primitive, hc, EMM_CAUSE_SUCCESS, EMM_CAUSE_IMPLICITLY_DETACHED]
      · simp [service_reject_primitive, hc]
    · intro hc
      simp [service_reject_primitive, hc, store]
    · intro hc
      simp [service_reject_primitive, hc, ho]
  · intro c p rc s' hcp h
    rcases hcp with hc | hp
    · subst hc
      cases p <;>
      · simp [_emm_service_reject] at h
        rw [← h.2]
    · subst hp
      simp [_emm_service_reject] at h
      rw [← h.2]

/-- Witness of C39: a procedure with cause `EMM_CAUSE_SUCCESS`; the primitive
carries `EMM_CAUSE_IMPLICITLY_DETACHED`. -/
theorem C39_never_cause_success_witness :
    ∃ rc s' m, _emm_service_reject env_found (service_request_state EMM_CAUSE_SUCCESS) true (some 1)
        = .ok (rc, s') ∧
      s'.trace = (service_request_state EMM_CAUSE_SUCCESS).trace ++
        [Action.emm_sap_send (.EMMAS_ESTABLISH_REJ m)] ∧
      m.emm_cause ≠ EMM_CAUSE_SUCCESS ∧
      m.emm_cause = EMM_CAUSE_IMPLICITLY_DETACHED := by
  obtain ⟨rc, s', m, h1, h2, h3, h4, _⟩ :=
    (C39_never_cause_success env_found (service_request_state EMM_CAUSE_SUCCESS)).1 1
      { base_type := .NAS_PROC_TYPE_EMM, emm_type := .NAS_EMM_PROC_TYPE_CONN_MNGT,
        con_mngt_type := .EMM_CON_MNGT_PROC_SERVICE_REQUEST, emm_cause := EMM_CAUSE_SUCCESS } rfl
  exact ⟨rc, s', m, h1, h2, h3, (h4 rfl).1⟩

/-- C37 (amended): when the context of the event is gone, `EmmCommonProcedureInitiated`
stops at its opening assertion on the stored state, whatever the primitive:
no branch runs, so no callback is called, no result is returned and no
procedure is deleted. -/
theorem C37_context_gone_stops (s : State) (evt : emm_reg_t) (hctx : evt.ctx = false) :
    (emm_fsm_set_state s evt.ue_id evt.ctx .EMM_DEREGISTERED).1 = RETURNerror ∧
    EmmCommonProcedureInitiated s evt = .error .assert_failed := by
  constructor
  · simp [emm_fsm_set_state, hctx]
  · simp [EmmCommonProcedureInitiated, emm_fsm_get_state, hctx]

/-- Witness of C37 (amended): a common-procedure confirm without context for the
authentication procedure of the device. -/
theorem C37_context_gone_stops_witness :
    (emm_fsm_set_state (common_proc_state auth_proc_obj) 0 false .EMM_DEREGISTERED).1
        = RETURNerror ∧
    EmmCommonProcedureInitiated (common_proc_state auth_proc_obj)
        { primitive := ._EMMREG_COMMON_PROC_CNF, ctx := false, notify := true,
          common_proc := some 1 } = .error .assert_failed :=
  C37_context_gone_stops (common_proc_state auth_proc_obj)
    { primitive := ._EMMREG_COMMON_PROC_CNF, ctx := false, notify := true,
      common_proc := some 1 } rfl

/-- C37 (counterexample): for a common-procedure abort without context, carrying
the authentication procedure of the device, the handler does not return: there
is no result, so neither RETURNerror nor a state in which the procedure has
been deleted; the run stops at the assertion. -/
theorem C37_counterexample_no_result :
    (¬ ∃ rc s', EmmCommonProcedureInitiated (common_proc_state auth_proc_obj)
        { primitive := ._EMMREG_COMMON_PROC_ABORT, ctx := false, common_proc := some 1 }
        = .ok (rc, s')) ∧
    EmmCommonProcedureInitiated (common_proc_state auth_proc_obj)
        { primitive := ._EMMREG_COMMON_PROC_ABORT, ctx := false, common_proc := some 1 }
      = .error .assert_failed := by
  have h : EmmCommonProcedureInitiated (common_proc_state auth_proc_obj)
      { primitive := ._EMMREG_COMMON_PROC_ABORT, ctx := false, common_proc := some 1 }
      = .error .assert_failed := rfl
  refine ⟨?_, h⟩
  rintro ⟨rc, s', hs'⟩
  rw [h] at hs'
  cases hs'

/-- The deletion of an allocated common procedure reads the registry through the
context pointer without a test: with a NULL context it does not return. -/
theorem delete_common_null_context (s : State) (a : Addr) (o : nas_proc_t)
    (ho : s.procs a = some o) :
    nas_delete_common_procedure s false (some a) = .error .null_dereference := by
  simp [nas_delete_common_procedure, deref, ho, bind, Except.bind, throw, throwThe,
    MonadExceptOf.throw]

/-- The constructors of common procedures on a registry that exists: the new
procedure `o` is allocated at the next free address, its wrapper is put at the
head of the common list, in front of the previous list, and nothing else
changes. -/
theorem install_common_registry_present (s : State) (r : emm_procedures_t) (o : nas_proc_t)
    (hr : s.emm_context.emm_procedures = some r) :
    ∃ s', (do let s1 ← ensure_emm_procedures s; install_common_proc s1 o)
        = .ok (some s.brk, s') ∧
      s'.procs s.brk = some o ∧ (∀ x, x ≠ s.brk → s'.procs x = s.procs x) ∧
      s'.emm_context.emm_procedures =
        some { r with emm_common_procs :=
          { addr := s.brk + 1, proc := some s.brk } :: r.emm_common_procs } ∧
      s'.emm_context._emm_fsm_state = s.emm_context._emm_fsm_state ∧ s'.trace = s.trace := by
  refine ⟨set_emm_procedures
      { (store (calloc s).2 s.brk o) with brk := s.brk + 2 }
      (some { r with emm_common_procs :=
        { addr := s.brk + 1, proc := some s.brk } :: r.emm_common_procs }), ?_, ?_, ?_, rfl, rfl, rfl⟩
  · simp [ensure_emm_procedures, hr, install_common_proc, calloc, calloc_node, store,
      set_emm_procedures, bind, Except.bind]
  · simp [store, set_emm_procedures]
  · intro x hx
    simp [store, set_emm_procedures, calloc, hx]

/-- The part of C33 that holds: on a registry that exists, whatever its common
list holds, the three constructors return the new procedure, tagged and with
its timer duration from the configuration, at the head of the common list; the
other three collections, the other procedures, the FSM state and the trace are
unchanged. -/
theorem new_common_registry_present (s : State) (r : emm_procedures_t)
    (hr : s.emm_context.emm_procedures = some r) :
    (∃ s', nas_new_authentication_procedure s = .ok (some s.brk, s') ∧
      s'.procs s.brk = some
        { base_type := .NAS_PROC_TYPE_EMM, emm_type := .NAS_EMM_PROC_TYPE_COMMON,
          comm_type := .EMM_COMM_PROC_AUTH,
          T3460 := { sec := s.mme_config.t3460_sec, id := NAS_TIMER_INACTIVE_ID } } ∧
      (∀ x, x ≠ s.brk → s'.procs x = s.procs x) ∧
      s'.emm_context.emm_procedures =
        some { r with emm_common_procs :=
          { addr := s.brk + 1, proc := some s.brk } :: r.emm_common_procs }) ∧
    (∃ s', nas_new_smc_procedure s = .ok (some s.brk, s') ∧
      s'.procs s.brk = some
        { base_type := .NAS_PROC_TYPE_EMM, emm_type := .NAS_EMM_PROC_TYPE_COMMON,
          comm_type := .EMM_COMM_PROC_SMC,
          T3460 := { sec := s.mme_config.t3460_sec, id := NAS_TIMER_INACTIVE_ID } } ∧
      (∀ x, x ≠ s.brk → s'.procs x = s.procs x) ∧
      s'.emm_context.emm_procedures =
        some { r with emm_common_procs :=
          { addr := s.brk + 1, proc := some s.brk } :: r.emm_common_procs }) ∧
    (∃ s', nas_new_identification_procedure s = .ok (some s.brk, s') ∧
      s'.procs s.brk = some
        { base_type := .NAS_PROC_TYPE_EMM, emm_type := .NAS_EMM_PROC_TYPE_COMMON,
          comm_type := .EMM_COMM_PROC_IDENT,
          T3470 := { sec := s.mme_config.t3470_sec, id := NAS_TIMER_INACTIVE_ID } } ∧
      (∀ x, x ≠ s.brk → s'.procs x = s.procs x) ∧
      s'.emm_context.emm_procedures =
        some { r with emm_common_procs :=
          { addr := s.brk + 1, proc := some s.brk } :: r.emm_common_procs }) := by
  refine ⟨?_, ?_, ?_⟩
  · obtain ⟨s', h1, h2, h3, h4, _⟩ := install_common_registry_present s r
      { base_type := .NAS_PROC_TYPE_EMM, emm_type := .NAS_EMM_PROC_TYPE_COMMON,
        comm_type := .EMM_COMM_PROC_AUTH,
        T3460 := { sec := s.mme_config.t3460_sec, id := NAS_TIMER_INACTIVE_ID } } hr
    exact ⟨s', h1, h2, h3, h4⟩
  · obtain ⟨s', h1, h2, h3, h4, _⟩ := install_common_registry_present s r
      { base_type := .NAS_PROC_TYPE_EMM, emm_type := .NAS_EMM_PROC_TYPE_COMMON,
        comm_type := .EMM_COMM_PROC_SMC,
        T3460 := { sec := s.mme_config.t3460_sec, id := NAS_TIMER_INACTIVE_ID } } hr
    exact ⟨s', h1, h2, h3, h4⟩
  · obtain ⟨s', h1, h2, h3, h4, _⟩ := install_common_registry_present s r
      { base_type := .NAS_PROC_TYPE_EMM, emm_type := .NAS_EMM_PROC_TYPE_COMMON,
        comm_type := .EMM_COMM_PROC_IDENT,
        T3470 := { sec := s.mme_config.t3470_sec, id := NAS_TIMER_INACTIVE_ID } } hr
    exact ⟨s', h1, h2, h3, h4⟩

/-- C33 (evaluation at the failing input): on a context without registry none of
the three constructors of common procedures returns: each stops in
`_nas_new_emm_procedures`, at the write through the NULL registry pointer of the
context. -/
theorem C33_new_common_absent_registry :
    nas_new_authentication_procedure (mk_state .EMM_DEREGISTERED none)
      = .error .null_dereference ∧
    nas_new_smc_procedure (mk_state .EMM_DEREGISTERED none) = .error .null_dereference ∧
    nas_new_identification_procedure (mk_state .EMM_DEREGISTERED none)
      = .error .null_dereference :=
  ⟨rfl, rfl, rfl⟩

/-- C36 (evaluation at the failing input): the authentication procedure of the
device has its timer T3460 running.  `nas_delete_common_procedure` frees the
procedure and unlinks it from the common list, and it makes no call to a
collaborator: the trace is empty afterwards, no stop of the timer has been
issued. -/
theorem C36_delete_common_stops_no_timer :
    (∃ o, auth_timer_state.procs 1 = some o ∧ o.T3460.id ≠ NAS_TIMER_INACTIVE_ID) ∧
    ∃ s', nas_delete_common_procedure auth_timer_state true (some 1) = .ok (s', none) ∧
      s'.procs 1 = none ∧ s'.emm_context.emm_procedures = some {} ∧ s'.trace = [] :=
  ⟨⟨_, rfl, by decide⟩, _, rfl, rfl, rfl, rfl⟩

/-- The part of C36 that holds: the deletion of an attach or TAU procedure without
children issues exactly one stop of T3450, for the device and the timer of the
procedure. -/
theorem delete_specific_stops_T3450 (s : State) (r : emm_procedures_t) (a : Addr)
    (o : nas_proc_t)
    (hr : s.emm_context.emm_procedures = some r) (ha : r.emm_specific_proc = some a)
    (ho : s.procs a = some o) (hn : no_child_in_registry s r a = true) :
    (o.spec_type = .EMM_SPEC_PROC_TYPE_ATTACH →
      ∃ s', nas_delete_attach_procedure s true = .ok s' ∧
        s'.trace = s.trace ++ [Action.nas_stop_T3450 s.mme_ue_s1ap_id o.T3450]) ∧
    (o.spec_type = .EMM_SPEC_PROC_TYPE_TAU →
      ∃ s', nas_delete_tau_procedure s true = .ok s' ∧
        s'.trace = s.trace ++ [Action.nas_stop_T3450 s.mme_ue_s1ap_id o.T3450]) := by
  obtain ⟨s', h1, _, h3, _⟩ := delete_t3450_without_children s r a o hr ha ho hn
  constructor
  · intro hk
    have hg := get_specific_eq s r a o .EMM_SPEC_PROC_TYPE_ATTACH hr ha ho
    simp only [hk, if_true] at hg
    refine ⟨s', ?_, h3⟩
    simpa [nas_delete_attach_procedure, get_nas_specific_procedure_attach, hg, bind, Except.bind]
      using h1
  · intro hk
    have hg := get_specific_eq s r a o .EMM_SPEC_PROC_TYPE_TAU hr ha ho
    simp only [hk, if_true] at hg
    refine ⟨s', ?_, h3⟩
    simpa [nas_delete_tau_procedure, get_nas_specific_procedure_tau, hg, bind, Except.bind]
      using h1

/-- C38 (evaluation at the failing input): the attach procedure of the device is
the parent of the authentication procedure in the common list.
`nas_delete_attach_procedure` does not return: `nas_delete_child_procedures`
calls `nas_delete_common_procedure`, which unlinks and frees the list node, and
then unlinks and frees the same node again. -/
theorem C38_delete_specific_with_common_child :
    (∃ o, attach_with_auth_child.procs 2 = some o ∧ o.parent = some 1) ∧
    nas_delete_attach_procedure attach_with_auth_child true = .error .invalid_pointer ∧
    (∃ s1, nas_delete_common_procedure attach_with_auth_child true (some 2) = .ok (s1, none) ∧
      list_remove_common s1 { addr := 3, proc := some 2 } = .error .invalid_pointer) :=
  ⟨⟨_, rfl, rfl⟩, rfl, _, rfl, rfl⟩

/-- The loop of `get_nas_common_procedure` over nodes that wrap allocated
procedures returns the procedure of the first node of the requested kind. -/
theorem common_loop_eq_find (s : State) (k : emm_common_proc_type_t)
    (l : List nas_emm_common_procedure_t) (hwf : common_wf s l = true) :
    get_nas_common_procedure_loop s k l =
      .ok (match l.find? (wraps_common_kind s k) with
           | some w => w.proc
           | none => none) := by
  induction l with
  | nil => rfl
  | cons w l ih =>
    simp only [common_wf, List.all_cons, Bool.and_eq_true] at hwf
    have ih2 := ih hwf.2
    cases hw : w.proc with
    | none => simp [hw] at hwf
    | some a =>
      cases ho : s.procs a with
      | none => simp [hw, ho] at hwf
      | some o =>
        by_cases hk : o.comm_type = k
        · simp [get_nas_common_procedure_loop, hw, deref, ho, hk, wraps_common_kind, List.find?, bind,
            Except.bind, pure, Except.pure]
        · simp only [get_nas_common_procedure_loop, hw, deref, ho, hk, bind, Except.bind, if_false]
          rw [ih2]
          simp [List.find?, wraps_common_kind, hw, ho, hk]

/-- C34: on a context whose registry, if there is one, holds only usable pointers,
every lookup returns, and it returns what the spec says: the common lookup
(`get_nas_common_procedure`, of which `..._authentication`, `..._smc`,
`..._identification` and `..._guti_realloc` are the four instances) returns the
procedure of the first node of kind `k` in list order, and NULL exactly when
the context is absent, the registry is absent or no node of the list has kind
`k`; the specific lookups and the connection-management lookup return the
stored procedure if it has the requested kind and NULL otherwise.  The lookups
are reads: they return a pointer and no memory. -/
theorem C34_lookups (s : State) (ctxt : Bool) (hwf : lookups_readable s = true) :
    (∀ k, get_nas_common_procedure s ctxt k = .ok (find_common_spec s ctxt k) ∧
      (find_common_spec s ctxt k = none ↔
        ctxt = false ∨ s.emm_context.emm_procedures = none ∨
        ∃ r, s.emm_context.emm_procedures = some r ∧
          ∀ w ∈ r.emm_common_procs, wraps_common_kind s k w = false)) ∧
    (get_nas_common_procedure_authentication s ctxt = .ok (find_common_spec s ctxt .EMM_COMM_PROC_AUTH) ∧
      get_nas_common_procedure_smc s ctxt = .ok (find_common_spec s ctxt .EMM_COMM_PROC_SMC) ∧
      get_nas_common_procedure_identification s ctxt
        = .ok (find_common_spec s ctxt .EMM_COMM_PROC_IDENT) ∧
      get_nas_common_procedure_guti_realloc s ctxt
        = .ok (find_common_spec s ctxt .EMM_COMM_PROC_GUTI)) ∧
    (get_nas_specific_procedure_attach s ctxt
        = .ok (find_specific_spec s ctxt .EMM_SPEC_PROC_TYPE_ATTACH) ∧
      get_nas_specific_procedure_tau s ctxt
        = .ok (find_specific_spec s ctxt .EMM_SPEC_PROC_TYPE_TAU) ∧
      get_nas_specific_procedure_detach s ctxt
        = .ok (find_specific_spec s ctxt .EMM_SPEC_PROC_TYPE_DETACH)) ∧
    get_nas_con_mngt_procedure_service_request s ctxt
      = .ok (find_con_mngt_spec s ctxt .EMM_CON_MNGT_PROC_SERVICE_REQUEST) := by
  have hcommon : ∀ k, get_nas_common_procedure s ctxt k = .ok (find_common_spec s ctxt k) := by
    intro k
    cases ctxt with
    | false => simp [get_nas_common_procedure, find_common_spec]
    | true =>
      cases hr : s.emm_context.emm_procedures with
      | none => simp [get_nas_common_procedure, find_common_spec, hr]
      | some r =>
        have hl : common_wf s r.emm_common_procs = true := by
          simp only [lookups_readable, hr, Bool.and_eq_true] at hwf
          exact hwf.1.1
        simp only [get_nas_common_procedure, find_common_spec, hr, if_true]
        exact common_loop_eq_find s k _ hl
  have hspecific : ∀ k, get_nas_specific_procedure s ctxt k = .ok (find_specific_spec s ctxt k) := by
    intro k
    cases ctxt with
    | false => simp [get_nas_specific_procedure, find_specific_spec]
    | true =>
      cases hr : s.emm_context.emm_procedures with
      | none => simp [get_nas_specific_procedure, find_specific_spec, hr]
      | some r =>
        cases ha : r.emm_specific_proc with
        | none => simp [get_nas_specific_procedure, find_specific_spec, hr, ha]
        | some a =>
          obtain ⟨o, ho⟩ : ∃ o, s.procs a = some o := by
            simp only [lookups_readable, hr, Bool.and_eq_true, ha] at hwf
            exact Option.isSome_iff_exists.mp hwf.1.2
          by_cases hk : k = o.spec_type
          · simp [get_nas_specific_procedure, find_specific_spec, hr, ha, deref, ho, hk, bind,
              Except.bind, pure, Except.pure]
          · have hk' : ¬ o.spec_type = k := fun h => hk h.symm
            simp [get_nas_specific_procedure, find_specific_spec, hr, ha, deref, ho, hk, hk', bind,
              Except.bind, pure, Except.pure]
  refine ⟨fun k => ⟨hcommon k, ?_⟩, ⟨hcommon _, hcommon _, hcommon _, hcommon _⟩,
    ⟨hspecific _, hspecific _, hspecific _⟩, ?_⟩
  · cases ctxt with
    | false => simp [find_common_spec]
    | true =>
      cases hr : s.emm_context.emm_procedures with
      | none => simp [find_common_spec, hr]
      | some r =>
        have hl : common_wf s r.emm_common_procs = true := by
          simp only [lookups_readable, hr, Bool.and_eq_true] at hwf
          exact hwf.1.1
        simp only [find_common_spec, hr, if_true, Bool.true_eq_false, reduceCtorEq, false_or,
          Option.some.injEq, exists_eq_left']
        cases hf : r.emm_common_procs.find? (wraps_common_kind s k) with
        | none =>
          simp only [true_iff]
          intro w hw
          have := List.find?_eq_none.mp hf w hw
          simpa using this
        | some w =>
          have hmem := List.mem_of_find?_eq_some hf
          have hsome := List.find?_some hf
          constructor
          · intro hnone
            have hw : wraps_common_kind s k w = true := hsome
            have hnone' : w.proc = none := hnone
            simp [wraps_common_kind, hnone'] at hw
          · intro hall
            have := hall w hmem
            rw [hsome] at this
            cases this
  · cases ctxt with
    | false => simp [get_nas_con_mngt_procedure_service_request, find_con_mngt_spec]
    | true =>
      cases hr : s.emm_context.emm_procedures with
      | none => simp [get_nas_con_mngt_procedure_service_request, find_con_mngt_spec, hr]
      | some r =>
        cases ha : r.emm_con_mngt_proc with
        | none => simp [get_nas_con_mngt_procedure_service_request, find_con_mngt_spec, hr, ha]
        | some a =>
          obtain ⟨o, ho⟩ : ∃ o, s.procs a = some o := by
            simp only [lookups_readable, hr, Bool.and_eq_true, ha] at hwf
            exact Option.isSome_iff_exists.mp hwf.2
          by_cases hk : emm_con_mngt_proc_type_t.EMM_CON_MNGT_PROC_SERVICE_REQUEST = o.con_mngt_type
          · simp [get_nas_con_mngt_procedure_service_request, find_con_mngt_spec, hr, ha, deref, ho,
              hk.symm, bind, Except.bind, pure, Except.pure]
          · have hk' : ¬ o.con_mngt_type = .EMM_CON_MNGT_PROC_SERVICE_REQUEST := fun h => hk h.symm
            simp [get_nas_con_mngt_procedure_service_request, find_con_mngt_spec, hr, ha, deref, ho,
              hk, hk', bind, Except.bind, pure, Except.pure]

/-- Witness of C34: in `lookup_state` the authentication lookup returns the first
of the two authentication procedures, the security-mode lookup returns NULL,
the TAU lookup returns the specific procedure and the attach lookup NULL. -/
theorem C34_lookups_witness :
    get_nas_common_procedure_authentication lookup_state true = .ok (some 3) ∧
    get_nas_common_procedure_smc lookup_state true = .ok none ∧
    get_nas_specific_procedure_tau lookup_state true = .ok (some 1) ∧
    get_nas_specific_procedure_attach lookup_state true = .ok none ∧
    get_nas_con_mngt_procedure_service_request lookup_state true = .ok none := by
  obtain ⟨_, ⟨h1, h2, _, _⟩, ⟨h3, h4, _⟩, h5⟩ := C34_lookups lookup_state true rfl
  exact ⟨h1, h2, h4.symm ▸ rfl, h3.symm ▸ rfl, h5⟩

/-- C35 (amended): for a registry whose core-network list has a node wrapping the
allocated authentication-info procedure `q`, whose parent `p` is another
allocated procedure: `nas_delete_cn_procedure` returns; `q` is freed and its
node is removed from the core-network list; the child link of `p` is cleared,
whatever procedure it referred to, and every other field of `p` is unchanged;
every other procedure, the rest of the registry, the FSM state and the trace
are unchanged. -/
theorem C35_delete_cn_clears_parent_child (s : State) (r : emm_procedures_t) (q p : Addr)
    (oq op : nas_proc_t) (p1 : nas_cn_procedure_t)
    (hr : s.emm_context.emm_procedures = some r)
    (hfind : r.cn_procs.find? (fun w => w.proc = some q) = some p1)
    (hq : s.procs q = some oq) (hk : oq.cn_type = .CN_PROC_AUTH_INFO)
    (hpar : oq.parent = some p) (hp : s.procs p = some op) (hne : p ≠ q) :
    ∃ s', nas_delete_cn_procedure s true (some q) = .ok s' ∧
      s'.procs q = none ∧
      s'.procs p = some { op with child := none } ∧
      (∀ x, x ≠ p → x ≠ q → s'.procs x = s.procs x) ∧
      s'.emm_context.emm_procedures = some { r with cn_procs := r.cn_procs.erase p1 } ∧
      s'.emm_context._emm_fsm_state = s.emm_context._emm_fsm_state ∧ s'.trace = s.trace := by
  have hmem : p1 ∈ r.cn_procs := List.mem_of_find?_eq_some hfind
  have hqp : q ≠ p := fun h => hne h.symm
  refine ⟨set_emm_procedures
      { (store s p { op with child := none }) with
        procs := fun x => if x = q then none else (store s p { op with child := none }).procs x }
      (some { r with cn_procs := r.cn_procs.erase p1 }), ?_, ?_, ?_, ?_, rfl, rfl, rfl⟩
  · have hfw : free_wrapper (store s p { op with child := none }) (some q)
        = .ok { (store s p { op with child := none }) with
            procs := fun x => if x = q then none
              else (store s p { op with child := none }).procs x } := by
      simp [free_wrapper, store, hqp, hq]
    simp only [nas_delete_cn_procedure, Bool.true_eq_false, if_false, hr, hfind, deref, hq, hk,
      bind, Except.bind, nas_delete_auth_info_procedure, hpar, hp, pure, Except.pure, hfw]
    simp [list_remove_cn, store, hr, hmem, set_emm_procedures]
  · simp [set_emm_procedures]
  · simp [set_emm_procedures, store, hne]
  · intro x hxp hxq
    simp [set_emm_procedures, store, hxp, hxq]

/-- Witness of C35 (amended): the authentication-info procedure at address 4 of
`full_registry_state`, child of the authentication procedure at address 2. -/
theorem C35_delete_cn_clears_parent_child_witness :
    ∃ s', nas_delete_cn_procedure full_registry_state true (some 4) = .ok s' ∧
      s'.procs 4 = none ∧
      s'.procs 2 = some
        { base_type := .NAS_PROC_TYPE_EMM, emm_type := .NAS_EMM_PROC_TYPE_COMMON,
          comm_type := .EMM_COMM_PROC_AUTH, parent := some 1, child := none } ∧
      (∀ x, x ≠ 2 → x ≠ 4 → s'.procs x = full_registry_state.procs x) ∧
      s'.emm_context.emm_procedures = some
        { emm_specific_proc := some 1,
          emm_common_procs := [{ addr := 3, proc := some 2 }],
          cn_procs := [],
          emm_con_mngt_proc := some 6 } ∧
      s'.emm_context._emm_fsm_state = full_registry_state.emm_context._emm_fsm_state ∧
      s'.trace = full_registry_state.trace :=
  C35_delete_cn_clears_parent_child full_registry_state
    { emm_specific_proc := some 1,
      emm_common_procs := [{ addr := 3, proc := some 2 }],
      cn_procs := [{ addr := 5, proc := some 4 }],
      emm_con_mngt_proc := some 6 } 4 2
    { base_type := .NAS_PROC_TYPE_CN, cn_type := .CN_PROC_AUTH_INFO, parent := some 2 }
    { base_type := .NAS_PROC_TYPE_EMM, emm_type := .NAS_EMM_PROC_TYPE_COMMON,
      comm_type := .EMM_COMM_PROC_AUTH, parent := some 1, child := some 4 }
    { addr := 5, proc := some 4 } rfl rfl rfl rfl rfl rfl (by decide)

/-- C35 (counterexample): the parent of the authentication-info procedure at
address 2 is the procedure at address 1, whose child link refers to another
procedure, the one at address 3.  `nas_delete_cn_procedure` on the procedure at
address 2 clears that child link all the same. -/
theorem C35_counterexample_other_child :
    (∃ o, cn_other_child_state.procs 2 = some o ∧ o.parent = some 1) ∧
    (∃ o, cn_other_child_state.procs 1 = some o ∧ o.child = some 3) ∧
    ∃ s', nas_delete_cn_procedure cn_other_child_state true (some 2) = .ok s' ∧
      ∃ o, s'.procs 1 = some o ∧ o.child = none ∧ o.child ≠ some 3 :=
  ⟨⟨_, rfl, rfl⟩, ⟨_, rfl, rfl⟩, _, rfl, _, rfl, rfl, by decide⟩

/-- The run of `emm_proc_tracking_area_update_reject` for a device that is found
and is in `EMM_REGISTERED`, as one equation: the event is sent and processed by
`EmmRegistered`, which sets the state and calls the nested-failure callback of
the local procedure; the registry is not touched. -/
theorem tau_reject_run (env : collaborators_t) (s : State) (ue_id : Nat) (c : emm_cause_t)
    (hfound : env.mme_ue_context_exists_mme_ue_s1ap_id ue_id = true)
    (hst : s.emm_context._emm_fsm_state = .EMM_REGISTERED) :
    emm_sap_send env (store (calloc s).2 s.brk (dummy_tau_proc c))
        (.EMMREG (tau_reject_event ue_id s.brk))
      = .ok (s.callback_rc ._emm_attach_reject,
          { (store (calloc s).2 s.brk (dummy_tau_proc c)) with
            emm_context := { s.emm_context with _emm_fsm_state := .EMM_DEREGISTERED },
            trace := s.trace ++
              [Action.emm_sap_send (.EMMREG (tau_reject_event ue_id s.brk)),
               Action.emm_fsm_set_state ue_id .EMM_DEREGISTERED,
               Action.callback .fail_out ._emm_attach_reject (some s.brk)] }) ∧
    emm_proc_tracking_area_update_reject env s ue_id c
      = .ok (s.callback_rc ._emm_attach_reject,
          { s with
            procs := fun x => if x = s.brk then none else s.procs x,
            brk := s.brk + 1,
            emm_context := { s.emm_context with _emm_fsm_state := .EMM_DEREGISTERED },
            trace := s.trace ++
              [Action.emm_sap_send (.EMMREG (tau_reject_event ue_id s.brk)),
               Action.emm_fsm_set_state ue_id .EMM_DEREGISTERED,
               Action.callback .fail_out ._emm_attach_reject (some s.brk)] }) := by
  have h1 : emm_sap_send env (store (calloc s).2 s.brk (dummy_tau_proc c))
        (.EMMREG (tau_reject_event ue_id s.brk))
      = .ok (s.callback_rc ._emm_attach_reject,
          { (store (calloc s).2 s.brk (dummy_tau_proc c)) with
            emm_context := { s.emm_context with _emm_fsm_state := .EMM_DEREGISTERED },
            trace := s.trace ++
              [Action.emm_sap_send (.EMMREG (tau_reject_event ue_id s.brk)),
               Action.emm_fsm_set_state ue_id .EMM_DEREGISTERED,
               Action.callback .fail_out ._emm_attach_reject (some s.brk)] }) := by
    simp [emm_sap_send, emm_fsm_process, emm_fsm_get_state, tau_reject_event, store, calloc, hst,
      EmmRegistered, emm_fsm_set_state, tau_cnf_rej, deref, dummy_tau_proc, call_callback, bind,
      Except.bind, pure, Except.pure]
  refine ⟨h1, ?_⟩
  have h2 : emm_proc_tracking_area_update_reject env s ue_id c = (do
      let (rc, s3) ← emm_sap_send env (store (calloc s).2 s.brk (dummy_tau_proc c))
        (.EMMREG (tau_reject_event ue_id s.brk))
      pure (rc, { s3 with procs := fun x => if x = s.brk then none else s3.procs x })) := by
    simp [emm_proc_tracking_area_update_reject, hfound, dummy_tau_proc, tau_reject_event, calloc]
  rw [h2, h1]
  simp only [bind, Except.bind, pure, Except.pure, store, calloc]
  congr 2
  simp only [State.mk.injEq, and_true, true_and]
  funext x
  by_cases hx : x = s.brk <;> simp [hx]

/-- C31 (amended): for a device that the lookup finds, whose context is in
`EMM_REGISTERED`, on a heap whose next free address is unused:
`emm_proc_tracking_area_update_reject (ue_id, cause)` returns the result of the
nested-failure callback; it sends one TAU-reject event, with notify and free
flag not set, that `EmmRegistered` processes: the FSM state is set to
`EMM_DEREGISTERED` and the nested-failure callback of the event's procedure is
called once, with a local procedure whose EMM cause is the given cause; the
registry and every procedure of the heap are unchanged, so the TAU procedure of
the device is not deleted: `get_nas_specific_procedure_tau` returns what it
returned before. -/
theorem C31_tau_reject_keeps_procedure (env : collaborators_t) (s : State) (ue_id : Nat)
    (c : emm_cause_t)
    (hfound : env.mme_ue_context_exists_mme_ue_s1ap_id ue_id = true)
    (hst : s.emm_context._emm_fsm_state = .EMM_REGISTERED)
    (hfresh : s.procs s.brk = none) :
    ∃ s', emm_proc_tracking_area_update_reject env s ue_id c
        = .ok (s.callback_rc ._emm_attach_reject, s') ∧
      s'.emm_context._emm_fsm_state = .EMM_DEREGISTERED ∧
      s'.trace = s.trace ++
        [Action.emm_sap_send (.EMMREG (tau_reject_event ue_id s.brk)),
         Action.emm_fsm_set_state ue_id .EMM_DEREGISTERED,
         Action.callback .fail_out ._emm_attach_reject (some s.brk)] ∧
      (∃ s3, emm_sap_send env (store (calloc s).2 s.brk (dummy_tau_proc c))
          (.EMMREG (tau_reject_event ue_id s.brk))
          = .ok (s.callback_rc ._emm_attach_reject, s3) ∧
        s3.procs s.brk = some (dummy_tau_proc c) ∧ (dummy_tau_proc c).emm_cause = c) ∧
      s'.procs = s.procs ∧
      s'.emm_context.emm_procedures = s.emm_context.emm_procedures ∧
      get_nas_specific_procedure_tau s' true = get_nas_specific_procedure_tau s true := by
  obtain ⟨h1, h2⟩ := tau_reject_run env s ue_id c hfound hst
  have hprocs : (fun x => if x = s.brk then none else s.procs x) = s.procs := by
    funext x
    by_cases hx : x = s.brk
    · simp [hx, hfresh]
    · simp [hx]
  refine ⟨_, h2, rfl, rfl, ⟨_, h1, ?_, rfl⟩, hprocs, rfl, ?_⟩
  · simp [store]
  · have hp : ∀ a, (if a = s.brk then none else s.procs a) = s.procs a :=
      fun a => congrFun hprocs a
    simp only [get_nas_specific_procedure_tau, get_nas_specific_procedure, deref, hp]

/-- Witness of C31 (amended): the registered device of `tau_state`, whose registry
holds a TAU procedure at address 1; afterwards the lookup still returns it. -/
theorem C31_tau_reject_keeps_procedure_witness :
    ∃ s', emm_proc_tracking_area_update_reject env_found (tau_state RETURNok) 3 9
        = .ok (RETURNok, s') ∧
      s'.emm_context._emm_fsm_state = .EMM_DEREGISTERED ∧
      s'.trace =
        [Action.emm_sap_send (.EMMREG (tau_reject_event 3 100)),
         Action.emm_fsm_set_state 3 .EMM_DEREGISTERED,
         Action.callback .fail_out ._emm_attach_reject (some 100)] ∧
      get_nas_specific_procedure_tau s' true = .ok (some 1) := by
  obtain ⟨s', h1, h2, h3, _, _, _, h7⟩ :=
    C31_tau_reject_keeps_procedure env_found (tau_state RETURNok) 3 9 rfl rfl rfl
  exact ⟨s', h1, h2, h3, h7.trans rfl⟩

/-- C31 (counterexample): after `emm_proc_tracking_area_update_reject` on the
registered device of `tau_state`, `get_nas_specific_procedure_tau` does not
return NULL: the TAU procedure of the device, at address 1, is still in the
registry and allocated. -/
theorem C31_counterexample_not_deleted :
    get_nas_specific_procedure_tau (tau_state RETURNok) true = .ok (some 1) ∧
    ∃ rc s', emm_proc_tracking_area_update_reject env_found (tau_state RETURNok) 3 9
        = .ok (rc, s') ∧
      get_nas_specific_procedure_tau s' true = .ok (some 1) ∧
      get_nas_specific_procedure_tau s' true ≠ .ok none ∧
      (s'.procs 1).isSome = true := by
  refine ⟨rfl, _, _, rfl, rfl, ?_, rfl⟩
  intro h
  have h2 := h.symm.trans (rfl : _ = (Except.ok (some 1) : Except Fault Ptr))
  cases h2

/-- What the sibling handler would send: on a present context and an allocated
procedure with cause `c`, `_emm_tracking_area_update_reject` sends one
establishment-rejected primitive with the NAS-info discriminator of the TAU and
the cause `c`, and returns the result of the send. -/
theorem tau_reject_handler_primitive (env : collaborators_t) (s : State) (a : Addr)
    (o : nas_proc_t) (ho : s.procs a = some o) :
    ∃ m, _emm_tracking_area_update_reject env s true (some a)
        = .ok (env.emm_as_send m,
            { s with trace := s.trace ++ [Action.emm_sap_send (.EMMAS_ESTABLISH_REJ m)] }) ∧
      m.nas_info = .EMM_AS_NAS_INFO_TAU ∧ m.emm_cause = o.emm_cause ∧
      m.ue_id = s.mme_ue_s1ap_id := by
  refine ⟨{ ue_id := s.mme_ue_s1ap_id, guti := false, emm_cause := o.emm_cause,
            nas_info := .EMM_AS_NAS_INFO_TAU, nas_msg := false,
            sctx := emm_as_set_security_data s.emm_context._security false true }, ?_, rfl, rfl,
    rfl⟩
  simp [_emm_tracking_area_update_reject, deref, ho, emm_sap_send, bind, Except.bind]

/-- C32 (evaluation at the failing input): the procedure that
`emm_proc_tracking_area_update_reject` fills has the attach-reject handler
`_emm_attach_reject` in its nested-failure slot, not
`_emm_tracking_area_update_reject`; on the registered device of `tau_state` the
one callback called is `_emm_attach_reject`, and the calls recorded contain no
call of `_emm_tracking_area_update_reject` and no establishment-rejected
primitive. -/
theorem C32_tau_reject_installs_attach_handler :
    (∀ c, (dummy_tau_proc c).fail_out = some ._emm_attach_reject ∧
      (dummy_tau_proc c).fail_out ≠ some ._emm_tracking_area_update_reject) ∧
    ∃ rc s', emm_proc_tracking_area_update_reject env_found (tau_state RETURNok) 3 9
        = .ok (rc, s') ∧
      s'.trace =
        [Action.emm_sap_send (.EMMREG (tau_reject_event 3 100)),
         Action.emm_fsm_set_state 3 .EMM_DEREGISTERED,
         Action.callback .fail_out ._emm_attach_reject (some 100)] ∧
      (∀ slot p, Action.callback slot ._emm_tracking_area_update_reject p ∉ s'.trace) ∧
      (∀ m, Action.emm_sap_send (.EMMAS_ESTABLISH_REJ m) ∉ s'.trace) := by
  refine ⟨fun c => ⟨rfl, by simp [dummy_tau_proc]⟩, _, _, rfl, rfl, ?_, ?_⟩
  · intro slot p h
    have h' : Action.callback slot ._emm_tracking_area_update_reject p ∈
        [Action.emm_sap_send (.EMMREG (tau_reject_event 3 100)),
         Action.emm_fsm_set_state 3 .EMM_DEREGISTERED,
         Action.callback .fail_out ._emm_attach_reject (some 100)] := h
    simp at h'
  · intro m h
    have h' : Action.emm_sap_send (.EMMAS_ESTABLISH_REJ m) ∈
        [Action.emm_sap_send (.EMMREG (tau_reject_event 3 100)),
         Action.emm_fsm_set_state 3 .EMM_DEREGISTERED,
         Action.callback .fail_out ._emm_attach_reject (some 100)] := h
    simp at h'

end Emm
